import Mathlib

/-!
Shallow embedding of the RLWE-based key-exchange core of the repository
(`src/rlweBTCETH3.js` and `src/rlweBTCETH2.js`).  The repository holds three
near-identical copies of the program; they differ only in the modular
arithmetic helpers:

* `rlweBTCETH3.js` (and the first copy inside `rlweBTCETH2.js`) computes
  `mod`, `addMod`, `subMod`, `mulMod` with the big-integer library, whose
  `mod` is the truncated remainder (the sign of the result follows the
  dividend).  This suite is embedded in namespace `V3`, with `Int.tmod`.
* the second copy inside `rlweBTCETH2.js` computes `mod(x, m)` as
  `((x % m) + m) % m` over native numbers, which normalizes every integer
  into `[0, m)` for `m > 0`.  This suite is embedded in namespace `V2`.

The FFT loops, the key-exchange operations and the entropy derivation are
textually identical across the copies, so they are embedded once,
parameterized by the modular-arithmetic suite (`ModOps`).  In-place array
mutation is embedded by explicit state passing on `List Int`; out-of-range
array reads return an explicit default `d` (JavaScript would return
`undefined`), and the read-default independence proved below shows the
transforms never perform such a read on length-`n` input.  The sampling
calls (`Math.random`) are embedded by taking the sampled polynomial as an
argument.
-/

namespace RLWE

/-- Ring dimension: `const n = 1024` in the source. -/
def n : Nat := 1024

/-- Modulus: `const q = 40961` in the source. -/
def q : Int := 40961

/-- Twiddle table: `W = [...Array(n).keys()].map((i) => (i + 1) % q)`.
JavaScript `%` is the truncated remainder, `Int.tmod`. -/
def W : List Int := (List.range n).map (fun (i : Nat) => ((i : Int) + 1).tmod q)

/-- Reverse twiddle table:
`W_rev = [...Array(n).keys()].map((i) => (q - i - 1) % q)`. -/
def W_rev : List Int := (List.range n).map (fun (i : Nat) => (q - (i : Int) - 1).tmod q)

namespace V3

/-- `mod` of `rlweBTCETH3.js`: `bigInt(x).mod(m)`, the truncated remainder
(result sign follows the dividend). -/
def mod (x m : Int) : Int := x.tmod m

/-- `mulMod` of `rlweBTCETH3.js`: `bigInt(a).multiply(b).mod(m)`. -/
def mulMod (a b m : Int) : Int := (a * b).tmod m

/-- `addMod` of `rlweBTCETH3.js`: `bigInt(a).add(b).mod(m)`. -/
def addMod (a b m : Int) : Int := (a + b).tmod m

/-- `subMod` of `rlweBTCETH3.js`: `bigInt(a).subtract(b).mod(m)`. -/
def subMod (a b m : Int) : Int := (a - b).tmod m

end V3

namespace V2

/-- `mod` of the second copy in `rlweBTCETH2.js`: `((x % m) + m) % m` over
native numbers; JavaScript `%` is the truncated remainder `Int.tmod`. -/
def mod (x m : Int) : Int := (x.tmod m + m).tmod m

/-- `mulMod` of the second copy in `rlweBTCETH2.js`: `mod(a * b, m)`. -/
def mulMod (a b m : Int) : Int := mod (a * b) m

/-- `addMod` of the second copy in `rlweBTCETH2.js`: `mod(a + b, m)`. -/
def addMod (a b m : Int) : Int := mod (a + b) m

/-- `subMod` of the second copy in `rlweBTCETH2.js`: `mod(a - b, m)`. -/
def subMod (a b m : Int) : Int := mod (a - b) m

end V2

/-- A modular-arithmetic suite, abstracting over the two variants above;
the FFT source text is identical across the copies. -/
structure ModOps where
  addMod : Int → Int → Int → Int
  subMod : Int → Int → Int → Int
  mulMod : Int → Int → Int → Int

/-- The `rlweBTCETH3.js` (big-integer, truncated remainder) suite. -/
def V3.ops : ModOps := ⟨V3.addMod, V3.subMod, V3.mulMod⟩

/-- The normalized native suite of the second copy in `rlweBTCETH2.js`. -/
def V2.ops : ModOps := ⟨V2.addMod, V2.subMod, V2.mulMod⟩

/-- Innermost loop of `fftForward`: `for (let i = j; i < n; i += m << 1)`,
performing the butterfly
`t0 = addMod(x[i], x[i+m], q); t1 = mulMod(subMod(x[i], x[i+m], q), W[index], q)`
and writing `x[i] = t0`, `x[i+m] = t1`.  `fuel` bounds the iteration count
(callers pass `nn`, which always suffices since `i` grows by `m <<< 1 ≥ 2`);
`d` is the value an out-of-range read returns. -/
def fwdInner (ops : ModOps) (qv d : Int) (nn m : Nat) (w : Int) :
    Nat → Nat → List Int → List Int
  | 0, _, x => x
  | fuel + 1, i, x =>
    if i < nn then
      let t0 := ops.addMod (x.getD i d) (x.getD (i + m) d) qv
      let t1 := ops.mulMod (ops.subMod (x.getD i d) (x.getD (i + m) d) qv) w qv
      fwdInner ops qv d nn m w fuel (i + (m <<< 1)) ((x.set i t0).set (i + m) t1)
    else x

/-- Column loop of `fftForward`: `for (let j = 0; j < m; j++)`, advancing the
twiddle index by `index = mod(index + (n - step), n)` after each column.  Both
suites compute that `mod` on nonnegative numbers, where it agrees with `%`
on `Nat`. -/
def fwdCols (ops : ModOps) (qv d : Int) (nn : Nat) (Wt : List Int) (m step : Nat) :
    Nat → Nat → Nat → List Int → List Int
  | 0, _, _, x => x
  | fuel + 1, j, index, x =>
    if j < m then
      fwdCols ops qv d nn Wt m step fuel (j + 1) ((index + (nn - step)) % nn)
        (fwdInner ops qv d nn m (Wt.getD index d) nn j x)
    else x

/-- Level loop of `fftForward`: `for (let m = n >> 1; m >= 1; m >>= 1)`, with
`step` starting at `1` and doubling after each level. -/
def fwdLevels (ops : ModOps) (qv d : Int) (nn : Nat) (Wt : List Int) :
    Nat → Nat → Nat → List Int → List Int
  | 0, _, _, x => x
  | fuel + 1, m, step, x =>
    if 1 ≤ m then
      fwdLevels ops qv d nn Wt fuel (m >>> 1) (step <<< 1)
        (fwdCols ops qv d nn Wt m step m 0 0 x)
    else x

/-- `fftForward` over a given modular-arithmetic suite, on the constants
`n`, `q`, `W` of the source; `d` is the out-of-range read value. -/
def fftForwardG (ops : ModOps) (d : Int) (x : List Int) : List Int :=
  fwdLevels ops q d n W n (n >>> 1) 1 x

/-- Innermost loop of `fftBackward`: the butterfly
`t0 = x[i]; t1 = mulMod(x[i+m], W_rev[index], q)`, writing
`x[i] = addMod(t0, t1, q)`, `x[i+m] = subMod(t0, t1, q)`. -/
def bwdInner (ops : ModOps) (qv d : Int) (nn m : Nat) (w : Int) :
    Nat → Nat → List Int → List Int
  | 0, _, x => x
  | fuel + 1, i, x =>
    if i < nn then
      let t0 := x.getD i d
      let t1 := ops.mulMod (x.getD (i + m) d) w qv
      bwdInner ops qv d nn m w fuel (i + (m <<< 1))
        ((x.set i (ops.addMod t0 t1 qv)).set (i + m) (ops.subMod t0 t1 qv))
    else x

/-- Column loop of `fftBackward`; identical index bookkeeping to `fwdCols`
but reading the `W_rev` table. -/
def bwdCols (ops : ModOps) (qv d : Int) (nn : Nat) (Wt : List Int) (m step : Nat) :
    Nat → Nat → Nat → List Int → List Int
  | 0, _, _, x => x
  | fuel + 1, j, index, x =>
    if j < m then
      bwdCols ops qv d nn Wt m step fuel (j + 1) ((index + (nn - step)) % nn)
        (bwdInner ops qv d nn m (Wt.getD index d) nn j x)
    else x

/-- Level loop of `fftBackward`: `for (let m = 1; m < n; m <<= 1)`, with
`step` starting at `n >> 1` and halving after each level. -/
def bwdLevels (ops : ModOps) (qv d : Int) (nn : Nat) (Wt : List Int) :
    Nat → Nat → Nat → List Int → List Int
  | 0, _, _, x => x
  | fuel + 1, m, step, x =>
    if m < nn then
      bwdLevels ops qv d nn Wt fuel (m <<< 1) (step >>> 1)
        (bwdCols ops qv d nn Wt m step m 0 0 x)
    else x

/-- `fftBackward` over a given modular-arithmetic suite, on the constants
`n`, `q`, `W_rev` of the source. -/
def fftBackwardG (ops : ModOps) (d : Int) (x : List Int) : List Int :=
  bwdLevels ops q d n W_rev n 1 (n >>> 1) x

namespace V3

/-- `fftForward` of `rlweBTCETH3.js` (in-place mutation embedded as a
function from the input list to the final list). -/
def fftForward (x : List Int) : List Int := fftForwardG V3.ops 0 x

/-- `fftBackward` of `rlweBTCETH3.js`. -/
def fftBackward (x : List Int) : List Int := fftBackwardG V3.ops 0 x

end V3

namespace V2

/-- `fftForward` of the second copy in `rlweBTCETH2.js`. -/
def fftForward (x : List Int) : List Int := fftForwardG V2.ops 0 x

/-- `fftBackward` of the second copy in `rlweBTCETH2.js`. -/
def fftBackward (x : List Int) : List Int := fftBackwardG V2.ops 0 x

end V2

/-- Generic butterfly pass: proof infrastructure shared by the forward and
backward inner loops.  `fLow`/`fHigh` are the two values the butterfly writes
to `x[i]` and `x[i+m]`, both computed from the old pair `(x[i], x[i+m])`. -/
def bfInner (fLow fHigh : Int → Int → Int) (d : Int) (nn m : Nat) :
    Nat → Nat → List Int → List Int
  | 0, _, x => x
  | fuel + 1, i, x =>
    if i < nn then
      bfInner fLow fHigh d nn m fuel (i + 2 * m)
        ((x.set i (fLow (x.getD i d) (x.getD (i + m) d))).set (i + m)
          (fHigh (x.getD i d) (x.getD (i + m) d)))
    else x

theorem fwdInner_eq_bf (ops : ModOps) (qv d : Int) (nn m : Nat) (w : Int) :
    ∀ fuel i x, fwdInner ops qv d nn m w fuel i x =
      bfInner (fun a b => ops.addMod a b qv)
        (fun a b => ops.mulMod (ops.subMod a b qv) w qv) d nn m fuel i x := by
  intro fuel
  induction fuel with
  | zero => intro i x; rfl
  | succ f ih =>
    intro i x
    simp only [fwdInner, bfInner]
    have hsh : m <<< 1 = 2 * m := by
      simp [Nat.shiftLeft_eq, Nat.pow_one, Nat.mul_comm]
    rw [hsh]
    by_cases hi : i < nn
    · rw [if_pos hi, if_pos hi, ih]
    · rw [if_neg hi, if_neg hi]

theorem bwdInner_eq_bf (ops : ModOps) (qv d : Int) (nn m : Nat) (w : Int) :
    ∀ fuel i x, bwdInner ops qv d nn m w fuel i x =
      bfInner (fun a b => ops.addMod a (ops.mulMod b w qv) qv)
        (fun a b => ops.subMod a (ops.mulMod b w qv) qv) d nn m fuel i x := by
  intro fuel
  induction fuel with
  | zero => intro i x; rfl
  | succ f ih =>
    intro i x
    simp only [bwdInner, bfInner]
    have hsh : m <<< 1 = 2 * m := by
      simp [Nat.shiftLeft_eq, Nat.pow_one, Nat.mul_comm]
    rw [hsh]
    by_cases hi : i < nn
    · rw [if_pos hi, if_pos hi, ih]
    · rw [if_neg hi, if_neg hi]

theorem bfInner_length (fLow fHigh : Int → Int → Int) (d : Int) (nn m : Nat) :
    ∀ fuel i x, (bfInner fLow fHigh d nn m fuel i x).length = x.length := by
  intro fuel
  induction fuel with
  | zero => intro i x; rfl
  | succ f ih =>
    intro i x
    simp only [bfInner]
    by_cases hi : i < nn
    · rw [if_pos hi, ih]; simp
    · rw [if_neg hi]

/-- `getD` after a `set`: the write is visible exactly when it hit the
queried index and was in range. -/
theorem getD_set' {α : Type} (l : List α) (i p : Nat) (v d : α) :
    (l.set i v).getD p d = if i = p ∧ i < l.length then v else l.getD p d := by
  simp only [List.getD_eq_getElem?_getD, List.getElem?_set]
  by_cases h : i = p
  · subst h
    by_cases h2 : i < l.length
    · simp [h2]
    · have : l[i]? = none := by
        rw [List.getElem?_eq_none_iff]; omega
      simp [h2, this]
  · simp [h]

/-- Two positions in the same residue class mod `M` that differ are at least
`M` apart. -/
theorem ge_add_of_mod_eq {a p M : Nat} (hap : a ≤ p)
    (hmod : p % M = a % M) (hne : p ≠ a) : a + M ≤ p := by
  have hdvd : M ∣ p - a := (Nat.modEq_iff_dvd' hap).mp (Nat.ModEq.symm hmod)
  have hM : 0 < M := by
    rcases Nat.eq_zero_or_pos M with h | h
    · subst h; simp at hmod; omega
    · exact h
  have := Nat.le_of_dvd (by omega) hdvd
  omega

/-- `i` and `i + m` lie in distinct residue classes mod `2 * m`. -/
theorem mod_add_m_ne {i m : Nat} (hm : 0 < m) :
    (i + m) % (2 * m) ≠ i % (2 * m) := by
  intro h
  have hdvd : 2 * m ∣ (i + m) - i := (Nat.modEq_iff_dvd' (by omega)).mp (Nat.ModEq.symm h)
  have h2 : (i + m) - i = m := by omega
  rw [h2] at hdvd
  have := Nat.le_of_dvd hm hdvd
  omega

/-- Positional characterization of the generic butterfly pass: position `p`
receives the low output if it is a not-yet-visited low index, the high output
if it is a not-yet-visited high index, and is untouched otherwise; all reads
see the entry state because the loop never reads a position it has already
written. -/
theorem bfInner_getD {fLow fHigh : Int → Int → Int} {d : Int} {nn m : Nat}
    (hm : 0 < m) :
    ∀ fuel i x, x.length = nn → nn ≤ fuel + i → ∀ p, p < nn →
      (bfInner fLow fHigh d nn m fuel i x).getD p d =
        if i ≤ p ∧ p % (2 * m) = i % (2 * m) then
          fLow (x.getD p d) (x.getD (p + m) d)
        else if i + m ≤ p ∧ p % (2 * m) = (i + m) % (2 * m) then
          fHigh (x.getD (p - m) d) (x.getD p d)
        else x.getD p d := by
  intro fuel
  induction fuel with
  | zero =>
    intro i x hlen hfuel p hp
    have h1 : ¬ (i ≤ p) := by omega
    have h2 : ¬ (i + m ≤ p) := by omega
    simp only [bfInner]
    simp [h1, h2]
  | succ f ih =>
    intro i x hlen hfuel p hp
    simp only [bfInner]
    by_cases hi : i < nn
    · rw [if_pos hi]
      have hlen' :
          ((x.set i (fLow (x.getD i d) (x.getD (i + m) d))).set (i + m)
            (fHigh (x.getD i d) (x.getD (i + m) d))).length = nn := by
        simp [hlen]
      rw [ih (i + 2 * m) _ hlen' (by omega) p hp]
      have hset : ∀ t,
          ((x.set i (fLow (x.getD i d) (x.getD (i + m) d))).set (i + m)
            (fHigh (x.getD i d) (x.getD (i + m) d))).getD t d =
          if i + m = t ∧ i + m < nn then fHigh (x.getD i d) (x.getD (i + m) d)
          else if i = t ∧ i < nn then fLow (x.getD i d) (x.getD (i + m) d)
          else x.getD t d := by
        intro t
        rw [getD_set', getD_set']
        simp only [List.length_set, hlen]
      have hc1 : (i + 2 * m) % (2 * m) = i % (2 * m) := Nat.add_mod_right i (2 * m)
      have hc2 : (i + 2 * m + m) % (2 * m) = (i + m) % (2 * m) := by
        have : i + 2 * m + m = (i + m) + 2 * m := by omega
        rw [this]; exact Nat.add_mod_right (i + m) (2 * m)
      by_cases g1 : i ≤ p ∧ p % (2 * m) = i % (2 * m)
      · rw [if_pos g1]
        by_cases hpi : p = i
        · subst hpi
          rw [if_neg (by omega), if_neg (by omega), hset]
          rw [if_neg (by omega), if_pos ⟨rfl, hi⟩]
        · have hge : i + 2 * m ≤ p := by
            have := ge_add_of_mod_eq g1.1 g1.2 hpi
            omega
          rw [if_pos ⟨hge, by rw [hc1]; exact g1.2⟩]
          rw [hset, if_neg (by omega), if_neg (by omega)]
          rw [hset, if_neg (by omega), if_neg (by omega)]
      · rw [if_neg g1]
        by_cases g2 : i + m ≤ p ∧ p % (2 * m) = (i + m) % (2 * m)
        · rw [if_pos g2]
          by_cases hpim : p = i + m
          · subst hpim
            rw [if_neg (by omega), if_neg (by omega), hset]
            rw [if_pos ⟨rfl, hp⟩]
            have : i + m - m = i := by omega
            rw [this]
          · have hge : (i + m) + 2 * m ≤ p := ge_add_of_mod_eq g2.1 g2.2 hpim
            rw [if_neg (by omega), if_pos ⟨by omega, by rw [hc2]; exact g2.2⟩]
            rw [hset, if_neg (by omega), if_neg (by omega)]
            rw [hset, if_neg (by omega), if_neg (by omega)]
        · rw [if_neg g2]
          have hne1 : ¬ (i + 2 * m ≤ p ∧ p % (2 * m) = i % (2 * m)) := by
            rintro ⟨h1, h2⟩; exact g1 ⟨by omega, h2⟩
          have hne2 : ¬ (i + 2 * m + m ≤ p ∧ p % (2 * m) = (i + 2 * m + m) % (2 * m)) := by
            rintro ⟨h1, h2⟩; rw [hc2] at h2; exact g2 ⟨by omega, h2⟩
          rw [if_neg (by rw [hc1]; exact hne1), if_neg hne2]
          rw [hset]
          have hpi : ¬ (i = p) := by
            intro h; subst h; exact g1 ⟨le_refl _, rfl⟩
          have hpim : ¬ (i + m = p) := by
            intro h; subst h; exact g2 ⟨le_refl _, rfl⟩
          rw [if_neg (by tauto), if_neg (by tauto)]
    · rw [if_neg hi]
      have h1 : ¬ (i ≤ p) := by omega
      have h2 : ¬ (i + m ≤ p) := by omega
      simp [h1, h2]

/-- Generic column loop: proof infrastructure shared by the forward and
backward column loops.  The butterfly outputs now also take the column
twiddle `w`. -/
def bfCols (fLow fHigh : Int → Int → Int → Int) (d : Int) (nn : Nat)
    (Wt : List Int) (m step : Nat) : Nat → Nat → Nat → List Int → List Int
  | 0, _, _, x => x
  | fuel + 1, j, index, x =>
    if j < m then
      bfCols fLow fHigh d nn Wt m step fuel (j + 1) ((index + (nn - step)) % nn)
        (bfInner (fLow (Wt.getD index d)) (fHigh (Wt.getD index d)) d nn m nn j x)
    else x

theorem fwdCols_eq_bf (ops : ModOps) (qv d : Int) (nn : Nat) (Wt : List Int)
    (m step : Nat) : ∀ fuel j index x,
    fwdCols ops qv d nn Wt m step fuel j index x =
      bfCols (fun _ a b => ops.addMod a b qv)
        (fun w a b => ops.mulMod (ops.subMod a b qv) w qv) d nn Wt m step
        fuel j index x := by
  intro fuel
  induction fuel with
  | zero => intro j index x; rfl
  | succ f ih =>
    intro j index x
    simp only [fwdCols, bfCols]
    by_cases hj : j < m
    · rw [if_pos hj, if_pos hj, ih, fwdInner_eq_bf]
    · rw [if_neg hj, if_neg hj]

theorem bwdCols_eq_bf (ops : ModOps) (qv d : Int) (nn : Nat) (Wt : List Int)
    (m step : Nat) : ∀ fuel j index x,
    bwdCols ops qv d nn Wt m step fuel j index x =
      bfCols (fun w a b => ops.addMod a (ops.mulMod b w qv) qv)
        (fun w a b => ops.subMod a (ops.mulMod b w qv) qv) d nn Wt m step
        fuel j index x := by
  intro fuel
  induction fuel with
  | zero => intro j index x; rfl
  | succ f ih =>
    intro j index x
    simp only [bwdCols, bfCols]
    by_cases hj : j < m
    · rw [if_pos hj, if_pos hj, ih, bwdInner_eq_bf]
    · rw [if_neg hj, if_neg hj]

theorem bfCols_length (fLow fHigh : Int → Int → Int → Int) (d : Int) (nn : Nat)
    (Wt : List Int) (m step : Nat) : ∀ fuel j index x,
    (bfCols fLow fHigh d nn Wt m step fuel j index x).length = x.length := by
  intro fuel
  induction fuel with
  | zero => intro j index x; rfl
  | succ f ih =>
    intro j index x
    simp only [bfCols]
    by_cases hj : j < m
    · rw [if_pos hj, ih, bfInner_length]
    · rw [if_neg hj]

/-- The value a full level writes at position `p`, in terms of the entry
state: column `p % m` applies its butterfly to the pair
`(p, p + m)` (low half of a `2m` block) or `(p - m, p)` (high half), with the
column twiddle read at `(p % m) * (nn - step) % nn`. -/
def levelValue (fLow fHigh : Int → Int → Int → Int) (d : Int) (nn : Nat)
    (Wt : List Int) (m step : Nat) (x : List Int) (p : Nat) : Int :=
  if p % (2 * m) < m then
    fLow (Wt.getD (p % m * (nn - step) % nn) d) (x.getD p d) (x.getD (p + m) d)
  else
    fHigh (Wt.getD (p % m * (nn - step) % nn) d) (x.getD (p - m) d) (x.getD p d)

/-- Remainders mod `2 * m` project to remainders mod `m`. -/
theorem mod_two_mul_mod {p m : Nat} : p % (2 * m) % m = p % m :=
  Nat.mod_mod_of_dvd p (dvd_mul_left m 2)

/-- If `t % m ≠ j < m` then `t` is in neither of column `j`'s residue
classes mod `2 * m`. -/
theorem class_ne_of_mod_ne {t j m : Nat} (hj : j < m) (ht : t % m ≠ j) :
    t % (2 * m) ≠ j % (2 * m) ∧ t % (2 * m) ≠ (j + m) % (2 * m) := by
  have hm : 0 < m := by omega
  have hj2 : j % (2 * m) = j := Nat.mod_eq_of_lt (by omega)
  have hjm2 : (j + m) % (2 * m) = j + m := Nat.mod_eq_of_lt (by omega)
  constructor
  · intro h
    rw [hj2] at h
    apply ht
    have := congrArg (· % m) h
    simpa [mod_two_mul_mod, Nat.mod_eq_of_lt hj] using this
  · intro h
    rw [hjm2] at h
    apply ht
    have := congrArg (· % m) h
    simp only [mod_two_mul_mod] at this
    rw [this]
    have : (j + m) % m = j % m := Nat.add_mod_right j m
    rw [this, Nat.mod_eq_of_lt hj]

/-- Positional characterization of the generic column loop: starting at
column `j` with the twiddle index in its invariant position, positions whose
column is `≥ j` get their level value (computed from the entry state);
positions in earlier columns are untouched. -/
theorem bfCols_getD {fLow fHigh : Int → Int → Int → Int} {d : Int} {nn : Nat}
    {Wt : List Int} {m step : Nat} (hm : 0 < m) :
    ∀ fuel j index x, x.length = nn → m ≤ fuel + j →
      index = j * (nn - step) % nn → ∀ p, p < nn →
      (bfCols fLow fHigh d nn Wt m step fuel j index x).getD p d =
        if j ≤ p % m then levelValue fLow fHigh d nn Wt m step x p
        else x.getD p d := by
  intro fuel
  induction fuel with
  | zero =>
    intro j index x hlen hfuel hidx p hp
    have : ¬ (j ≤ p % m) := by
      have := Nat.mod_lt p hm
      omega
    simp only [bfCols]
    simp [this]
  | succ f ih =>
    intro j index x hlen hfuel hidx p hp
    simp only [bfCols]
    by_cases hj : j < m
    · rw [if_pos hj]
      set w := Wt.getD index d with hw
      set x₁ := bfInner (fLow w) (fHigh w) d nn m nn j x with hx₁
      have hlen₁ : x₁.length = nn := by rw [hx₁, bfInner_length, hlen]
      have hidx' : (index + (nn - step)) % nn = (j + 1) * (nn - step) % nn := by
        rw [hidx, Nat.mod_add_mod]
        congr 1
        ring
      have hinner : ∀ t, t < nn → x₁.getD t d =
          if j ≤ t ∧ t % (2 * m) = j % (2 * m) then
            fLow w (x.getD t d) (x.getD (t + m) d)
          else if j + m ≤ t ∧ t % (2 * m) = (j + m) % (2 * m) then
            fHigh w (x.getD (t - m) d) (x.getD t d)
          else x.getD t d := by
        intro t ht
        rw [hx₁]
        exact bfInner_getD hm nn j x hlen (by omega) t ht
      rw [ih (j + 1) _ x₁ hlen₁ (by omega) hidx' p hp]
      have hj2 : j % (2 * m) = j := Nat.mod_eq_of_lt (by omega)
      have hjm2 : (j + m) % (2 * m) = j + m := Nat.mod_eq_of_lt (by omega)
      by_cases c1 : j + 1 ≤ p % m
      · rw [if_pos c1, if_pos (by omega)]
        -- level value reads are untouched by column j
        have hpm : p % m ≠ j := by omega
        have hp2 := class_ne_of_mod_ne hj hpm
        rw [hj2, hjm2] at hp2
        unfold levelValue
        by_cases hlow : p % (2 * m) < m
        · rw [if_pos hlow, if_pos hlow]
          have h1 : x₁.getD p d = x.getD p d := by
            rw [hinner p hp, if_neg (by rw [hj2]; tauto),
              if_neg (by rw [hjm2]; tauto)]
          have hpm' : (p + m) % m = p % m := Nat.add_mod_right p m
          have h2 : x₁.getD (p + m) d = x.getD (p + m) d := by
            by_cases hpmn : p + m < nn
            · have hp2' := class_ne_of_mod_ne hj (by rw [hpm']; exact hpm)
              rw [hj2, hjm2] at hp2'
              rw [hinner _ hpmn, if_neg (by rw [hj2]; tauto),
                if_neg (by rw [hjm2]; tauto)]
            · -- out of range on both sides: `getD` both return values past
              -- the common length, and `bfInner` preserves length
              have hx : x.getD (p + m) d = d := by
                rw [List.getD_eq_getElem?_getD, List.getElem?_eq_none_iff.mpr (by omega)]
                rfl
              have hx1 : x₁.getD (p + m) d = d := by
                rw [List.getD_eq_getElem?_getD, List.getElem?_eq_none_iff.mpr (by omega)]
                rfl
              rw [hx, hx1]
          rw [h1, h2]
        · rw [if_neg hlow, if_neg hlow]
          have h1 : x₁.getD p d = x.getD p d := by
            rw [hinner p hp, if_neg (by rw [hj2]; tauto),
              if_neg (by rw [hjm2]; tauto)]
          have hpge : m ≤ p := by
            have h2m : p % (2 * m) < 2 * m := Nat.mod_lt p (by omega)
            have : p % (2 * m) ≤ p := Nat.mod_le p (2 * m)
            omega
          have hpm' : (p - m) % m = p % m := by
            conv_rhs => rw [show p = (p - m) + m by omega]
            exact (Nat.add_mod_right (p - m) m).symm
          have h2 : x₁.getD (p - m) d = x.getD (p - m) d := by
            have hp2' := class_ne_of_mod_ne hj (by rw [hpm']; exact hpm)
            rw [hj2, hjm2] at hp2'
            rw [hinner _ (by omega), if_neg (by rw [hj2]; tauto),
              if_neg (by rw [hjm2]; tauto)]
          rw [h1, h2]
      · rw [if_neg c1]
        by_cases c2 : j ≤ p % m
        · -- p is in column j exactly
          have hpj : p % m = j := by omega
          rw [if_pos c2]
          have hsplit : p % (2 * m) = j ∨ p % (2 * m) = j + m := by
            have h1 : p % (2 * m) % m = p % m := mod_two_mul_mod
            have h2 : p % (2 * m) < 2 * m := Nat.mod_lt p (by omega)
            by_cases hc : p % (2 * m) < m
            · left
              rw [← hpj, ← h1, Nat.mod_eq_of_lt hc]
            · right
              have h3 : p % (2 * m) % m = p % (2 * m) - m := by
                rw [Nat.mod_eq_sub_mod (by omega), Nat.mod_eq_of_lt (by omega)]
              omega
          unfold levelValue
          rcases hsplit with hc | hc
          · have hlow : p % (2 * m) < m := by omega
            rw [if_pos hlow]
            have hjp : j ≤ p := by
              calc j = p % (2 * m) := hc.symm
              _ ≤ p := Nat.mod_le p (2 * m)
            rw [hinner p hp, if_pos ⟨hjp, by rw [hj2, hc]⟩, hw, hidx, hpj]
          · have hlow : ¬ (p % (2 * m) < m) := by omega
            rw [if_neg hlow]
            have hjp : j + m ≤ p := by
              calc j + m = p % (2 * m) := hc.symm
              _ ≤ p := Nat.mod_le p (2 * m)
            have hne : p % (2 * m) ≠ j % (2 * m) := by
              rw [hj2]; omega
            rw [hinner p hp, if_neg (by tauto), if_pos ⟨hjp, by rw [hjm2, hc]⟩,
              hw, hidx, hpj]
        · -- p is in an earlier column: untouched by column j as well
          rw [if_neg c2]
          have hpm : p % m ≠ j := by omega
          have hp2 := class_ne_of_mod_ne hj hpm
          rw [hj2, hjm2] at hp2
          rw [hinner p hp, if_neg (by rw [hj2]; tauto),
            if_neg (by rw [hjm2]; tauto)]
    · rw [if_neg hj]
      have : ¬ (j ≤ p % m) := by
        have := Nat.mod_lt p hm
        omega
      simp [this]

/-- Block-structural form of one transform level: consume the list in blocks
of `2 * m`, emitting the `m` low outputs then the `m` high outputs of each
block, with the per-column twiddles supplied as the list `wl`.  Used to
evaluate concrete levels; `bfCols_eq_bfBlocks` below proves it agrees with
the loop form. -/
def bfBlocks (fLow fHigh : Int → Int → Int → Int) (wl : List Int) (m : Nat) :
    Nat → List Int → List Int
  | 0, x => x
  | fuel + 1, x =>
    if x = [] then [] else
      (List.zipWith (fun w ab => fLow w (Prod.fst ab) (Prod.snd ab)) wl
          ((x.take m).zip ((x.drop m).take m)) ++
        List.zipWith (fun w ab => fHigh w (Prod.fst ab) (Prod.snd ab)) wl
          ((x.take m).zip ((x.drop m).take m))) ++
      bfBlocks fLow fHigh wl m fuel (x.drop (2 * m))

theorem getD_drop {α : Type} (y : List α) (k t : Nat) (d : α) :
    (y.drop k).getD t d = y.getD (k + t) d := by
  simp [List.getD_eq_getElem?_getD, List.getElem?_drop]

theorem getD_eq_getElem_of_lt {α : Type} {y : List α} {k : Nat} (d : α)
    (h : k < y.length) : y.getD k d = y[k] := by
  simp [List.getD_eq_getElem?_getD, List.getElem?_eq_getElem h]

/-- Characterization of the block-structural level: length preservation and
the positional value, matching `levelValue` once `wl` is instantiated. -/
theorem bfBlocks_getD {fLow fHigh : Int → Int → Int → Int} {wl : List Int}
    {m : Nat} (hm : 0 < m) (hw : wl.length = m) (d : Int) :
    ∀ fuel y, 2 * m ∣ y.length → y.length ≤ 2 * m * fuel →
      (bfBlocks fLow fHigh wl m fuel y).length = y.length ∧
      ∀ p, p < y.length →
        (bfBlocks fLow fHigh wl m fuel y).getD p d =
          if p % (2 * m) < m then
            fLow (wl.getD (p % m) d) (y.getD p d) (y.getD (p + m) d)
          else
            fHigh (wl.getD (p % m) d) (y.getD (p - m) d) (y.getD p d) := by
  intro fuel
  induction fuel with
  | zero =>
    intro y hdvd hbound
    have : y = [] := by
      apply List.eq_nil_of_length_eq_zero
      omega
    subst this
    simp [bfBlocks]
  | succ f ih =>
    intro y hdvd hbound
    by_cases hy0 : y = []
    · subst hy0
      simp [bfBlocks]
    · have hred : bfBlocks fLow fHigh wl m (f + 1) y =
          (List.zipWith (fun w ab => fLow w (Prod.fst ab) (Prod.snd ab)) wl
            ((y.take m).zip ((y.drop m).take m)) ++
          List.zipWith (fun w ab => fHigh w (Prod.fst ab) (Prod.snd ab)) wl
            ((y.take m).zip ((y.drop m).take m))) ++
          bfBlocks fLow fHigh wl m f (y.drop (2 * m)) := by
        rw [bfBlocks, if_neg hy0]
      have hylen : 0 < y.length := List.length_pos.mpr hy0
      have h2m : 2 * m ≤ y.length := Nat.le_of_dvd hylen hdvd
      have hlo : (y.take m).length = m := by
        simp [List.length_take]
        omega
      have hhi : ((y.drop m).take m).length = m := by
        simp [List.length_take]
        omega
      have hzip : ((y.take m).zip ((y.drop m).take m)).length = m := by
        rw [List.zip_eq_zipWith, List.length_zipWith, hlo, hhi]
        simp
      have hlowlen : (List.zipWith (fun w ab => fLow w (Prod.fst ab) (Prod.snd ab)) wl
          ((y.take m).zip ((y.drop m).take m))).length = m := by
        rw [List.length_zipWith, hw, hzip]
        simp
      have hhighlen : (List.zipWith (fun w ab => fHigh w (Prod.fst ab) (Prod.snd ab)) wl
          ((y.take m).zip ((y.drop m).take m))).length = m := by
        rw [List.length_zipWith, hw, hzip]
        simp
      have hrest := ih (y.drop (2 * m))
        (by rw [List.length_drop]; exact Nat.dvd_sub' hdvd dvd_rfl)
        (by
          rw [List.length_drop]
          have : 2 * m * (f + 1) = 2 * m * f + 2 * m := by ring
          omega)
      have hzipelem : ∀ k, k < m → ∀ hk2 : k < ((y.take m).zip ((y.drop m).take m)).length,
          ((y.take m).zip ((y.drop m).take m))[k] =
            (y.getD k d, y.getD (k + m) d) := by
        intro k hk hk2
        have hsome : ((y.take m).zip ((y.drop m).take m))[k]? =
            some (y.getD k d, y.getD (k + m) d) := by
          rw [List.getElem?_zip_eq_some]
          refine ⟨?_, ?_⟩
          · rw [List.getElem?_take_of_lt hk,
              getD_eq_getElem_of_lt d (show k < y.length by omega),
              List.getElem?_eq_getElem (show k < y.length by omega)]
          · rw [List.getElem?_take_of_lt hk, List.getElem?_drop]
            have hc : k + m = m + k := by omega
            rw [hc, getD_eq_getElem_of_lt d (show m + k < y.length by omega),
              List.getElem?_eq_getElem (show m + k < y.length by omega)]
        have h2 := List.getElem?_eq_getElem hk2
        rw [hsome] at h2
        exact (Option.some.inj h2).symm
      have hblockelem : ∀ p, p < 2 * m →
          ((List.zipWith (fun w ab => fLow w (Prod.fst ab) (Prod.snd ab)) wl
            ((y.take m).zip ((y.drop m).take m)) ++
            List.zipWith (fun w ab => fHigh w (Prod.fst ab) (Prod.snd ab)) wl
            ((y.take m).zip ((y.drop m).take m)))).getD p d =
          if p % (2 * m) < m then
            fLow (wl.getD (p % m) d) (y.getD p d) (y.getD (p + m) d)
          else
            fHigh (wl.getD (p % m) d) (y.getD (p - m) d) (y.getD p d) := by
        intro p hp2m
        by_cases hlow : p < m
        · have hpin : p < (List.zipWith (fun w ab => fLow w (Prod.fst ab) (Prod.snd ab)) wl
              ((y.take m).zip ((y.drop m).take m))).length := by omega
          have hgd : (List.zipWith (fun w ab => fLow w (Prod.fst ab) (Prod.snd ab)) wl
              ((y.take m).zip ((y.drop m).take m)) ++
              List.zipWith (fun w ab => fHigh w (Prod.fst ab) (Prod.snd ab)) wl
              ((y.take m).zip ((y.drop m).take m))).getD p d =
              (List.zipWith (fun w ab => fLow w (Prod.fst ab) (Prod.snd ab)) wl
              ((y.take m).zip ((y.drop m).take m)))[p] := by
            simp only [List.getD_eq_getElem?_getD, List.getElem?_append]
            rw [if_pos (by omega), List.getElem?_eq_getElem hpin]
            rfl
          rw [hgd, List.getElem_zipWith, hzipelem p hlow (by omega)]
          have hpwl : p < wl.length := by omega
          have hwl : wl[p] = wl.getD (p % m) d := by
            rw [Nat.mod_eq_of_lt hlow, getD_eq_getElem_of_lt d (show p < wl.length by omega)]
          rw [if_pos (by rw [Nat.mod_eq_of_lt hp2m]; exact hlow), hwl]
        · have hge : m ≤ p := by omega
          have hpin2 : p - m < (List.zipWith (fun w ab => fHigh w (Prod.fst ab) (Prod.snd ab)) wl
              ((y.take m).zip ((y.drop m).take m))).length := by omega
          have hgd : (List.zipWith (fun w ab => fLow w (Prod.fst ab) (Prod.snd ab)) wl
              ((y.take m).zip ((y.drop m).take m)) ++
              List.zipWith (fun w ab => fHigh w (Prod.fst ab) (Prod.snd ab)) wl
              ((y.take m).zip ((y.drop m).take m))).getD p d =
              (List.zipWith (fun w ab => fHigh w (Prod.fst ab) (Prod.snd ab)) wl
              ((y.take m).zip ((y.drop m).take m)))[p - m] := by
            simp only [List.getD_eq_getElem?_getD, List.getElem?_append]
            rw [if_neg (by omega), hlowlen, List.getElem?_eq_getElem hpin2]
            rfl
          rw [hgd, List.getElem_zipWith, hzipelem (p - m) (by omega) (by omega)]
          have hpmwl : p - m < wl.length := by omega
          have hwl : wl[p - m] = wl.getD (p % m) d := by
            have hmod : p % m = p - m := by
              rw [Nat.mod_eq_sub_mod hge, Nat.mod_eq_of_lt (by omega)]
            rw [hmod, getD_eq_getElem_of_lt d (show p - m < wl.length by omega)]
          have harg : p - m + m = p := by omega
          rw [if_neg (by rw [Nat.mod_eq_of_lt hp2m]; omega), hwl, harg]
      rw [hred]
      constructor
      · rw [List.length_append, List.length_append, hlowlen, hhighlen, hrest.1,
          List.length_drop]
        omega
      · intro p hp
        by_cases hp2m : p < 2 * m
        · have hsplit : ((List.zipWith (fun w ab => fLow w (Prod.fst ab) (Prod.snd ab)) wl
              ((y.take m).zip ((y.drop m).take m)) ++
              List.zipWith (fun w ab => fHigh w (Prod.fst ab) (Prod.snd ab)) wl
              ((y.take m).zip ((y.drop m).take m))) ++
              bfBlocks fLow fHigh wl m f (y.drop (2 * m))).getD p d =
              (List.zipWith (fun w ab => fLow w (Prod.fst ab) (Prod.snd ab)) wl
              ((y.take m).zip ((y.drop m).take m)) ++
              List.zipWith (fun w ab => fHigh w (Prod.fst ab) (Prod.snd ab)) wl
              ((y.take m).zip ((y.drop m).take m))).getD p d := by
            simp only [List.getD_eq_getElem?_getD, List.getElem?_append]
            rw [if_pos (by rw [List.length_append, hlowlen, hhighlen]; omega)]
          rw [hsplit, hblockelem p hp2m]
        · have hsplit : ((List.zipWith (fun w ab => fLow w (Prod.fst ab) (Prod.snd ab)) wl
              ((y.take m).zip ((y.drop m).take m)) ++
              List.zipWith (fun w ab => fHigh w (Prod.fst ab) (Prod.snd ab)) wl
              ((y.take m).zip ((y.drop m).take m))) ++
              bfBlocks fLow fHigh wl m f (y.drop (2 * m))).getD p d =
              (bfBlocks fLow fHigh wl m f (y.drop (2 * m))).getD (p - 2 * m) d := by
            simp only [List.getD_eq_getElem?_getD, List.getElem?_append]
            rw [if_neg (by rw [List.length_append, hlowlen, hhighlen]; omega)]
            rw [List.length_append, hlowlen, hhighlen]
            have : p - (m + m) = p - 2 * m := by omega
            rw [this]
          rw [hsplit, hrest.2 (p - 2 * m) (by rw [List.length_drop]; omega)]
          have e1 : (y.drop (2 * m)).getD (p - 2 * m) d = y.getD p d := by
            rw [getD_drop]
            congr 1
            omega
          have emod : (p - 2 * m) % (2 * m) = p % (2 * m) := by
            conv_rhs => rw [show p = (p - 2 * m) + 2 * m by omega]
            rw [Nat.add_mod_right]
          have emodm : (p - 2 * m) % m = p % m := by
            conv_rhs => rw [show p = (p - 2 * m) + m + m by omega]
            rw [Nat.add_mod_right, Nat.add_mod_right]
          rw [emod, emodm]
          by_cases hbr : p % (2 * m) < m
          · rw [if_pos hbr, if_pos hbr, e1]
            have e2 : (y.drop (2 * m)).getD (p - 2 * m + m) d = y.getD (p + m) d := by
              rw [getD_drop]
              congr 1
              omega
            rw [e2]
          · rw [if_neg hbr, if_neg hbr, e1]
            have hp3m : 3 * m ≤ p := by
              have h1 : p % (2 * m) ≤ p - 2 * m := by
                rw [← emod]
                exact Nat.mod_le (p - 2 * m) (2 * m)
              omega
            have e3 : (y.drop (2 * m)).getD (p - 2 * m - m) d = y.getD (p - m) d := by
              rw [getD_drop]
              congr 1
              omega
            rw [e3]

/-- A low position of a `2m`-block has its partner `p + m` inside the array,
when `2m` divides the length. -/
theorem add_lt_of_mod_lt {p m nn : Nat} (hdvd : 2 * m ∣ nn)
    (hp : p < nn) (hbr : p % (2 * m) < m) : p + m < nn := by
  have h1 : p / (2 * m) < nn / (2 * m) := Nat.div_lt_div_of_lt_of_dvd hdvd hp
  have h2 : 2 * m * (p / (2 * m) + 1) ≤ 2 * m * (nn / (2 * m)) :=
    Nat.mul_le_mul_left _ (by omega)
  have h3 : 2 * m * (nn / (2 * m)) = nn := Nat.mul_div_cancel' hdvd
  have h4 := Nat.div_add_mod p (2 * m)
  have h5 : 2 * m * (p / (2 * m) + 1) = 2 * m * (p / (2 * m)) + 2 * m := by ring
  omega

/-- The full column loop of a level equals the block-structural form with
the per-column twiddles precomputed. -/
theorem bfCols_eq_bfBlocks {fLow fHigh : Int → Int → Int → Int} {d : Int}
    {nn : Nat} {Wt : List Int} {m step : Nat} (hm : 0 < m)
    (x : List Int) (hlen : x.length = nn) (hdvd : 2 * m ∣ nn) :
    bfCols fLow fHigh d nn Wt m step m 0 0 x =
      bfBlocks fLow fHigh
        ((List.range m).map fun j => Wt.getD (j * (nn - step) % nn) d) m nn x := by
  have hw : ((List.range m).map fun j => Wt.getD (j * (nn - step) % nn) d).length = m := by
    simp
  have hB := @bfBlocks_getD fLow fHigh
      ((List.range m).map fun j => Wt.getD (j * (nn - step) % nn) d) m hm hw d
      nn x (by rw [hlen]; exact hdvd)
    (by
      have h1 : 1 * nn ≤ 2 * m * nn := Nat.mul_le_mul_right nn (by omega)
      omega)
  apply List.ext_getElem
  · rw [bfCols_length, hB.1, hlen]
  · intro p h1 h2
    have hp : p < nn := by rw [bfCols_length, hlen] at h1; exact h1
    have hc := @bfCols_getD fLow fHigh d nn Wt m step hm m 0 0 x hlen (by omega)
      (by simp) p hp
    have hb := hB.2 p (by rw [hlen]; exact hp)
    rw [← getD_eq_getElem_of_lt d h1, ← getD_eq_getElem_of_lt d h2, hc, hb,
      if_pos (Nat.zero_le _)]
    unfold levelValue
    have hpm : p % m < m := Nat.mod_lt p hm
    have hwl : ((List.range m).map fun j => Wt.getD (j * (nn - step) % nn) d).getD (p % m) d =
        Wt.getD (p % m * (nn - step) % nn) d := by
      rw [getD_eq_getElem_of_lt d (by rw [hw]; exact hpm)]
      simp
    rw [hwl]

/-- The value an out-of-range read returns never influences a level, on
arrays whose length `nn` is a multiple of `2m` and with a full twiddle
table. -/
theorem bfCols_d_indep {fLow fHigh : Int → Int → Int → Int} {nn : Nat}
    {Wt : List Int} {m step : Nat} (hm : 0 < m) (hnn : 0 < nn)
    (d d' : Int) (x : List Int) (hlen : x.length = nn) (hdvd : 2 * m ∣ nn)
    (hWt : Wt.length = nn) :
    bfCols fLow fHigh d nn Wt m step m 0 0 x =
      bfCols fLow fHigh d' nn Wt m step m 0 0 x := by
  apply List.ext_getElem
  · rw [bfCols_length, bfCols_length]
  · intro p h1 h2
    have hp : p < nn := by rw [bfCols_length, hlen] at h1; exact h1
    rw [← getD_eq_getElem_of_lt d h1, ← getD_eq_getElem_of_lt d' h2,
      @bfCols_getD fLow fHigh d nn Wt m step hm m 0 0 x hlen (by omega) (by simp) p hp,
      @bfCols_getD fLow fHigh d' nn Wt m step hm m 0 0 x hlen (by omega) (by simp) p hp,
      if_pos (Nat.zero_le _), if_pos (Nat.zero_le _)]
    unfold levelValue
    have hWidx : p % m * (nn - step) % nn < nn := Nat.mod_lt _ hnn
    have hWget : Wt.getD (p % m * (nn - step) % nn) d =
        Wt.getD (p % m * (nn - step) % nn) d' := by
      rw [getD_eq_getElem_of_lt d (by rw [hWt]; exact hWidx),
        getD_eq_getElem_of_lt d' (by rw [hWt]; exact hWidx)]
    have hpx : p < x.length := by omega
    have hx1 : x.getD p d = x.getD p d' := by
      rw [getD_eq_getElem_of_lt d hpx, getD_eq_getElem_of_lt d' hpx]
    by_cases hbr : p % (2 * m) < m
    · rw [if_pos hbr, if_pos hbr, hWget, hx1]
      have hpm : p + m < nn := add_lt_of_mod_lt hdvd hp hbr
      have hpmx : p + m < x.length := by omega
      rw [getD_eq_getElem_of_lt d hpmx, getD_eq_getElem_of_lt d' hpmx]
    · rw [if_neg hbr, if_neg hbr, hWget, hx1]
      have hpmx : p - m < x.length := by omega
      rw [getD_eq_getElem_of_lt d hpmx, getD_eq_getElem_of_lt d' hpmx]

theorem fwdCols_length (ops : ModOps) (qv d : Int) (nn : Nat) (Wt : List Int)
    (m step : Nat) (fuel j index : Nat) (x : List Int) :
    (fwdCols ops qv d nn Wt m step fuel j index x).length = x.length := by
  rw [fwdCols_eq_bf, bfCols_length]

theorem bwdCols_length (ops : ModOps) (qv d : Int) (nn : Nat) (Wt : List Int)
    (m step : Nat) (fuel j index : Nat) (x : List Int) :
    (bwdCols ops qv d nn Wt m step fuel j index x).length = x.length := by
  rw [bwdCols_eq_bf, bfCols_length]

theorem fwdLevels_length (ops : ModOps) (qv d : Int) (nn : Nat) (Wt : List Int) :
    ∀ fuel m step x, (fwdLevels ops qv d nn Wt fuel m step x).length = x.length := by
  intro fuel
  induction fuel with
  | zero => intro m step x; rfl
  | succ f ih =>
    intro m step x
    simp only [fwdLevels]
    by_cases hm : 1 ≤ m
    · rw [if_pos hm, ih, fwdCols_length]
    · rw [if_neg hm]

theorem bwdLevels_length (ops : ModOps) (qv d : Int) (nn : Nat) (Wt : List Int) :
    ∀ fuel m step x, (bwdLevels ops qv d nn Wt fuel m step x).length = x.length := by
  intro fuel
  induction fuel with
  | zero => intro m step x; rfl
  | succ f ih =>
    intro m step x
    simp only [bwdLevels]
    by_cases hm : m < nn
    · rw [if_pos hm, ih, bwdCols_length]
    · rw [if_neg hm]

/-- Through all levels of the forward transform, the out-of-range read value
is irrelevant, provided the length is the power of two `nn` and the level
width is a power of two properly dividing `nn`. -/
theorem fwdLevels_d_indep (ops : ModOps) (qv : Int) (nn : Nat) (Wt : List Int)
    (hWt : Wt.length = nn) (hnn : 0 < nn) :
    ∀ fuel m step x (d d' : Int), x.length = nn →
      (m = 0 ∨ ∃ e, m = 2 ^ e ∧ 2 ^ (e + 1) ∣ nn) →
      fwdLevels ops qv d nn Wt fuel m step x =
        fwdLevels ops qv d' nn Wt fuel m step x := by
  intro fuel
  induction fuel with
  | zero => intro m step x d d' hx hinv; rfl
  | succ f ih =>
    intro m step x d d' hx hinv
    simp only [fwdLevels]
    by_cases hm : 1 ≤ m
    · rw [if_pos hm, if_pos hm]
      rcases hinv with h0 | ⟨e, hme, hdvd⟩
      · omega
      · have hdvd2 : 2 * m ∣ nn := by
          rw [hme]
          have : 2 * 2 ^ e = 2 ^ (e + 1) := by ring
          rw [this]
          exact hdvd
        have hcols : fwdCols ops qv d nn Wt m step m 0 0 x =
            fwdCols ops qv d' nn Wt m step m 0 0 x := by
          rw [fwdCols_eq_bf, fwdCols_eq_bf]
          exact bfCols_d_indep (by omega) hnn d d' x hx hdvd2 hWt
        rw [hcols]
        apply ih
        · rw [fwdCols_length, hx]
        · rcases Nat.eq_zero_or_pos e with he | he
          · left
            rw [hme, he]
            rfl
          · right
            refine ⟨e - 1, ?_, ?_⟩
            · rw [hme]
              rcases e with _ | e2
              · omega
              · show 2 ^ (e2 + 1) >>> 1 = 2 ^ (e2 + 1 - 1)
                rw [Nat.shiftRight_succ, Nat.shiftRight_zero]
                simp [Nat.pow_succ]
            · calc 2 ^ (e - 1 + 1) ∣ 2 ^ (e + 1) := pow_dvd_pow 2 (by omega)
                _ ∣ nn := hdvd
    · rw [if_neg hm, if_neg hm]

/-- Through all levels of the backward transform, the out-of-range read value
is irrelevant: the level width runs through powers of two below `nn`. -/
theorem bwdLevels_d_indep (ops : ModOps) (qv : Int) (nn : Nat) (Wt : List Int)
    (hWt : Wt.length = nn) (E : Nat) (hnn : nn = 2 ^ E) :
    ∀ fuel m step x (d d' : Int), x.length = nn → (∃ e, m = 2 ^ e) →
      bwdLevels ops qv d nn Wt fuel m step x =
        bwdLevels ops qv d' nn Wt fuel m step x := by
  intro fuel
  induction fuel with
  | zero => intro m step x d d' hx hinv; rfl
  | succ f ih =>
    intro m step x d d' hx hinv
    simp only [bwdLevels]
    by_cases hm : m < nn
    · rw [if_pos hm, if_pos hm]
      obtain ⟨e, hme⟩ := hinv
      have heE : e < E := by
        by_contra hc
        push_neg at hc
        have : nn ≤ m := by
          rw [hme, hnn]
          exact Nat.pow_le_pow_right (by omega) hc
        omega
      have hdvd2 : 2 * m ∣ nn := by
        rw [hme, hnn]
        have : 2 * 2 ^ e = 2 ^ (e + 1) := by ring
        rw [this]
        exact pow_dvd_pow 2 (by omega)
      have hnn0 : 0 < nn := by
        rw [hnn]
        exact Nat.pos_pow_of_pos E (by omega)
      have hm0 : 0 < m := by
        rw [hme]
        exact Nat.pos_pow_of_pos e (by omega)
      have hcols : bwdCols ops qv d nn Wt m step m 0 0 x =
          bwdCols ops qv d' nn Wt m step m 0 0 x := by
        rw [bwdCols_eq_bf, bwdCols_eq_bf]
        exact bfCols_d_indep hm0 hnn0 d d' x hx hdvd2 hWt
      rw [hcols]
      apply ih
      · rw [bwdCols_length, hx]
      · refine ⟨e + 1, ?_⟩
        rw [hme]
        show 2 ^ e <<< 1 = 2 ^ (e + 1)
        rw [Nat.shiftLeft_eq, Nat.pow_one, Nat.pow_succ]
    · rw [if_neg hm, if_neg hm]

theorem bfInner_mem {fLow fHigh : Int → Int → Int} {d : Int} {nn m : Nat}
    {P : Int → Prop} (hLow : ∀ a b, P (fLow a b)) (hHigh : ∀ a b, P (fHigh a b)) :
    ∀ fuel i x, (∀ v ∈ x, P v) → ∀ v ∈ bfInner fLow fHigh d nn m fuel i x, P v := by
  intro fuel
  induction fuel with
  | zero => intro i x hx; exact hx
  | succ f ih =>
    intro i x hx
    simp only [bfInner]
    by_cases hi : i < nn
    · rw [if_pos hi]
      apply ih
      intro v hv
      rcases List.mem_or_eq_of_mem_set hv with hv2 | hv2
      · rcases List.mem_or_eq_of_mem_set hv2 with hv3 | hv3
        · exact hx v hv3
        · rw [hv3]; apply hLow
      · rw [hv2]; apply hHigh
    · rw [if_neg hi]
      exact hx

theorem bfCols_mem {fLow fHigh : Int → Int → Int → Int} {d : Int} {nn : Nat}
    {Wt : List Int} {m step : Nat} {P : Int → Prop}
    (hLow : ∀ w a b, P (fLow w a b)) (hHigh : ∀ w a b, P (fHigh w a b)) :
    ∀ fuel j index x, (∀ v ∈ x, P v) →
      ∀ v ∈ bfCols fLow fHigh d nn Wt m step fuel j index x, P v := by
  intro fuel
  induction fuel with
  | zero => intro j index x hx; exact hx
  | succ f ih =>
    intro j index x hx
    simp only [bfCols]
    by_cases hj : j < m
    · rw [if_pos hj]
      apply ih
      exact bfInner_mem (fun a b => hLow _ a b) (fun a b => hHigh _ a b) nn j x hx
    · rw [if_neg hj]
      exact hx

theorem fwdLevels_mem (ops : ModOps) (qv d : Int) (nn : Nat) (Wt : List Int)
    {P : Int → Prop} (hAdd : ∀ a b, P (ops.addMod a b qv))
    (hMul : ∀ a b, P (ops.mulMod a b qv)) :
    ∀ fuel m step x, (∀ v ∈ x, P v) →
      ∀ v ∈ fwdLevels ops qv d nn Wt fuel m step x, P v := by
  intro fuel
  induction fuel with
  | zero => intro m step x hx; exact hx
  | succ f ih =>
    intro m step x hx
    simp only [fwdLevels]
    by_cases hm : 1 ≤ m
    · rw [if_pos hm]
      apply ih
      rw [fwdCols_eq_bf]
      exact bfCols_mem (fun w a b => hAdd a b) (fun w a b => hMul _ w) m 0 0 x hx
    · rw [if_neg hm]
      exact hx

theorem bwdLevels_mem (ops : ModOps) (qv d : Int) (nn : Nat) (Wt : List Int)
    {P : Int → Prop} (hAdd : ∀ a b, P (ops.addMod a b qv))
    (hSub : ∀ a b, P (ops.subMod a b qv)) :
    ∀ fuel m step x, (∀ v ∈ x, P v) →
      ∀ v ∈ bwdLevels ops qv d nn Wt fuel m step x, P v := by
  intro fuel
  induction fuel with
  | zero => intro m step x hx; exact hx
  | succ f ih =>
    intro m step x hx
    simp only [bwdLevels]
    by_cases hm : m < nn
    · rw [if_pos hm]
      apply ih
      rw [bwdCols_eq_bf]
      exact bfCols_mem (fun w a b => hAdd a _) (fun w a b => hSub a _) m 0 0 x hx
    · rw [if_neg hm]
      exact hx

namespace V3

/-- `generateKeyPair` of `rlweBTCETH3.js`.  The `Math.random` sampling of the
private key is embedded by taking the sampled polynomial as the argument;
`publicKey = privateKey.slice()` then `fftForward(publicKey)` becomes the
functional `fftForward` on the private key, leaving the private key itself
untouched. -/
def generateKeyPair (privateKey : List Int) : List Int × List Int :=
  (privateKey, fftForward privateKey)

/-- `encapsulate(publicKey)` of `rlweBTCETH3.js`, with the sampled
`randomPoly` as an explicit argument: the ciphertext is the forward
transform of a copy of `randomPoly`, and the shared secret is
`randomPoly.map((val, i) => mulMod(val, publicKey[i], q))` over the
untransformed randomness. -/
def encapsulate (publicKey randomPoly : List Int) : List Int × List Int :=
  (fftForward randomPoly,
    (List.range randomPoly.length).map fun i =>
      mulMod (randomPoly.getD i 0) (publicKey.getD i 0) q)

/-- `decapsulate(ciphertext, privateKey)` of `rlweBTCETH3.js`:
`ciphertext.map((val, i) => mulMod(val, privateKey[i], q))` into a fresh
array, then `fftBackward` of that array. -/
def decapsulate (ciphertext privateKey : List Int) : List Int :=
  fftBackward ((List.range ciphertext.length).map fun i =>
    mulMod (ciphertext.getD i 0) (privateKey.getD i 0) q)

/-- Buffer-explicit model of `decapsulate` for the frame property: the
working buffer is the fresh array allocated by `Array.prototype.map`, and
`fftBackward` mutates only that buffer, so the caller's `ciphertext` and
`privateKey` arrays are handed back unchanged.  The first component is the
returned shared secret; the other two are the states of the caller's two
arrays after the call. -/
def decapsulateBuffers (ciphertext privateKey : List Int) :
    List Int × List Int × List Int :=
  (fftBackward ((List.range ciphertext.length).map fun i =>
    mulMod (ciphertext.getD i 0) (privateKey.getD i 0) q),
   ciphertext, privateKey)

end V3

namespace V2

/-- `generateKeyPair` of the second copy in `rlweBTCETH2.js`. -/
def generateKeyPair (privateKey : List Int) : List Int × List Int :=
  (privateKey, fftForward privateKey)

/-- `encapsulate` of the second copy in `rlweBTCETH2.js`. -/
def encapsulate (publicKey randomPoly : List Int) : List Int × List Int :=
  (fftForward randomPoly,
    (List.range randomPoly.length).map fun i =>
      mulMod (randomPoly.getD i 0) (publicKey.getD i 0) q)

/-- `decapsulate` of the second copy in `rlweBTCETH2.js`. -/
def decapsulate (ciphertext privateKey : List Int) : List Int :=
  fftBackward ((List.range ciphertext.length).map fun i =>
    mulMod (ciphertext.getD i 0) (privateKey.getD i 0) q)

end V2

namespace Sha256

/-- Modelled from the spec: `crypto.createHash("sha256")` is Node's standard
library, not part of this repository; the spec describes it as a streaming
cryptographic hash with a fixed 32-byte digest, named SHA-256.  The
definitions in this namespace model it as FIPS 180-4 SHA-256 over byte
lists, with 32-bit words as `Nat` reduced mod `2 ^ 32`. -/
def w32 : Nat := 4294967296

def rotr (k x : Nat) : Nat := ((x >>> k) ||| (x <<< (32 - k))) % w32

def K : List Nat :=
  [1116352408, 1899447441, 3049323471, 3921009573, 961987163, 1508970993,
   2453635748, 2870763221, 3624381080, 310598401, 607225278, 1426881987,
   1925078388, 2162078206, 2614888103, 3248222580, 3835390401, 4022224774,
   264347078, 604807628, 770255983, 1249150122, 1555081692, 1996064986,
   2554220882, 2821834349, 2952996808, 3210313671, 3336571891, 3584528711,
   113926993, 338241895, 666307205, 773529912, 1294757372, 1396182291,
   1695183700, 1986661051, 2177026350, 2456956037, 2730485921, 2820302411,
   3259730800, 3345764771, 3516065817, 3600352804, 4094571909, 275423344,
   430227734, 506948616, 659060556, 883997877, 958139571, 1322822218,
   1537002063, 1747873779, 1955562222, 2024104815, 2227730452, 2361852424,
   2428436474, 2756734187, 3204031479, 3329325298]

/-- The running hash state: eight 32-bit words. -/
structure Hash8 where
  a : Nat
  b : Nat
  c : Nat
  dd : Nat
  e : Nat
  f : Nat
  g : Nat
  h : Nat

def initH : Hash8 :=
  ⟨1779033703, 3144134277, 1013904242, 2773480762,
   1359893119, 2600822924, 528734635, 1541459225⟩

/-- Extend the sixteen block words to the 64-entry message schedule. -/
def schedule (ws : List Nat) : List Nat :=
  (List.range 48).foldl
    (fun acc _ =>
      let l := acc.length
      let s0 :=
        (rotr 7 (acc.getD (l - 15) 0)) ^^^ (rotr 18 (acc.getD (l - 15) 0)) ^^^
          (acc.getD (l - 15) 0 >>> 3)
      let s1 :=
        (rotr 17 (acc.getD (l - 2) 0)) ^^^ (rotr 19 (acc.getD (l - 2) 0)) ^^^
          (acc.getD (l - 2) 0 >>> 10)
      acc ++ [(acc.getD (l - 16) 0 + s0 + acc.getD (l - 7) 0 + s1) % w32])
    ws

def round (st : Hash8) (kt wt : Nat) : Hash8 :=
  let S1 := (rotr 6 st.e) ^^^ (rotr 11 st.e) ^^^ (rotr 25 st.e)
  let ch := (st.e &&& st.f) ^^^ ((st.e ^^^ (w32 - 1)) &&& st.g)
  let temp1 := (st.h + S1 + ch + kt + wt) % w32
  let S0 := (rotr 2 st.a) ^^^ (rotr 13 st.a) ^^^ (rotr 22 st.a)
  let maj := (st.a &&& st.b) ^^^ (st.a &&& st.c) ^^^ (st.b &&& st.c)
  let temp2 := (S0 + maj) % w32
  ⟨(temp1 + temp2) % w32, st.a, st.b, st.c, (st.dd + temp1) % w32, st.e, st.f, st.g⟩

/-- Compress one 64-byte chunk into the running state. -/
def compress (st : Hash8) (chunk : List Nat) : Hash8 :=
  let ws := (List.range 16).map fun i =>
    chunk.getD (4 * i) 0 * 16777216 + chunk.getD (4 * i + 1) 0 * 65536 +
      chunk.getD (4 * i + 2) 0 * 256 + chunk.getD (4 * i + 3) 0
  let sched := schedule ws
  let fin := (List.range 64).foldl
    (fun acc t => round acc (K.getD t 0) (sched.getD t 0)) st
  ⟨(st.a + fin.a) % w32, (st.b + fin.b) % w32, (st.c + fin.c) % w32,
   (st.dd + fin.dd) % w32, (st.e + fin.e) % w32, (st.f + fin.f) % w32,
   (st.g + fin.g) % w32, (st.h + fin.h) % w32⟩

/-- Big-endian bytes of the 64-bit message bit length. -/
def lenBytes (v : Nat) : List Nat :=
  [v >>> 56 % 256, v >>> 48 % 256, v >>> 40 % 256, v >>> 32 % 256,
   v >>> 24 % 256, v >>> 16 % 256, v >>> 8 % 256, v % 256]

/-- Pad to a multiple of 64 bytes: `0x80`, zeros, 8-byte bit length. -/
def padMsg (msg : List Nat) : List Nat :=
  msg ++ [128] ++ List.replicate ((64 + 55 - msg.length % 64) % 64) 0 ++
    lenBytes (8 * msg.length)

/-- Split into 64-byte chunks. -/
def chunks (l : List Nat) : List (List Nat) :=
  if h : l = [] then [] else
    l.take 64 :: chunks (l.drop 64)
termination_by l.length
decreasing_by
  simp [List.length_drop]
  rcases l with _ | ⟨a, t⟩
  · exact absurd rfl h
  · simp

/-- Big-endian bytes of one 32-bit word. -/
def wordBytes (v : Nat) : List Nat :=
  [v >>> 24 % 256, v >>> 16 % 256, v >>> 8 % 256, v % 256]

/-- Serialize the final state: the 32-byte digest. -/
def digestBytes (st : Hash8) : List Nat :=
  wordBytes st.a ++ wordBytes st.b ++ wordBytes st.c ++ wordBytes st.dd ++
    wordBytes st.e ++ wordBytes st.f ++ wordBytes st.g ++ wordBytes st.h

/-- SHA-256 of a byte list. -/
def sha256 (msg : List Nat) : List Nat :=
  digestBytes ((chunks (padMsg msg)).foldl compress initH)

end Sha256

/-- `sharedSecretToEntropy` of the sources: feed each coefficient through
`hash.update(Buffer.from(val.toString()))` and return `hash.digest()`.  The
streaming hash object is modeled by its accumulated input bytes (an update
appends the UTF-8 bytes of the decimal string, which are the character
codes), and the digest is SHA-256 of the accumulated bytes. -/
def sharedSecretToEntropy (sharedSecret : List Int) : List Nat :=
  Sha256.sha256 (sharedSecret.foldl
    (fun acc val => acc ++ (toString val).toList.map Char.toNat) [])

/-- `isPrime` of `rlweBTCETH2.js`: trial division,
`for (let i = 2; i * i <= num; i++)`.  `fuel` bounds the iteration count;
`num` iterations always suffice. -/
def isPrimeAux (num : Nat) : Nat → Nat → Bool
  | 0, _ => true
  | fuel + 1, i =>
    if i * i ≤ num then
      if num % i = 0 then false else isPrimeAux num fuel (i + 1)
    else true

/-- `isPrime(num)`: `if (num < 2) return false` then the trial-division
loop. -/
def isPrime (num : Nat) : Bool :=
  if num < 2 then false else isPrimeAux num num 2

/-- `validateParameters` of `rlweBTCETH2.js`: `n` must be positive and a
power of two (`n <= 0 || (n & (n - 1)) !== 0` rejects), `q` must pass
`isPrime`, and `q < n` is rejected.  The thrown `Error` is embedded as
`Except.error` with the message text; parameters are `Nat` (the constants
`n`, `q` are nonnegative, so `n <= 0` becomes `n = 0`). -/
def validateParameters (nv qv : Nat) : Except String Unit :=
  if nv = 0 || (nv &&& (nv - 1)) != 0 then
    Except.error "Parameter n must be a power of 2 for FFT compatibility."
  else if !isPrime qv then
    Except.error "Parameter q must be a prime number."
  else if qv < nv then
    Except.error "Parameter q must be larger than n to prevent overflow."
  else Except.ok ()

/-- Decoder for packed concrete polynomials used by the evaluation lemmas:
limb `i` of the base-`131072` little-endian encoding holds coefficient `i`
offset by `q` (so coefficients in `(-q, q)` are representable). -/
def decodePoly : Nat → Nat → List Int
  | 0, _ => []
  | len + 1, e => (((e % 131072 : Nat) : Int) - q) :: decodePoly len (e / 131072)

theorem decodePoly_length : ∀ len e, (decodePoly len e).length = len := by
  intro len
  induction len with
  | zero => intro e; rfl
  | succ k ih => intro e; simp [decodePoly, ih]

theorem neg_lt_tmod (a : Int) {b : Int} (hb : 0 < b) : -b < a.tmod b := by
  rcases le_or_lt 0 a with ha | ha
  · have := Int.tmod_nonneg b ha
    omega
  · have hneg : a.tmod b = -((-a).tmod b) := by
      simp only [Int.tmod_def, Int.neg_tdiv]
      ring
    have h2 : (-a).tmod b < b := Int.tmod_lt_of_pos (-a) hb
    omega

/-- The native `mod` of `rlweBTCETH2.js` is the Euclidean remainder: it maps
every integer, negative ones included, into `[0, m)` for positive `m`. -/
theorem V2.mod_eq_emod (x m : Int) (hm : 0 < m) : V2.mod x m = x % m := by
  unfold V2.mod
  have h1 : -m < x.tmod m := neg_lt_tmod x hm
  have h3 : 0 ≤ x.tmod m + m := by omega
  rw [Int.tmod_eq_emod h3 (le_of_lt hm)]
  have h4 : x.tmod m = x - m * x.tdiv m := Int.tmod_def x m
  rw [h4]
  have h5 : x - m * x.tdiv m + m = x + m * (1 - x.tdiv m) := by ring
  rw [h5, Int.add_mul_emod_self_left]

theorem V2.mod_range (x m : Int) (hm : 0 < m) : 0 ≤ V2.mod x m ∧ V2.mod x m < m := by
  rw [V2.mod_eq_emod x m hm]
  exact ⟨Int.emod_nonneg x (by omega), Int.emod_lt_of_pos x hm⟩

theorem tmod_range_of_nonneg {a m : Int} (ha : 0 ≤ a) (hm : 0 < m) :
    0 ≤ a.tmod m ∧ a.tmod m < m :=
  ⟨Int.tmod_nonneg m ha, Int.tmod_lt_of_pos a hm⟩

/-- The trial-division loop accepts exactly when no candidate from `i` up
to the square root divides `num`; `fuel` past `num` is always enough. -/
theorem isPrimeAux_correct (num : Nat) :
    ∀ fuel i, 2 ≤ i → num < fuel + i →
      (isPrimeAux num fuel i = true ↔ ∀ k, i ≤ k → k * k ≤ num → ¬ (k ∣ num)) := by
  intro fuel
  induction fuel with
  | zero =>
    intro i hi hfuel
    simp only [isPrimeAux]
    constructor
    · intro _ k hk hkk hdvd
      have h1 : k ≤ k * k := Nat.le_mul_of_pos_left k (by omega)
      omega
    · intro _
      trivial
  | succ f ih =>
    intro i hi hfuel
    simp only [isPrimeAux]
    by_cases hii : i * i ≤ num
    · rw [if_pos hii]
      by_cases hdvd : num % i = 0
      · rw [if_pos hdvd]
        constructor
        · intro h
          exact absurd h (by simp)
        · intro hall
          exact absurd (Nat.dvd_of_mod_eq_zero hdvd) (hall i (le_refl i) hii)
      · rw [if_neg hdvd]
        rw [ih (i + 1) (by omega) (by omega)]
        constructor
        · intro hall k hk hkk hd
          rcases Nat.eq_or_lt_of_le hk with hke | hkl
          · subst hke
            exact hdvd (Nat.mod_eq_zero_of_dvd hd)
          · exact hall k (by omega) hkk hd
        · intro hall k hk hkk hd
          exact hall k (by omega) hkk hd
    · rw [if_neg hii]
      constructor
      · intro _ k hk hkk hd
        have h1 : i * i ≤ k * k := Nat.mul_le_mul hk hk
        omega
      · intro _
        rfl

/-- `isPrime` decides primality. -/
theorem isPrime_iff_prime (num : Nat) : isPrime num = true ↔ Nat.Prime num := by
  unfold isPrime
  by_cases h2 : num < 2
  · rw [if_pos h2]
    constructor
    · intro h
      exact absurd h (by simp)
    · intro hp
      exact absurd hp.two_le (by omega)
  · rw [if_neg h2]
    rw [isPrimeAux_correct num num 2 (le_refl 2) (by omega)]
    rw [Nat.prime_def_le_sqrt]
    constructor
    · intro hall
      refine ⟨by omega, fun m hm hms => hall m hm (Nat.le_sqrt.mp hms)⟩
    · intro ⟨_, hall⟩ k hk hkk
      exact hall k hk (Nat.le_sqrt.mpr hkk)

/-- The bit trick of `validateParameters`: a positive `n` satisfies
`n & (n - 1) = 0` exactly when it is a power of two. -/
theorem land_pred_eq_zero_iff :
    ∀ nv : Nat, (nv ≠ 0 ∧ nv &&& (nv - 1) = 0) ↔ ∃ e, nv = 2 ^ e := by
  intro nv
  induction nv using Nat.strong_induction_on with
  | _ nv ih =>
    constructor
    · rintro ⟨h0, hland⟩
      rcases Nat.lt_or_ge nv 2 with h2 | h2
      · refine ⟨0, ?_⟩
        omega
      · rcases Nat.even_or_odd nv with he | ho
        · obtain ⟨k, hk⟩ := he
          have hk1 : 1 ≤ k := by omega
          have hkland : k &&& (k - 1) = 0 := by
            apply Nat.eq_of_testBit_eq
            intro i
            rw [Nat.zero_testBit, Nat.testBit_and]
            have hb1 : k.testBit i = nv.testBit (i + 1) := by
              rw [Nat.testBit_add_one]
              congr 1
              omega
            have hb2 : (k - 1).testBit i = (nv - 1).testBit (i + 1) := by
              rw [Nat.testBit_add_one]
              congr 1
              omega
            rw [hb1, hb2, ← Nat.testBit_and, hland, Nat.zero_testBit]
          obtain ⟨e, hke⟩ := (ih k (by omega)).mp ⟨by omega, hkland⟩
          exact ⟨e + 1, by rw [Nat.pow_succ]; omega⟩
        · exfalso
          obtain ⟨k, hk⟩ := ho
          have hk1 : 1 ≤ k := by omega
          have hkzero : k = 0 := by
            apply Nat.eq_of_testBit_eq
            intro i
            rw [Nat.zero_testBit]
            have hb1 : k.testBit i = nv.testBit (i + 1) := by
              rw [Nat.testBit_add_one]
              congr 1
              omega
            have hb2 : k.testBit i = (nv - 1).testBit (i + 1) := by
              rw [Nat.testBit_add_one]
              congr 1
              omega
            have := congrArg (fun t => t.testBit (i + 1)) hland
            simp only [Nat.testBit_and, Nat.zero_testBit] at this
            rw [← hb1, ← hb2] at this
            simpa using this
          omega
    · rintro ⟨e, rfl⟩
      refine ⟨(Nat.pos_pow_of_pos e (by omega)).ne', ?_⟩
      apply Nat.eq_of_testBit_eq
      intro i
      rw [Nat.zero_testBit, Nat.testBit_and, Nat.testBit_two_pow,
        Nat.testBit_two_pow_sub_one]
      by_cases hie : e = i
      · subst hie
        simp
      · simp [hie]

/-- `validateParameters` accepts exactly the parameter pairs with `n` a
positive power of two, `q` prime, and `n ≤ q`. -/
theorem validateParameters_ok_iff (nv qv : Nat) :
    validateParameters nv qv = Except.ok () ↔
      ((∃ e, nv = 2 ^ e) ∧ Nat.Prime qv ∧ nv ≤ qv) := by
  unfold validateParameters
  by_cases h1 : (decide (nv = 0) || (nv &&& (nv - 1)) != 0) = true
  · rw [if_pos h1]
    simp only [Bool.or_eq_true, decide_eq_true_eq, bne_iff_ne, ne_eq] at h1
    constructor
    · intro h
      exact Except.noConfusion h
    · rintro ⟨hpow, _, _⟩
      have h2 := (land_pred_eq_zero_iff nv).mpr hpow
      rcases h1 with h | h
      · exact absurd h h2.1
      · exact absurd h2.2 h
  · rw [if_neg h1]
    simp only [Bool.or_eq_true, decide_eq_true_eq, bne_iff_ne, ne_eq, not_or,
      not_not] at h1
    by_cases h2 : (!isPrime qv) = true
    · rw [if_pos h2]
      constructor
      · intro h
        exact Except.noConfusion h
      · rintro ⟨_, hq, _⟩
        have h4 := (isPrime_iff_prime qv).mpr hq
        rw [Bool.not_eq_true'] at h2
        rw [h4] at h2
        exact Bool.noConfusion h2
    · rw [if_neg h2]
      by_cases h3 : qv < nv
      · rw [if_pos h3]
        constructor
        · intro h
          exact Except.noConfusion h
        · rintro ⟨_, _, hle⟩
          omega
      · rw [if_neg h3]
        constructor
        · intro _
          refine ⟨(land_pred_eq_zero_iff nv).mp ⟨h1.1, h1.2⟩,
            (isPrime_iff_prime qv).mp (by simpa using h2), by omega⟩
        · intro _
          rfl

theorem W_getD (i : Nat) (hi : i < n) (d : Int) : W.getD i d = (i : Int) + 1 := by
  have hi' : i < 1024 := hi
  unfold W
  rw [getD_eq_getElem_of_lt d
    (by rw [List.length_map, List.length_range]; exact hi)]
  rw [List.getElem_map, List.getElem_range]
  apply Int.tmod_eq_of_lt
  · omega
  · show (i : Int) + 1 < 40961
    omega

theorem W_rev_getD (i : Nat) (hi : i < n) (d : Int) :
    W_rev.getD i d = q - (i : Int) - 1 := by
  have hi' : i < 1024 := hi
  unfold W_rev
  rw [getD_eq_getElem_of_lt d
    (by rw [List.length_map, List.length_range]; exact hi)]
  rw [List.getElem_map, List.getElem_range]
  apply Int.tmod_eq_of_lt
  · show (0 : Int) ≤ 40961 - (i : Int) - 1
    omega
  · show (40961 : Int) - (i : Int) - 1 < 40961
    omega

/-- The per-column twiddles of a forward level, in closed form:
`W[i] = i + 1` on `[0, n)`. -/
theorem wl_fwd (m t : Nat) (d : Int) :
    (List.range m).map (fun j => W.getD (j * t % 1024) d) =
      (List.range m).map (fun j => ((j * t % 1024 : Nat) : Int) + 1) := by
  apply List.map_congr_left
  intro j _
  exact W_getD _ (Nat.mod_lt _ (by decide)) d

/-- The per-column twiddles of a backward level, in closed form:
`W_rev[i] = q - i - 1` on `[0, n)`. -/
theorem wl_bwd (m t : Nat) (d : Int) :
    (List.range m).map (fun j => W_rev.getD (j * t % 1024) d) =
      (List.range m).map (fun j => q - ((j * t % 1024 : Nat) : Int) - 1) := by
  apply List.map_congr_left
  intro j _
  exact W_rev_getD _ (Nat.mod_lt _ (by decide)) d

theorem fwdLevels_succ (ops : ModOps) (qv d : Int) (nn : Nat) (Wt : List Int)
    (fuel m step : Nat) (x : List Int) :
    fwdLevels ops qv d nn Wt (fuel + 1) m step x =
      if 1 ≤ m then
        fwdLevels ops qv d nn Wt fuel (m >>> 1) (step <<< 1)
          (fwdCols ops qv d nn Wt m step m 0 0 x)
      else x := rfl

theorem bwdLevels_succ (ops : ModOps) (qv d : Int) (nn : Nat) (Wt : List Int)
    (fuel m step : Nat) (x : List Int) :
    bwdLevels ops qv d nn Wt (fuel + 1) m step x =
      if m < nn then
        bwdLevels ops qv d nn Wt fuel (m <<< 1) (step >>> 1)
          (bwdCols ops qv d nn Wt m step m 0 0 x)
      else x := rfl

end RLWE
namespace RLWE

set_option maxRecDepth 100000

/-- Concrete input for the evaluation lemmas: the polynomial with a
single `1` in position `0`. -/
def D0 : List Int := (1 : Int) :: List.replicate 1023 0

/-- The all-ones polynomial. -/
def onesP : List Int := List.replicate 1024 (1 : Int)

theorem hD0len : D0.length = 1024 := by simp [D0]

theorem honesPlen : onesP.length = 1024 := by simp [onesP]

def Pfd1 : List Int := decodePoly 1024 66838771115914498023575800246053273996636591583413530378974011996709104466376624191213053978719247866527946644482414021308027419553045452939362554728217752072478666702631094941922882176983766786402212244804898330064399924101464220271293680104693315320815785694063661233279787821298091533032840104515212778053570446233648245425749495703304578605909287581226364137764710446243233135051687872470856237089356527753602480691904767854427672887800866257543762386348584030301037646021441767542241514235370443238061176247034821948428199040134438614351334079920130804959705618950966173913768051039708344841232244935859376836273224119354290250817549053891654974620981711063190670026269032680159906164472640112654423564180958118532334345601283590233103171387430611323107606605502930037980956026725851025810903539588074527807884033772022432228292204478437582804434451206925623032901253365274930425069953387240583521226936292182784718411341843585229346873831070243068658103155343465371522813749465835837164046994954842111790970759369291926854818261733366363409884774162003906799254380752869692833731248143287963707910170438637529584675833711117433545023335049248860265954537808484539981648201355084637647761108167815055307893873530534110722571786418479334611688115586200204055351302869137167809103006526738476769341973920040221249943756734228411626730656261257746583406924059967945351276456545919654614631478409439505125521630382880418740262960255285210138095917137828711682115293012441539536029280823070060894929994133396577656391129435662757830334880708343231591108777937062969306880407941149485490307839011786059015496612602569040427205635915851415840659825207671975768884511406525206937517396187266459344309009154743639498622157358226531707173082125262877878429582972440745879880287732473511795857600333088643182209698786750654435086562338828835684192010807922135096620668916362471050672871508612123824153856448702826753991151442843381794542054302877121303405419842243616561920774421334874899421101742206254219939660083452370108063486870890069716987823771538434740735224965238001104114394388418567358431166435335444916746926537531896369505937850320314824207073529274976305610641948732221651915729603408303707190125142891781938067489686698039205325524717848452828091125128278394288350794854348933604172876015647432182081021154279383016797805505011051034215677272289779434941411886012383571007422023427426228896441480160119280434575797501513454244693842442962152328985445817038947162681557261129787126939087394232825720423875475906794308645290920410407276897851371782579393362297309981032323118278149388555610804277915998974139696194373684832972173739202338089988179859735084721517055370749119625713780898516723368154511643445360496819170281083321398797498960943502859468076721609764150177378107607583858535112064976276735630053347303405516330409871960618439641737079266431361887954495489657440081419580778342357189033313957429422672137928070145051983719156316947400410475654969841629181789087259286926965501665124197613722024010004354427227791961556717604377272137103069414302665935310237414790471075534941759795980201468327531736543265261465603705614661051188500195132499436429667878384589913574017391284491579107272287461384617211490193050729528637461165726472228594798698831170425107824395991739037718184640168894433902964070458966763547589453139943504839205654999452257057395462468702747891792439646321828293455283047692861744087388296275521127255223668453698377042037374930182110344794931711389249368717535287381085107576807869208380174066247186719033038908569487936942333620071544046424056225409537899849011515283063662542284293732992819996170372737975355454388295890768892250181175368698071078283650022837279955137568365532882368248190329054862398446108390237738296762437562404676853544116608040823117352981581221651483525426284096543819133071968828473530718061860903931700318141771339417330176632496450285847933807445364329307259069149125764617967054588762724691466685078299744769142843152274901814963780804867231314846682456474182293234972478343968089322207288271029528057235052004601526218297778100754507843923228305206286561138061639936880328292209639481269865267809500019458055434766071282403347317033032562310605276238237150442514642283603640421281257299946001580636222151664385276796403588307972464985194588829728994358907420339747560777325305795525037737955214279962715928854523014180932818468964698471783219216496653949309147145385641965329650142356663552701636125075931438205636904416048278883418934858544029464352718066790814572497460703156155673312760404971311088672534566299254204028944995532394860067765915091432202097786583965420215106319597386531580862155772292179678550997390349723400122426403388097531779731079207263733631501233727436304484976732494730507911383927491236998791037582182949087312982330012722975701444533236273244792964044629206889777486343625309796481191430779426890513562565980233633380373127925031889083679274770278872909754534985375046062759621908903961649755080199894759236676608605057441298022761625815324157950117613200004611782130049985995199474809807950433706153530973781805992963677884149804407242827563685805601974486054607545058158156227599691587196120957478224432268935862284426898778869659167006722

theorem hPfd1len : Pfd1.length = 1024 := by unfold Pfd1; rw [decodePoly_length]

theorem fdLev1 : fwdCols V3.ops q 0 1024 W 512 1 512 0 0 D0 = Pfd1 := by
  rw [fwdCols_eq_bf,
    @bfCols_eq_bfBlocks _ _ 0 1024 W 512 1 (by norm_num) D0 hD0len ⟨1, rfl⟩,
    wl_fwd 512 (1024 - 1) 0]
  decide!

def Pfd2 : List Int := decodePoly 1024 66838771115914498023575800246053273996636591583413530378974011996709104466376624191213053978719247866527946644482414021308027419553045452939362554728217752072478666702631094941922882176983766786402212244804898330064399924101464220271293680104693315320815785694063661233279787821298091533032840104515212778053570446233648245425749495703304578605909287581226364137764710446243233135051687872470856237089356527753602480691904767854427672887800866257543762386348584030301037646021441767542241514235370443238061176247034821948428199040134438614351334079920130804959705618950966173913768051039708344841232244935859376836273224119354290250817549053891654974620981711063190670026269032680159906164472640112654423564180958118532334345601283590233103171387430611323107606605502930037980956026725851025810903539588074527807884033772022432228292204478437582804434451206925623032901253365274930425069953387240583521226936292182784718411341843585229346873831070243068658103155343465371522813749465835837164046994954842111790970759369291926854818261733366363409884774162003906799254380752869692833731248143287963707910170438637529584675833711117433545023335049248860265954537808484539981648201355084637647761108167815055307893873530534110722571786418479334611688115586200204055351302869137167809103006526738476769341973920041989824566097421682478208839204874618488921977988950790600515830385851159232905131136984018989906449599634394354512735571860909702034666887455726148616817141896699296671870403966653913381143501266443588808107703857451337707788177392384807595675041085646253574426962943481198278836561040137549662272177125726415737309761154870240251190162594783889349432961440378992247350591824116941716599641272848087363939381428895838739452357207799879625483168988163071668035928395600129394635516366882397224274373364888468404485559478463985321049720839879708797104551025771586484724567629612673923883964475362238967088275407216728365007659876529473890850674949197742634789431705451607085479885583986803491426948128590412418155785164939383550576135059532449913343967590058926046155366384194213518782760480530930217293410750692467246986353884307762157754494856593942779755522154284166366619412578076389618668514340622057368963050453821823222417232548993524767743513785090359295553445519600283027920943864097782707683223671691408442358613955866508403911984324026149847137626930813036904210539888099169996528404792573462285616889494359006560820705642840948680395214609009656084627781475673804839174831232230077499519750902316171027563697207031226456361543766115071184476644352776448007744859454184812082748334337126548126356879859778900626063550216876467453888488851018928904276957029743267128320896274645955298046174297246741749000493901758328492065082014206814385643910842081533729519199013043843312218513639382401393676934795559619928667497801066841468793813734117367698240917054065938864328348135463849982670339139533439070150208741122218763950666235762379362808563902677816529724913652875776681588219580246097555250728838034432560883480783630863337590675230301647561052103649123068718441280787007929996862304857130186078537736693138963907845431610158545666470561755929542353045713940027404879822842131789606613027057126943927291616467564032331625587622153719487576543897591758958205277769229667130187337742395597631444183623974567725588422539566456312941052714987029454422930866210091679269265648433250369135417278870855626322631832462145660347428605622855708371413246461793088047115913876309586597140111490513827322110736446333788557453362893364245929569925074641669502674295672033827193078152849661189572336412279392961924917742591241027469080488662796789623727935407446259538678268316488352873874719151058553597194161028257777391738072341355868467344780351153302113438000068564162782629495682688261677080309778526139753787221180389118703884236079532076367035860516069346623264155965330187935678629252410265537735814717359795991361807481178018251260048512327843675610833881947697097313859751468770102631341793522559218264115711897902988464963189905975787647960183351248946509427983949970310217457023390916399944480427631383586215164251203891660131184554946154628699052673016587949791167957154697145458297412428807327015129235266673775853364671076034619663789732130578522068443931641058698636800113854396675143203751419975790394172217177189608580527985256837636010301385316145716372196052204708962116192618034718083228873249500162766497185211318261666573665916484665899993754595859839289718408652019273693756797691697955721419698110744007439574636742831381579094121751675972149810338026932910626038853841805240154661481989366261644854684944305003761578669790674610971253642205121696164611245792547297334729842089440321593197652625105530161882269986578553861205939807027258533938344472126130994970292154060594248606261337471088611010665095564227590256959393592135632941600829083681123741041614424791071508237887644936950652214705908717200245082853492365681361583509290413350478760245969722922897571701533877842695526860429248810380539374434586522043454330151170202511524315087559745111473554499774570787458250928832247849801732047226807058685672110489489531404017024508789609538907271779808765100924957263793577348444095314522562480619777073154

theorem hPfd2len : Pfd2.length = 1024 := by unfold Pfd2; rw [decodePoly_length]

theorem fdLev2 : fwdCols V3.ops q 0 1024 W 256 2 256 0 0 Pfd1 = Pfd2 := by
  rw [fwdCols_eq_bf,
    @bfCols_eq_bfBlocks _ _ 0 1024 W 256 2 (by norm_num) Pfd1 hPfd1len ⟨2, rfl⟩,
    wl_fwd 256 (1024 - 2) 0]
  decide!

def Pfd3 : List Int := decodePoly 1024 66838771115914498023575800246053273996636591583413530378974011996709104466376624191213053978719247866527946644482414021308027419553045452939362554728217752072478666702631094941922882176983766786402212244804898330064399924101464220271293680104693315320815785694063661233279787821298091533032840104515212778053570446233648245425749495703304578605909287581226364137764710446243233135051687872470856237089356527753602480691904767854427672887800866257543762386348584030301037646021441767542241514235370443238061176247034821948428199040134438614351334079920130804959705618950966173913768051039708344841232244935859376836273224119354290250817549053891654974621001159914397064748565873187723367861487911095488048239710637378630351265148637325933514150710668788039361151164828498491156308738810420789964648782601642903824400609336689776457836899157541100565577434076118455791790217406081816247843119723458266842225904669542343011259826589790464057854669601370716899584392502782791574586366688480220068032460547522953359485893040026622464621586516264131351271739802891810367403711169608134075646790938826983644794978623921325142293554115015333135150959122974256135189155884231969745474782595416820570163627590292156257852083484275504271606385934830006900072851877868618846865877817397260230202649886705810507656610821937111606433058581629166584319942991689344212467692636040737344954950638813324587773011283625558633840675142925014334220940326959422326242308555100549511618004314291719760992530166777401310342784913188311528839261089588155379370413412405932846105963982983129327908534544271955050499088961636164280297485734638516730917029532756991010159565003753006899140999349037414828764645241061686385715188161557922220186416718785979651411465584755481280139857119135949970909275546346369198648274497808021328540577985479130335519657815327262656856114077174708560268767038567554304621626176940062222868839281546126250332187901747070754098986739457223022607165091191964605983736070205953852409323755912609080126223580328727322189568104971563439996710495803222403420125986028004631013307827418769371493179593173729986049876781115535391496510301669686951383092549733151351905273493021897297222303388342408210372733803137805746415943679097446525067947519906724490902751495465633524313541794637991413716243651332848936165898979102690455709561294034971371252368460706330547940093127858270284506424464929427066276395777244160072692513690376571869020220929547541797606252366303124475466892154101950290589457904084664831971313254958010495828836681704138207328902485042347421153454121377049797476918427268447609500655203098222649852189990009176681901436774297114634801119153982449621824670405730666619400462033433415203472837073438116903128834858454291907507344856238520805709538294480856047148253075622350756346853351149522752179979029137913359996432921145597920090813446670181100591148103454501944246427705475794121741072768706801471771432916495475350266500155572250104537005325352380928781886151924668394299915372665578359573599007246562571979781782512145732886444446471931334784647136538268203241891481672407099707501172064004902051653057952258374784622112564879942992189248023043791756433336727024263464119104179528875672352588647797529614839947541696738940599322886179442815808772100763276606833143393276265857855454839836675526006774593360801594315872019791938574220256360109968988101108282793309125201449914658597449185701181311240563165819888301922052192377343210313093998895324102753218533449396813424015686620226433295081420654796671498871827982001174115942489237604791721574958073699134712014901409941074456169727444145878532483066408252148079254431244492906663681400574863180022694168542446894577146161318483067223610217184357800812803124964258821723029752539724089845427863736001323865513961282869799813979254509669443166542269411238732063329372343435737135622405308821430918956528939268463976527533318024809989958693829779258603487842421495051431467580947609421468006186248711103578085396660362055424190429181958778094757170593732527992860566831324858447997976617700718329959067343197218795143595631322280892851299085067674437181382298070483601465845944169083281187722866074223609474231637840455949043694653774599812473347336039517826450168137109998538939603717484882658390863850624900972135342038827501869136963763345556711674881895697068553438153967391224470882480687910513036249425226331123627899880751857395216278686842584821319649153598600410763325785785767500079139719277425166955506262065706378753984946630892435278112348797518693642346477648390823171302088171512528095061792476307226425700023009851546738732834288681647186848135151643516450421321604761682130578122387287214105565392707092031018515023058494599545501015494739938453393291335856619562773605352809450420238256310888554492356751855717030440082347346298757580078898949810406519985354889516338622109097980989184563727375348761180582160766384949385046994007370690458818807877537343319406470609889920975339822665246177225598184317273970062281770471939806394963398370930006140768491716902074306063871820707793703766668484568742265668327105713968856229546839529997587387412658662697652302123613325798623001078464497387857843210788008920453954130494095795159854384937951438217218

theorem hPfd3len : Pfd3.length = 1024 := by unfold Pfd3; rw [decodePoly_length]

theorem fdLev3 : fwdCols V3.ops q 0 1024 W 128 4 128 0 0 Pfd2 = Pfd3 := by
  rw [fwdCols_eq_bf,
    @bfCols_eq_bfBlocks _ _ 0 1024 W 128 4 (by norm_num) Pfd2 hPfd2len ⟨4, rfl⟩,
    wl_fwd 128 (1024 - 4) 0]
  decide!

def Pfd4 : List Int := decodePoly 1024 66838771115914498023575800246053273996636591583413530378974011996709104466376624191213053978719247866527946644482414021308027419553045452939362554728217752072478666702631094941922882176983766786402212244804898330064399924101464220271293680104693315320815785694063661233279787821298091533032840104515212778053570446233648245425813991176901615531503668946028250174797061533584757487709200836758934542225439684815172220369248499798897897115439265249620161510836405357708316079680473401862468847571940365718484011309725871181153055872795644560169480261205144544286996524144397385658966226507789637024379790576192696254384914003281104991989878188638107045283958524193044582809346212701622658886099286354160788881765781789367709494557663786186619436042745896398622004583994922160889192789615979174842559784624841709165348765968648167168007664290552528844948230341695484428823932550352065700336895091093129507416576678513670296895866387743744492468294723864587929715080662468472594780842148507062233947626162188283243481496604014946301862212176585911260847248516767421047839287690244508127233599659602202630278278959702562167991126849330358514536710442797878507554901993029962043389848051598594671652850428855293873886820133498254265784333574578668559730633028575376514965123175637847608497882995385607967371842211693388298254435978684055131545079557239813654313259399818721438842468664889974283078750867429806102851243410974703322245245171962277067997035331172336743569674870374728634433821141149341658503770100392708359485214166178976491010067471646649195489593656169400524385404778774976334543151081388595108826076214977577040229229613731849022505327630536448693008260532151160613056827519342200856155154757637521097128386704648613574698011980277853982181534229013336468705065159813097190456485203356267866037989140275708672324054590020135871808625326036197451928101414916693622530070362858643487535872842794749349018506807702387742340532739983230345619616515767469909406957976453656406664990083520458357965153814650119133933441638538581490334898179283638697422365747605968345091948838618420671422453590171951884753040353267997869881394512615412174367799189729939926355084043536402355414555803347984903087080827494795890606775036778588711037148284778820068183736555337822865313333772125688751915963459995198976075540241933098961940485082236833971745432813908499038026903829036364888709251317146887220220142261071660542636937818896987566174540312179538231684869285582592136391246582115985584798109894017688837938585885549127986395547819446071640833144840038153206610936340947997727201406151299064539438000997657724018902604732087377676961408481872530741069711492753697876652364619344750623049974726651156409330853989315180797302715777436351960825381715253170081410935103615278637357052733033606925085021902801676514528096318731918000366932461559162737615034635409136217704963266942308235417288767643883683823224842657707114858172281769570518288168722563976835340630319130852291045660984044286161933526195360076604371614008482998777937567990619010886744151347805978619144006932357916167095564718622439235176502197314817193049212160557084870436712163482286142448292122354787713856926917454045295633298287067592479601106762438318899480471603282404519210476940500134248667221332319527921080052333764067908812148843381938063436264746744326238501934411180678930424713242639646719347857840570050579302112032512965770337550708214666810357885646993663087084384840321287429230097381386341159489293812365454863454101752106681384837877175175005601104130837059033373183462068837567886731617429292005177048425311642300946000161996785503893041832198219044797796915181493141972861941626355930614691718492478401453357999504795823497453013884444032739224034143048932474379842034596050026891522035038798042500392571791306348672355695734307502931003313349171575435547641532650996981688321913465894526786979866949435852718746438905714446857303307529628975846071555192683075584977993602257157072104542052431926523904127555784675751356933812377337695148033319100802826779381751952023077889416785983152557387219133039772775973209534007695811382898428333610611171449304766315285422847268687751128752566874101100641536156998024900653404983516614720635205821892431964025506884230422248117354906325565413800637203864743697213028731934725329159923391405062162595695475183261181772288104757098061480322503808740595773146204249724277753360287834462319380279628032636356992352493815481622172284813339611784421156720021987116994639996935223319360508076955978073986101364806752591527794194270099316927871702682984231904409652768545859221981569037303944363665768242613600100465566267783843279963043215123885685406467444065873141514454909735830134751638350946861401699871619977318481564091820418593043803621429040605713813666853125594651993877474659327904722331178493543195803362919482300945017469121890733908342897554345891609406145722207290286595349782956668353658487563236048997496369545501454425095531693398268895175707844829424154780422037790650180962732147103912234057400482904233081334237373162380562771420769396001232228283178680624972624214467846817535226295932478453362399650584131455518998691332455877846506068303284799328389305753221571612328786090976041945570750930946

theorem hPfd4len : Pfd4.length = 1024 := by unfold Pfd4; rw [decodePoly_length]

theorem fdLev4 : fwdCols V3.ops q 0 1024 W 64 8 64 0 0 Pfd3 = Pfd4 := by
  rw [fwdCols_eq_bf,
    @bfCols_eq_bfBlocks _ _ 0 1024 W 64 8 (by norm_num) Pfd3 hPfd3len ⟨8, rfl⟩,
    wl_fwd 64 (1024 - 8) 0]
  decide!

def Pfd5 : List Int := decodePoly 1024 66838771115914498023575800246053273996636591583413530378974011996709104466376624191213053978719247866527946644482414021308027419553045452939362554728217752072478670416673665838638786810289620595877799718246091850944179135362671332308889608802140009622810540116707543267687167636185867761378953032244955189222727276065059571319034283215456592878598157779697861497877009665420163739623914644925664775647414185427664498688345032835250945264144663210420564574131647153508915026777207800522470034631516999286128542320570982287051254408205715469168759802980975463408667438215790239227763387916336413700844214491516651944522902331511623256333988537369251301035662321260675396764028522789669203098988694535111676885254904200676385441366992416630711521926914680716923587884890898945650488077135532809600804636004201440374431081946108839151501142593253750540990092211196716468279076365481875318208125131827757122421662294591090989095577120993805857585767262821349699386167494414003761684162169160132725126052903073752017700421833301669953269302918377920224592986653531251363227176604752183309149903067857067260015154920666878781780653174182107682491140566439563991597999412184316163292954375007774621899834710205027516492124188322276407202880577080068726917021746033519378541755628570011849435574596226324484923355195128325727686823024448699712451001720233170868640018813916279666711944264319015136806588287547799157290192751477649708172552139860762603787357574545908216450718308208513961729763309109625821429386865124372834882164167997254550678154903045948888125446681207503672743924358057304556844147232105553186224839262675711085829857785749267955064199343715321799420346441766314612904471039467360260322403423575029072299408043730238177106718073774695448840461280737223011681412789180463599928782079138176232203545676154862189157656922752449725761220524598039451360702647196927630971880839021447237156985345350623209727407685567971102321873450620287436642119517553447495710692354695135730569172897209801090275186617522923067198514418190287771129221425424544592169574308284059588683158202066997490336853866744443787515355513269048195399283966436337443304176598163998146342987043340718484099463554164966705744743236048704417682475693809083076336693623739499554636937419503680029758370274749623838182418265989784409223974852668645888645847665799589920362581470863649574571976382595123490706431626761380106323708749640590643940025331303785180413909359866116028083021701782896911186169124454983253269394437992997351958838656507750695075987244215098132897609157625970275272725290096761110890620773506042136285491785515807786248485969381228707717878385278754276853435125161342901969019794307401927825849614306336026133738674068554649664609201631171043763847753372757534775552242410112682245485802467423328952539786174100979962991295622349288162484138575362934381861698889699044778915779117719156615656316545662660375038114386084646108752166094964297983344577415450967322862057414202943886899416487345653754805404027999334529837206332550685015593732408620005127716185366850358220238103911607438771996438321463905576834883818007226954010336577674928624872550583797530132038066908108446529426164121651467928001609343170992102393691114220051053350321271892612020950501234046361336863954670935307755226137774012754413209601790255729711242867757800630405360321957245841480968266728209222710539527986492594790522180346260631464797328957767991925166749779298451115484366146188587694743091028450323499758886237192301190069626974708109097834737838410306113224452337925311775009025418329870104474088174747053199683194613756647741000464479917544924479606543282351672724443797014292878286274204513917656169961821118466002749522922262118592913819333306314009023323756015749389372971362619905753376467428121199698706975192991715689658205600104700780717250631642635446525757511558582973288848179411297443402419393543819806611479433318938414415899605174244011481496702825770198291327103120801716464013658898590683941137695679547617054062005815137055838496941575400806046582990760854183731677991371363149363954527668716145045072019302015725629495549140059519968242058473600181033022373889980275799332932958640646635511486458812321886163303648895950637855539620106685138576501884954889994562634407687246345185933163923441018979723114942855456681905903563348909027543297706024315606381880473422437122457644900412824892351320623786083676392554890542285473771938467723201158350792513038990810372091160592122866146939544793509475305228256190726601430876464389020215041100330403025498068830116904854682712536335941220852552484246451688625065044295790613088701289902290607543425714260194310635169771419389098755468831000531133438448612948981358668024940435517777913244305207464085401023847576952275141858303652341458727883598765385622988923346432383589399539296470989901080277500208204262588164159317666785760347718852821641959511763060178558117198886305878196131660713997641644536084383634645387500810274368110831928910344899618130244910464634039618115370298471682217619202676889426657047024729256313997845069161998835012892729924287525479441195000678476730900887800777995684841136575787185313822834651419011566918147435788629076247182701962093180327954158700242850622805811202

theorem hPfd5len : Pfd5.length = 1024 := by unfold Pfd5; rw [decodePoly_length]

theorem fdLev5 : fwdCols V3.ops q 0 1024 W 32 16 32 0 0 Pfd4 = Pfd5 := by
  rw [fwdCols_eq_bf,
    @bfCols_eq_bfBlocks _ _ 0 1024 W 32 16 (by norm_num) Pfd4 hPfd4len ⟨16, rfl⟩,
    wl_fwd 32 (1024 - 16) 0]
  decide!

def Pfd6 : List Int := decodePoly 1024 66838771115914498023575800246053273996636591583413530378974011996709104466376624219397253068106442834405319147547537271491304234663701092009642549831840220638110855369603662682911046491998611817316450294574733591293177766808605049271623866833988638955311758125583438914324135244227216016224739418187223516440148354440429561553871528872634346148569994303650681398796855374379560037719217440939532239033097352532116728098048033660416856405478307141931466771005167258898719730555462214013470423873029239820418808986757803794579121885651765886014266941758613536261798063413598640982807988255731244043303576003204002424344869278605848608750929335246717285145495412224278248339491071336956835389594705054454720530440502963763042412991685139403876359969345210976708147597438283179828187905277066271397658135274746727031299087765738244725243736303383844782082417912548621144134628349230007147137022906383565910041114034394447129965791655788488182902133876041498164374500741093758589049273065417011089696139819335352454492764585048446264972093599168729978792425262602725340697529505339936470359474294229838747388540082320821687085510172846257124959071738506031120428227922227099069239242566246730572633964973093068287971729796051471612368040459853176530840207077859821498985373206342579849999482886237157195498403754045478243372559994528554117167495151841284092564781698125581339644737447535187627568953826478893512726107768936718744523879519180673387188506363075784485102536733668560816087702745807807267424725989526865420284280278697554103572128867446954357850719410860240353504556380681158670073578101439793301215400436299766126698842276292311445468129080469773330644532753266070596592203062790662562209193382143724764765574268618254250625887076480212205387491345540079517757663566387446881261570050220395918029308815190312017488895652365281215217608677868759712285402354518393072646613698171179329378461838724645354778039187015430504426475668376844988512387937911167737336430057533244328148433119835111321966770748468045546332204392491058883197843743752460100674328551183944255152815162994580814690751482067011563787461412556028980367904426540642912296708303415008550490413290234559776955623945454406237884769194482172357528673012169514571104184287500426237060429313628397404310805740864104363451903314003590522482757827185110788029626641130814356345843541418129237068160933868374261387468659052899759854284911924599237312290179232777130298072550245773676835713416920837596230337013157535423757759418064611610644039874067463486081415349916589434156801408210679494918396701418405244621487066048774926164979122694993304871169823067282807203086324491796781222451478597614868630849258765155154010539042378861055309700311925496993167960805966563550321493008288581555912597669613749563237109165396950597551228644106250702836051535155127574520892319187815986120918652010727856962580529344295981770795961805667042928572948579280618120253928749213269549568501350935957763009614127312149744251777792679275278085634533125751144299235603717443875748418731543823170165790660148506218342198988582310083997693066754340317567050819065976619519368506271320451864161610524967752750895510558835002773714475073556944709189796676816075008303125136866623133579350838827056506540576033394943750851773374991434833039273813496794241588428513966618190102941442976406840084407295744996739778858131299786694507057697442698041203892313060843008873332856011632083572854319911077116518067850350923778616107648171042982917160911132420638422777985914082878888831754553324919529299773187798542131421700964795698096827042565848600926174340719639028462069434981166095996571759403680883322008022789771091838626249535604845747691330882799671473813465236069414816347126110108864976042588317555763097380874817690229225217397121661935430214048219683368324168705718013450254497164355750612583128239681532383821792805242295877177605455164920828872958813897038902910529364624096419745121224980045149262465395209956851340822843980431430379493794002243270555339887072327869933072768401824629254625972572558030929633809793448267377363261566479653485996952112875937397972257146450372806681728733764982939128717408824953759837781566085663887413257632051375755367591617276633687092525673869721243598704102121842220992570212162833808169055042337754647808043461614874082284324181462564923852077184966191199379831607062059184405328538360029909332971967857678327204622459469162273668572204817684579308509745129454385501397056304276627875623774683583912101047727067563431017220891003103162993496287951253964689539648163510737159176235472691138437800360198982304905034854985725732180960073705607541746850174813467917899623924619801644971135990206568500787387107084834195365512475554522053826668687741469809828090688561612936748565693097607039143547808785995301091835826810884502103722753485298126772868873107420898482418145682154129858158219122167514900544066426917711615205650012704483804911145003564699426038996590255911000416794609273279241070248205265424725542650510710819951156434381061143344924498564373184621493945297334049629362763115037779630042380093522737053653137241080245204525471882423952864953967439308991993908033513041404522666354929015987439756819610091180670506381741385863743578114

theorem hPfd6len : Pfd6.length = 1024 := by unfold Pfd6; rw [decodePoly_length]

theorem fdLev6 : fwdCols V3.ops q 0 1024 W 16 32 16 0 0 Pfd5 = Pfd6 := by
  rw [fwdCols_eq_bf,
    @bfCols_eq_bfBlocks _ _ 0 1024 W 16 32 (by norm_num) Pfd5 hPfd5len ⟨32, rfl⟩,
    wl_fwd 16 (1024 - 32) 0]
  decide!

def Pfd7 : List Int := decodePoly 1024 66838771115914498023575800246053273996639046773423362733072469261719697299597314733551072648049080136168386524763376722670183838730947500622224695342814978225591042234539654157366841023667122377152113863847210306488882193856205561448749527591379085931126384177683864991390783115952170086740616880679863695432256555403708171847090959508730797851074365922714672011213156846562115859003253138058045217825133312984599253871665565912788788833394765655101873787901398874076534264658451494816489661395579764932927992845703995513555898837501931851461926054054627759526183850372898628138132406189466919600382071882138645833734589430029370438795659162504113646584394436979675883980873427304365040096989094894965051106531884500979002031784130050944010681597517819669602592944815207537837064620662348910299554821258198284006856657343057321543657735825792999119519937143771972245665320864060214763851051473250959434242539145376433901629435302073758428389910165142014902270003398613528339694129908118687348282474937307728377873961585292330457358913571511742782571809977312498332514238049353897708679990876409126097236014205079681741654350968676751992452167285004225210285916346851991002113071973554649106783721745115380992656902962223375325704087671735204259678860555838723746579144694004439768247076027566160731915491437483011190901129457389006947630964089436377784872897147024386273384098675775136674663711179423535427966415605863598983388515559364547299434523073882260541322754787776191125062982667801917053495077839342389645032843180565251976933751072247845236936689345033139290333442802106380490196378888172660666529586811712408032943622579473431211227082576163200539350545587950537803936867363634358985168814805639306716734313291186705448476420956460820423730519709992468341603211628181343907879658358763269649013089631384011766456271600653360283036759159991316188060873629123698053501435497770313044363555561674980709030542821579184732631342300202651598063824544920206892107362675141468640883133889354637009720297096142514548784231750614091049259628858403868924518039979198381331290908322953947269815497267750357465497683264117775144149899966682066627247201082772043016604338182889857447734300142792499532021932736901995130561489588309126545931609087127683111065803511792373968631886554192667376734889775269055826279228943527994637537876707597343678142069788298801236732476039516937493654749336035470588919439859736526786741379995770857646020279205033213380505726251845771936353178795741033520231963206941531183872409499119594315718863675359411920347528171805347875972958218480375224214459181359045897086788416810907257028876265407557683166726224721368006966885083036981339626405126416734399415170164368562155617846092885162234728458665755579605874678904876031967041076606584854642547442963891378840752985802253256107597076111145310106514860795374250140936966575858233150588292256836869157007175042436437900200732922683332264230747099965039578812865403636350485236852645351960537514429695932977480918902559098310172874465220729806947105922824240450924285525216808612479628112479222007944967606615909597963987417710858405903142608882355622264780125789586203881081900164103299922175769518156535270821580498030350731740944090434006937536244427992622065834474804750705423442663964463774646735781618290036411732255870089864772709018534688447084754107699130099235821244805626733953591430071559256722645367823987418795947949944242914560331017352796786085697934728686115129086923805238774761222700322872955631030218946135547470034212157118911436329496895210941636624012885554484885208698701384825470967255539901210030331941950665631216572286075821432487618834786984712254624182826880442960444312000286947759873071266567846216182001340402927275727747158252942726420988696557696621990409192222333203415949223548550482351896644004294177015776827674904313741699213083270931074288340023155428430045119419517307019923898731830875795545113372038059388727815931325170798915214496933445165037827685803226521085188231145741198010107483736500683993760543713229785500559420539996007598796415326128485754951911268439084391263895988288470036180844866529764363734961072992479272027522962820302801765130811764589186740521659161968875245029761514506125615795828090259117572116935554918118144549868468845746854540324321086690176263753102953571262614424633804848515088715510022057638835210108322364073302448207686111983350783540790228375619696158629014452834886801262511563988857045821556659950754466844568316965697928352180032026945362210188649434926302794667176551015722178595446337714657574046370527647743555582960822579186250155881438913510229411350084469637897107408074718838508212781966911128295615223574259978409401526222196795208514876016830638861711816998376878303309386501912842093737267468687900035975057732164531280573744137778012848967330080710071293105590617539391303955450389552135188799932362562148835901785365905495885899168215641421308276354391019620809882601729421394445157011243190449385696452891346261004059736760885253393302760281141922557383005299446633775672282653953756297329918952650242411533530879552870711883758468080372256175713195677016021362602503723123883324719059522886325605457645773654764659700658734737891165376097344874125134802509275138

theorem hPfd7len : Pfd7.length = 1024 := by unfold Pfd7; rw [decodePoly_length]

theorem fdLev7 : fwdCols V3.ops q 0 1024 W 8 64 8 0 0 Pfd6 = Pfd7 := by
  rw [fwdCols_eq_bf,
    @bfCols_eq_bfBlocks _ _ 0 1024 W 8 64 (by norm_num) Pfd6 hPfd6len ⟨64, rfl⟩,
    wl_fwd 8 (1024 - 64) 0]
  decide!

def Pfd8 : List Int := decodePoly 1024 66838771115914498024300444434272567976293725405704773995876583898051871859201920607712261873937082409618491656861162628923853686434913039829792676978699563405190333022732591893668161281604718104475679894887327034186948404075146757800942364192258648714585475931410936424599439411898054655767641222474473447209299559739613253934980979294447514447938228368337133356353602512761543619730624693087596394014198254445520156572623106834754893904545079491292079775477265946012685041522213645483163240959343057295952173289431155707513875103866615170653847900867076890788441950997214965555469869716896764041116361412230657675986968599592731417842707851744921743516277192106146532814882382950357988883420162384670757225829709043922682961326820100142833045791260657422544679132107970887712209280369753572849998704125701988791138892805824946071103834490863661149574002875075180190083268098382866077542326841563497505721276915341612571300325306538891473186387743406919059382580398696332293444361590805715297742711999699448197273713100488706023766279760401919696833307798980650456165196105347200422622462260174569203638965288480715556253963040090446755171274124512383438837862896375610658653799306708623677808787112930009886579377959860309686990466835753001266108682287204951187329929039849371321027629384858678063839891705793890643736449310133318872061461057502255693628232609531868459721045568801745639560738653273609576889170528875377536963537511605827208476846867708704916913191225414029360113793250108949779543014628392301555350946828606120441157313075378474044854261933397556784310383264057259721797735085228559991192062627006744978318069450576051844922402603787720199013191252934638196684270808265577003245026447152507019349990431889811867622662775238831946481052472832803486666870337260414352000970666916302267004848339761275925813437172664984456033426460197279387195456734802216562019172620426477022756512346010381949558803961316273778449009618067405741819569331353327942486924365617711706071223237863229413608376350238660483862457054264177911493625301184566503388476728957932829343180854436076465015042577793861917207944105100247799106657743866738504663842424454769304100644716975300177614952127658939798199844166430719161003203072849511955846487210144417734590208772536421089696936010829243450394233436531566218774783042074758447823443394123182582167681757306377486049497996589106503531526174334730028784588748873565793315015323800510035174243442898239117789054840080324987115269053825385410576519600402165140722855479942660633563418409082168575393645106437601329391826642780027616412210212594350028412239412727549475740411148333136085388135391551930784255617916619904930580098362386726907242841378669955047917698900737548415103665222521609196440008419881068166468807965663831073548919088728555135578381733340000548734294303793055886192566549342893660983734064015123539858210607238779090617603835305493207742342193222874968685801194289513706018591793676100498966484535779571250916786173921056538307262344587815347594199488378797283620334107261407052912313095501873271826588215041721037765309230353410442449324470026798440953796502533451070700054617237088681231202491710546170491831735476253131727359334660959313661374522070275168937567703508083829709091462269308048829628671960194701451989992703230093614402121286797749964608106596403185858608921377630668094188936996043717043470638117291992833005367771610710899077038448363313306798641800977486751568173772728805358544098084026801017915024175094626803985110169398485736715616479091163807798947093570754547135350441734683217916227663863849395680783274352391889436491440183090265247974533063092759384738070167974892587914502843966520550108646069375089545516678251012589178178903343238179126995015031299399461493285205027634796691735006789324176418722357145475977785916146268781069782922299847231962674115722827180650627931673567411209982088370918681527189544200935700360285938258563136418969823002066896030750876307273165375933076269350400728616653986425213798230600928388331455931401285249426494870565767429926141847355121806605105889627437936959314891438399691908950393599819147414593126923488907309598886307742665292255961422304975814719519036942662249850839667843345392210186517220961334738062416432485861002500869945528408425144791129980797657002339332556387532500329706185011556382781102952087741784031275736651843110745513801277065022953176776499692276891128957068386048340170194085129349136829147540168230591745057162741201420811276703014134904890772708563648534623252828335599265182031436861689150221206832006612229049208435529354416675640161719558980095616750880193914414112820868671130531821609107929727655148511400328973277317662648647345915039697280519090709221346687700395973011182617587392022305568429359128251985759158594334192538970421103037574107409633407576315792408363231524303047940241547126939400769756062838526537468382239122944526622294699835757256081397431586031497112001788807314026725174760393191667550698573056260934614131162111175025462205949708700675798399145140729189562690038794686166473379038009475276649874729849398051183788192168794294770581769534826038723015165734572507508300803406676605637876662915652619499941920598970787093673694224355863883210555761270786

theorem hPfd8len : Pfd8.length = 1024 := by unfold Pfd8; rw [decodePoly_length]

theorem fdLev8 : fwdCols V3.ops q 0 1024 W 4 128 4 0 0 Pfd7 = Pfd8 := by
  rw [fwdCols_eq_bf,
    @bfCols_eq_bfBlocks _ _ 0 1024 W 4 128 (by norm_num) Pfd7 hPfd7len ⟨128, rfl⟩,
    wl_fwd 4 (1024 - 128) 0]
  decide!

def Pfd9 : List Int := decodePoly 1024 66838771128363790382853788909620884215639193892765970534099481651331204460682291487174638507989056789549053397323204022025410410822255881586197876646054690775192720256291247400624754831739267234147691848719351424832858161579681671903057192950568687616413574897131123079564329935706074186564692559926203341382066009609656998405059158106209606312583236861308200134633602980241314438127094789576008978486024996173573208204412713416675950849342786216635258829749882465850256075573264190984409627272429789415652089151726041930632715152735413344874380659705603303370983229319724809564454836490659833064593993253038459853285460977165254001788530968420458300860610799500377335212856497829487459677587238603092015881034842398242885449791898991177383226348279019469539640565467103341688826357745815033333394329544084481524226714715677888438392154930496361032792374182993119382438276360147928196804188388860473799926980282749944939583550890323899414727581035133347738982461344766077786271127868120196589470811402664866372039078985151890624310912086846494120717509075010235766507626784865510557668430038610735465917823193976919463444031056735941355400532561600524543751759569030100303252239659571241237714822616848810659456049432529509861654593886721272508516679377596931884204437487099776092068879772080364583474870739136930712910746208570340076981902049400573864437211858444553585477752033466919482522595725560039188950824179661345617837375942907521016111586660341592893927938193957125417064248768472312346680477851904398038645841203612211159510252348449059932648010290249085352214103057659807681295158393468754835041429972359794780782037465823597896866241636175068246944432389261945011578691568210682712791246694843087692673779252756138061867246409955711742182438870018403243315828448358732236026563744646135025443398912988054644260209963262768155490437346996618276547027605982857385263517465992076933466448420722188838891231694999999321151584337773398379344843473475823843794949400287100259164481202224839910209689091103167716146127568536275719881266795194768556314180981799916786593648759075781716109194805435811419558102644180000922460622405153845491172894298712126394314603301927525274747147799995031095195002386854519576803182135740315423261772114853466158817101961629081261227133040699320648091285808052251319944219107262832332923761295338042745334124344052643110364956772766074742910400366559213937408495821940487887554704254633441291035368551990717686794429060439175740403230115025541443728407126470220747368916515469426851182198288771366057015492541265618985455409947816682851526151963242979651936081522437415236884076391240052483154624574584842890804863929484991411698951045552660300643072254877401923619845531365572988920176846515303410495733641681315576833818615557050067947181269421724629109533508222049359579002735295269532875524918861869274219572746570190457621781406501135257928119714759763475248476607718704560800293975654682232163045264853976983614511279499269302303329614820225551164866512882140606405066116828573325799905785869623787919743021027160740929406493382894170784389567543020711988878953394933069358317461197054619520881649671468896244629044061571403834884890376380270219782549145053503187594860483460764238853044662124760959539706021650821937292782732776459426582711127418528587280623196164196203457089396349961663731764949453273904765082596413275324320573206826586420590389532200419192206927426722088264379849963128836664648844273795605038147302007705772914344621924454516522375771095526359434462304412089040178410763293445828059868568975491926787986887830748302105092013089983099886165816190593584964089748163107585361809678264951662127726467742206151548167178396577405380311082213413199404758516133246345407455261148807619464404143614044693867943074415576852124553840718017050517687106003136735078750733592548204150775641060485379064108097906678599669518314668279944753993161129088703998423543776418040677380215929289140981572070815912789879501000873107689252096152259258751335118352417196516409702136600772863868336258148103303051286271233839955266771852448046452111983780985991179097954079737112429777620966004826343943224299882871044417056117053371229866449646931137153482963595818098107231442978027693312407347708000368455792154355026522077872381237374495520165764070477303984318332444274560014332009162923768629076572416379253072802070827637152651579903994110055037047479911269365414614779258644780868500912614929267088357512658056790036986300192694048736934386849362304456337685264338504876238208177320146506867575661294482846292300055878377807715550256449187667352098233979237162952872136820952826780482323001351568352970569439570404689869627755249905292673700732596289840166253180609119755289610113705938406409602856600965868457983406216124291037998010055390365446746582602176346501233972169903633201361326596315204944678947287254228602106883854257606055327106820473966368652543941546623827757650547135149347272265350001273125690414522285158637092836848902434192255845670176419248977556863267023725959146336158585984507876555690763367785893335531554900372332004711199979163715229677052562743294708637584977419120331918052822678369033221254663615925755903458941082689842032714444519280032484431616688999538690

theorem hPfd9len : Pfd9.length = 1024 := by unfold Pfd9; rw [decodePoly_length]

theorem fdLev9 : fwdCols V3.ops q 0 1024 W 2 256 2 0 0 Pfd8 = Pfd9 := by
  rw [fwdCols_eq_bf,
    @bfCols_eq_bfBlocks _ _ 0 1024 W 2 256 (by norm_num) Pfd8 hPfd8len ⟨256, rfl⟩,
    wl_fwd 2 (1024 - 256) 0]
  decide!

theorem fdLev10 : fwdCols V3.ops q 0 1024 W 1 512 1 0 0 Pfd9 = onesP := by
  rw [fwdCols_eq_bf,
    @bfCols_eq_bfBlocks _ _ 0 1024 W 1 512 (by norm_num) Pfd9 hPfd9len ⟨512, rfl⟩,
    wl_fwd 1 (1024 - 512) 0]
  decide!

def Pbo1 : List Int := decodePoly 1024 3773442760558954753870660495430783772976271373219305479664231618774019285742436078744325433612312562319807653167442371568654026974999020249905965305486143202382160510994831111019665963213893595344490305289793534070835100676845679561149054719657167896395763022918076137587631582198772138497348294697683647737085133071793655222632528423031407396539204899830945671517488433368671213609157321681037196120435227362678720839645264291533163649200428029477150562307145852089305135657438365902097873123158693655976432232706099856309918445695188033565875641630950300090822586258901418104110650837942062723678565957871494052786792167738059473203252932199862774850753464151380593624086928107592600375444086419199996594601666592435696481103216006058907956751224281653434940749220374036683806190500104570889616397021192048307426687054562345481771275974906428243660938481026419354860979989601505300165996842925376833760859098838402423111724590916810883108068040809922045524250571985248680624400763643085884417316027294713017165234318352069785391595019106956115806783341619295138528092331213979518381808733710909588407145769204034456443697809864380451981351200921726901730162061279792030281411981132920618074376415835253326774315456051694357661472586218221827991305188564529368377556383608371010029352905902751690352308121772609344620410222913403854615031663016685383157252338827583668753013717782137114102714477295705785773282841227193266996760538680939510621266859706471817743281658471103959091149426282830367498312896963314410424319051339701020974277099462249022412477703920869658289861207699211441184933516383131868870426598340775191804318242146445851561429845562352349472418993938348936441098824103808609591843244858016854341396334139574665511821408272809386835275835144129568688389741517413654860133565143350676763187190401578463204047101712909576126171224251578950617387199946097742911650687198193189678928744743638824829931555402981601227236063102618999744638188172471806995314267665017031228933415649297142363995008997888808660053270507017047685353061171059463399999452937874396018054957883998789119271588834581533805573730523329661992817312810675104320247377636614205960262504598317012476420004941218317031325591988982059766959133037566267269204565609697208072759974913682485973734064946889600126862704782024615539048404964357829827062822598556899686682794339253572899477562659652250694960513388546231265338626661146535998972986970437457837472441274148286810042772715176470601181995174187969984127318991266361645235896838658281413613912214016743480271283859436953106833854909535525120292929251673159200663876319135364003952018671713012909538969779836330572909582670666865322646059202047127382998579933664687348151584691338466682447670932933644192621915031836288234629563094333240822028145543873561352862301412314754906789956498573794237918789388726127567085199321429713781563445130699684389829338759518033497001021934444173375601062055249297101460822353596224458068240817801127634096763785448558596614236841633993171532879370070093735693901192660357822741573837497084663425528896857778654342401536073803154143939757764134703707545334897767127939824838907316925910907656549441354866836506162069871917151690151091409999190342822659349299791206053082558258707656558506935298633155443136623115936579041696013569029971840078598664555404960386115130127653223153202788109315706012332635476203699027247458614543799903241302755933136194462198157724963149004962755028346603789450847280767664073944302218840247069941885343865728113746713190669045776996015510620091799127662828372691609234449006009598123721833949099802981222089036476717765419998551336665453237805556106778658119004249614536273828499167388087513959373177493250171054043419894191519801096891724814197248333791322924287409712621612898113187195331765870207445376106956522153264400813288951305238903540020215694501939615108831100199344954158952249859970937258044513876041040850201360131901021634569241802107233729474015551313667548414902155720959090282709474751060845395294880234950787897232491442392241273976123503746742288130957365262674078530627657833932163874545204980098440642023159766313741162934112773992245446160195327628235040769580095842502776036245392822607969464194970534447680051799305194990872930942471801634969383066912714988483025735194365456085640176851238326581163066163861091553648960184569863665801621171620211740139927138109310438328320371179705200234102107212765683613252532826600321614024354747962104123066961546983501825029590878757648550119507324546098936070728792110447244316262744418932508858518311635811564820583665135812905300009976097205453303843260097346028549193943410416126179806657904559293758120084291689600671324629883664585135678030046266028234245677407382721659454682359273464177907250643222793728539821173902766322274028052113873678888876100951729411037154423128099429878405817137400624533740730434444517026594032847085847493753519299715031926867846886864224478601470666096767615857301437857213559827866991059091658951230870095073321187738951247877975853257516194375842189374834656768925602383764732535063988545869061657463149107223284427038062661052376608562654021829256684255344165610188289018918417861093584726555220992308764750201107952043368423425

theorem hPbo1len : Pbo1.length = 1024 := by unfold Pbo1; rw [decodePoly_length]

theorem boLev1 : bwdCols V3.ops q 0 1024 W_rev 1 512 1 0 0 onesP = Pbo1 := by
  rw [bwdCols_eq_bf,
    @bfCols_eq_bfBlocks _ _ 0 1024 W_rev 1 512 (by norm_num) onesP honesPlen ⟨512, rfl⟩,
    wl_bwd 1 (1024 - 512) 0]
  decide!

def Pbo2 : List Int := decodePoly 1024 2513410557160205192770005754588716367428749071651669817178587911320630575474885720704267378939911476639649554229040348261488340254078304790079782865414929923328630497703168926227383081363939707802560884930200800694074476434242554955761319767131864935280528830460506724150799554956597202427918480052874990405533522749880616570441178493971332034539749719338323290133762295900900603690367682715406712490442779773535802351623779740782660849770292426327269514530961296476624879489446258203806552554267388188256501950912459912158387276829150689882647704008798720671028310336411706390578858795701108083588567141413271255877314715677921420881907575579666677421208075150023305777545626063742672915731473703187382230008077678461528557477250041313007953174458644948850546753916240367817130974377534755566525878822920413405598580155485612925912242970992664392618533138196719884779068886965263159252594445154960251437950719182893943168426253996782238982340195932792287199270870632542670413732901340514461213659475340417162911128186933925550571818314692615534453252083968892715226799617260295496960123056934567323258498427533774550578141409209078061056648935901258824503217419397050346014909845821523675189981604942405867919667622635690870861804418961718073683684719036276079363247483627004266302051252194807823812421842481899759794282371508572369020206264038551994581124668388471607212736236830977692483675938710777829848405405711995881864521809623108905352469013955295773288073908751578152196978555684085329166282354348539495902126715573615736988415497428606642466784867284929037888074942127610506190710295425429220769231633055650374939087806051120555769759136326399871649887928154636835713073286050356246960041364078235153595254181614604892612048360415732385483526527683759636751340666670383416062944327809528083937508031817120872068601754206822450904173031646938042210180240201411934545731508946757919961084707938676852050594787853672464236248764936785079967515219068246389112160895551834561199221786390396339716278940413937264561689771293376018357355071352930480920025136536376534342973224427309946592962797430777768085641913183502514895451614253057313667588555120579100550906014064595874005473881942914896624746273636542779164276342827470234125160170200594695862346139774099938372841728789563019460730578508559303657578791210801632577331875950604468898983186475363821773469990044959254635658980911583083874265547474486815324241386178144246114400496930961601943939069830165003404204147547069938793675701286249261613587011356925773861195944807900502838158039717064817940333812391498600994588441064698969163726444408773278145373014546837623613070840909970212785186365414345474426038439222406514492709971797860222533662795984878529955689706851568302944751542210503342724725505366407219168821645991000439043480200057038624802554323921841638908529440676018720223103655661200642509844341880156316868693778174936431102327486851286573850075550340140658698385807038432849212799269101114931496600901073062963804307807611998058008879522427108642145587146588269858568123730377514639196238397258562369564434161440620169174828804392795614311590652552161910524746239452059856054427214565035667331203311426899396240321183099727157919050108997399081512152241031157791396242100366244712943001111426092926019877905588342849309818947815015449010856384643470879367375061068282310617890238455773078471119928669801371821305615037909030248384727335465443435345882775398411012019039315323398883206019937894413658188246985283794263081534707316145234303784501977226307907820974829532019190020873524993764239727510747855706908973938495367693321871594241959849380775160153908822855846529750092746270696820181051507813836691925350726198588850796130262057063560005689871979732473546139548374338317513225640660663605331028061880124729638246138149134842132336449308489507459687288760060581964742247975740682317424188628679297264418851291067614221914037917778695638204370413198257542012641970928905804503928355426311060325662733417490426382477851731851228589276917563839425282727655856198692336754587956966768361815345478626558939680786593884077123952920766589658566782809567577229803162844960550025133551380674065808809251075462643625454346261778161832923974290583768304173299229678145351661168405969374789862684096857944696328057415238841607323871777773975388348399162476254868080729349010283877371425317383403255698318753119953072181763079565805488171134141733891474319053029478363339098904887317404872018895396345019199763066724777737535995747133507541733961720481133911979989073461830688199857762616108261677354664661201011998889229330790397175020671875609716847611075799510421470384584359699277172065632922754602929139621390514286950895345598038683423445247681440458168797170484669460318460787796173674113831616887192799373311475705532431227734885226540821839192280491951180568177882597913136079345743233227521952357721045136224516642053657632130230706066075266888675698135978044344375822186188372778761478805845514694870193653791611095954486285247898673594330040112629113665642623342838611937114780255754351117634836634643507256302675596703982380984512068261154944139541698521114233712983041808012425128395332206269107772074391027396751668611118876065188664516741758737096705

theorem hPbo2len : Pbo2.length = 1024 := by unfold Pbo2; rw [decodePoly_length]

theorem boLev2 : bwdCols V3.ops q 0 1024 W_rev 2 256 2 0 0 Pbo1 = Pbo2 := by
  rw [bwdCols_eq_bf,
    @bfCols_eq_bfBlocks _ _ 0 1024 W_rev 2 256 (by norm_num) Pbo1 hPbo1len ⟨256, rfl⟩,
    wl_bwd 2 (1024 - 256) 0]
  decide!

def Pbo3 : List Int := decodePoly 1024 9164438427904464901876020991111085094731536718289416770756884187999650772520787155615495506519406977585150325167830036559141109431253425113315620431190192964308576982161209143732363505935565273175115813289478137378815222653847542921727696750402669698653473765961238660183661359768598400456431076539995141578677856516580441683297088034203476710458744047592444195655011982907228425021650863479923920839959574649027539733052611751288576947885791882180951644155842313028793691201263565724683592924422646974459869130544881747456233180045091353910605212636167330811627791417124951632368734902095531144273275123501456609778987490764828825684081101705261065175045482751998972139064919355085703630781733219997257424423402406546528731421306690872527758887003586778920298076211720786625737803840172540123574689943548553645329397353364435599560691417958115074262014363252183079210010316136547127176001364931366809370257476284277257667159534007853152230467190108007169940475511539547527264055820652500106150032963667126999984236430312906816973862876194406124699568493474560079082043694257787989898215498746429191709229479059312910445163665393392092869198789185344710148042812518037936977165327502339054760961723750946783559044838660746480335687198443007196546848879825304480980161972882559776195894728453228476972662510218988257039629975076447012351604293186284075571914631277778671310641227745119468722308015968193479918845148078976667497933023276075391166681681510541043638329551652172329397966905674242150652943149654592723050678397610729665382626971815754390963640473553088376233157967447925277203337101725687494073512702930884525899304915757145839471405282049116688302316215421265960339554824664229113952279173974998109440666598190727533834228509528495480409688390321363301719585569344938171175078860198832667901244408856737142222003532636980551677823780832220150585784921029019768726762375570262268065768564354082678819208994109708053020681937225370008484979011351747332993421643459948884981934651536313371028033246990616169442221232919096998774661786121134352354105528802221580536191962719017794364319130405133362759515425057783938840512476286319375048853953123466206793273494029669180385211506847589011897966936488208545513472292482426897377998619443209996188763910128443664768696273275481536778664944907570142947115019564592243587254505603942324025610235713152297701986929614376569273616006996059895009448946771757239362493118722879720421599138892331527548944868836237346597691737173969087996188297761132653801780897331694950347573406792708072630994393626892947036034712988739990631472408956653089794112548213299355764737383735767389614711343928935833958079107600936446012502707735788714059235888716108024469293142740241317980267749828328489428421919152961596941699738395583515395140537121144764325484812755267901143364500213508713245973299038454493041164461285999263759625501932987456012167720870680993466603926689053682394041599683700655197084828874996807237481355324660273922019094935399705158418748722382375708275353381363335879251469480373054685104794641791496726453464927004062624463021103164023969816529019325848376160720202826675096083451036669889027394710520413536495017372033619174089521665423721088177256170650154876348331170170893529474087229033214033817065263084777587140676960279727584607862684297782872320370598868088528932142567635683929811779340826125093792891046410689021475665207039589868325334718138201397108093302867714088176987022170366506638425677288074811872908150856218157772006533012306653059431272702649057949870078995553390136067775419932337741625219466693114727377215988247937172037299494948817945182587347924036361046350895512950648587970750890758249268983885275737699871844017998318751242335073008228024069492827555596777989909163054851907736000487238140163734247647317787311233459705237701925431316705899826110464967020181822072213959265820644907762782664281023152692465091035533315887362872887768530192297224494589396423897138346439671961301182692394698756621796298940957037442964153648876025235770814839260691504781354424559266160297658603831610540754475968791367216142071170314609162846813688605401654651758853330843270618279142774040504644442672792311422856230331727861589171287536779805430884016404970070907082210047708595282185928746618298114158480630398571018156685663475831254669225328682542263861807635499846877022162164545784567482308573135726589463674118563779065527997493493738731836081538291995985914122141169829001492208817165807968236143428850104135296269497818342085205235539381331693386424885963319841727609673071954482951027595260199970917807704565925168893652079974375487126802063219869683463772821453199136956293741686463498259337105229998676688929028234172747895011249137805260340847918612134486013464439601279740501271586615113244699899814873264445588204070679735756209785312093029243199321442881661818861424018233873355026203445648390273223428123593700231025875443236614102113599045034982198417778320503862751092901654083051640274125624032499278075225226521820726526126093371766215828016705304703544851447289489014854403451516055434634445401762564274100884579953513171300300171455595868178824911220787821099429750683212743521447400591329174968874887542957265114426080984364602283282833409

theorem hPbo3len : Pbo3.length = 1024 := by unfold Pbo3; rw [decodePoly_length]

theorem boLev3 : bwdCols V3.ops q 0 1024 W_rev 4 128 4 0 0 Pbo2 = Pbo3 := by
  rw [bwdCols_eq_bf,
    @bfCols_eq_bfBlocks _ _ 0 1024 W_rev 4 128 (by norm_num) Pbo2 hPbo2len ⟨128, rfl⟩,
    wl_bwd 4 (1024 - 128) 0]
  decide!

def Pbo4 : List Int := decodePoly 1024 16528542640270831892584345265182721765974607870862359087712693368523401126982643449491194273582017175308916703785428858378090531742916797961749835159375375112446695453789107643926717923571361673193178147891434982447856501670541941551123809768075120713108999242154031535510419707703834194267250608082191723380406318774522357390492449568117892165300744210753858465897752352126338926818533886530698972835930960008641866286750676049484772385080890514761379007240556573330704957267402156423947819505837620682904243444396217024420706839510693809196461860484653360091222462215385310740134339189790053162869432019618678163069588428930615066850245851203468097301528038434359182728568597181998635906719146790305444077309553726994795801291505883477905188583697220748492464237324985128309228904909517740013964769662572066621994665831543472137789308748026990397249122781187906309413112043996494681064973060451298040340503438656606818286999691268193217224559636908827090818019413759716081849905922534935417643164347991074976646596679482497426678254190522671402401226575837848462627682785231852726817246609273753813454605167724087214268528595792738602641371091374753709462965420871199524027825523812935758709759241069002119404580578882701934534339614399564287499773987855705096705865507849706983674209447421818817996870887041617858269140044342425800896248388688817740127377621158077470903529389348196880085360716330261326137541622284384598866684797957359828718854318230242530727640474225602543995774087458665706588352766550469441455719709374154751669211428906549199459683812895438965034975570129926777052490099196553107995233076592980253699546309061813987092633980154110270835259626912743237944043581169528858232734506618621454751008684019103597606039897405768239142772810263978874701955108245683505927809476475053292599603473037426760292089177234857975964753703082760901873071040140444769526849916357396235019862684866227596523605645266637459966747379093609902962264109428253694420378514488779583148564516442389355768238417101387491279910345897418196264813618933838945877959672369089632728592780154691143161939605721874120737772432068714748855435950559234058889664448156222310820682324428539137895721583476671352577710334525789132360191873962176859215149971572220673699098216215401323391936784364563315089831142416198817614911628304882160873592288831885487624490893713294502593183079916720240744066656150147509036221072484325883211313536698300268381977470418670577735723363211996164599249683744434749904535425661013120476483339584320685684124431261655570886192627816949324573174622180310598216091465111150032552755307764037597751664540934991227308996006473491061141384389456370116530471010160768597643052326712089808955645417806416680641320940016890216587269342502576075027133440892012597238216929542964771098631992336801556816602848003742929137551114934798239436963305376841816252635769826180741612068633941996137161550734635242906899336494413496294524650191923029769638474844910471564924773913898470130443529723011913171183135369629806174358986557397217101232104266591082896435635892159068638926618012221276927653004258070888369763953085955270498774191598417054030393689961954985723298904920947307406212514148638614038043112635520922445167682188760885062037931101217925797739866334686707297459423799429750098487867266450290680829112812801627206412899026551250427183354770132486442897361234510732989794535733175970642924923531148557425071428526238792571283883596076552340861012183764141055689898645887923762266211511224694642242589107206458240726563378811290064303246161978805063166575698572406709331361136165927778177687526225360082864829810141767769412565406138087110628074279156407497662746394565173251951339032570070035686016495937222859250930673071796877079663637921416588723528430457692187169451995348554419275231479752144121816213280659055590694875878724271414666968801440285006175004806658782711034364090688124329971824727702320410647724651674648383628205228828274657887843798638805027047324135853512097914551090833053008552499535796930805443118552243189237484275076867204993103616900384759491419815091819907053997343599870062524655145940056227440290310984319719762692523190263211438756550016703243289665793563748109607478323682856073254262202896890681754555351427894806257265625701827176318078295486649758831512660982764377923637510841527989292709171308907332277813221849647722105294409412058204933012972424709657566001161224457754988389583614817473367412408045560719044184664026505912262055126318543413987638675321989268216898119131285580490530323163835224331628823200843707877443288778466595039162722522204704646994350817149778967095383700366051587197227741165782924200983299365316420477545218800104309390462685369535822340835021469274370549036233964456292762307997618474559030054025815705230324672831666796936717673098007936152114002170178336516170095636294310923161390292804485419815751962562382827359928765833567318974900848705491221708373246744040161750185116789012235672767230510351678675891350261799337614243630935557204273214278370777653800510273691158968807211216241836486520116796255768301041059665775208065272673358965376981204843276870269958905999100761646020869648242461790014011732873837232122247985787043843812408866440170479617

theorem hPbo4len : Pbo4.length = 1024 := by unfold Pbo4; rw [decodePoly_length]

theorem boLev4 : bwdCols V3.ops q 0 1024 W_rev 8 64 8 0 0 Pbo3 = Pbo4 := by
  rw [bwdCols_eq_bf,
    @bfCols_eq_bfBlocks _ _ 0 1024 W_rev 8 64 (by norm_num) Pbo3 hPbo3len ⟨64, rfl⟩,
    wl_bwd 8 (1024 - 64) 0]
  decide!

def Pbo5 : List Int := decodePoly 1024 67979366914152139229814177487949850918268376653799484604200347608191269223994354373366783025156896688715664149506956083279395548405412474868085787494417211039662660662969241099509528410486272321704012231783895684769659804910975334552819187146001846022930853318539871514225336020175514111814691709203739455234115624412602149211141806830735844304885370585588449386170380892478840105525398645518698757415889906579062163440809196471736337423900021954287915969198102116314461433306963086553214816198346479680071728470835583809997745689541659271319346467533770380027937159639629030839763345528333440021477449806748163620070452430048703551615013739832452183979262696262106033567378826509685811209567788618337710470590958745965549758516666040924108900202534188729105009129097766396211381811597894641602926007638697557319731624606050934599063731831538198761809938090464594249153163314160098828188431170173702368674168902252901065342784839274190119733710285912870658638214084452509314986593649615783882821870197625581664155702603531008981667731354361765099373027386141939502639524935498814498073439196871511828472566060449440931984512661094465392951754068676806710278713171142067616779418700414115160084209673461414710935044918051078562892172395575296946159971280116299705675162199712077123746033884846558355550710915624770011383823112184908311897904344465769727822428008009716488902014928558973491859154581942128481887584335140266804176704390328508166468788449619488311653996209462430330565664253842899458733854480702272126311131498213972718923389755871407691216583823763326221975517529064155943703888732763857622856681252778817478799646706663966827066708886691409297584586435371974807801114980897125911968570111919649365359836271939738836842675350308270919269525504107036802462647226344233442032281250228437131701025095022856367593761040884334456001788660422548261297238020877072033163473592371641098023181614880885093581614541034301925191559782329574932810611637782719354568131043956882565233820672365313724010797261459393481413601780672575214626932275294016549417550508480767677932911502117420351774912709905792385260846186429176258124029723695362014671000093210000638424923469786692347158017054680922664772445800286342641014802193886670269677696466608020664406582490749145435534732994468302704672705979689798359763315823440136185999086028262544554799915606816265118154220686622772225736425300817552410352462133848487348134964566924336655076431683464050675253864797657664674152409657112143012991196476466275765166757755097458984149310645101832318947915617713840212913991168797938145858718679762632903666054348408099751847451447242195637856150831596767623383886740901868733865701085918636685636519920765429591110089400978645266618116018696039772230356454456248161303845427115319348883956016166933674217152030402869952780123349325992770218438147481974907930877509727155461597417154614137051414057153978051513986093751200753687790289839681539912017028532405610672203643940132466082496152544302275027243138696069639882864818845134225417294153508329096979087748927453966994326152246630906980209778134592752322755312537113867831596109591605351106768226480129853620891821384554248654177979473105378668585075172979947641999134062794358746557676549023932384981921025513573906327898967801376837346255191906188166675677898431249389847067028332380973421487276777285699824052749421418566039417666743658980390373608838116336979394269439541498094828060143144311682362708669199983383659456458435065524763207173012613965952321705631630592649731941807765325928168348580161730242385160566319099056905848641442025481825907187157210670978101497192523451157151592383897074912174954660670038079224277009607111962954966343275071487226236892691377156968847336319065143492615497778751699851045120129969934381500422544357104119666486841161229904099208972095180428666897398857231680774178067355961660841772242994835850687844148322389745576595242165465781503723917259563493420323720193384828983313836505120571317702307087899252514227279621076480121128717572217974282516702722344241854616787685057979822527963973554625924145310278051143561417917727803752071760797278853186195771729164709868923568107310802612051689037530974801556626976343883736996626501383959812314503133211739884389203727262452290022052625822352299078379265076947026933789924751436410760853226092377153262762725547749262581348891053343896405255945516046598536837271338059486765049672494349951173560927335256325159217603898568629774051141081990913867408460057180750937875082397731841505088774859507734309481829554973129059096811380602455265645763374989394962414104881946537419088330382373093242640217588996375483438435384880685017682868225909630521395078975963605182076417337315983782499925547462687285128616872527192693515620229433737551011761714031459980447169738035028146019470361371625703525333255441965129391543237167288980748281965010688725043372983308491537441575282941619984094891063873067704340390633787582691750427150663121482403318611531897094059841832730089393550947735062850748353661531193136033398191336203008300357083458452518921374614860282850580148709940324497351864779081930894292420717451557870429646563750158215696415811215666266574769726124393399152180233602234391920771658377711633342465

theorem hPbo5len : Pbo5.length = 1024 := by unfold Pbo5; rw [decodePoly_length]

theorem boLev5 : bwdCols V3.ops q 0 1024 W_rev 16 32 16 0 0 Pbo4 = Pbo5 := by
  rw [bwdCols_eq_bf,
    @bfCols_eq_bfBlocks _ _ 0 1024 W_rev 16 32 (by norm_num) Pbo4 hPbo4len ⟨32, rfl⟩,
    wl_bwd 16 (1024 - 32) 0]
  decide!

def Pbo6 : List Int := decodePoly 1024 2971933333578699501198921210533877461795650052555158681290653315271152186062405243899366597172932449713640735026632290308786417063391091659006784771010958178290154393842899189418473379831759161318664926651340615516253169970194371706332239776034757720349959680894156786344417806127792604912780394562441587189724808357129965609881050462150243023632708996393842914625872319085692849735358877662630888988100706933770389633771366363346696264642995698239851337805523246767970029766509583748231012051994335162708021840017864634221500149217920808398739818818212583773566186979748374347770786767734777642972409235980758018367194987122537261234793846018505740760066073777207836945081836963027952553801928543057923664136342115645048132963718151238199105621925774181746338214237382307915724632178464334856508072121376808924335777385033070096913816889140077138875663498532798497557505821528707565634683644408134446107418363606282069276898546046684640146124292116593419437117901335164948160641825028679868725892837204439179432062779930996792265631513380323556035439683332275099213384653730891642900977121746096620532001294221332273168807547132979846572912647918205731725235799398411199362182500941793080599385400573661331044729882258245218040605722896379444934151904749265801911586463920878574243236904767973122679472327159879724073976970214408252338400827426215516568088194960139620750673042697959039575794062517661048928390907152722899971154582814286005403180340908215192776047379594527071510287066921271949438091302643781733926226924343747048598084705556533306023419655152437903675085681351137457415329075924165565885407196187743742728053060648648348212713513432084661274333159901290514589362484379957514946118170113395442236840842317734394436421760365250264403237050019252654542056503724969841210983799647231702082517249775343238349062366964711947024555774860556034776643897030689946863100886511117010456257002933647396257267544096245810455601163477080463370335428645412987681034874532986173425772430137158148457872446561502903842922752237606777472398917795956136683845795018369199254067249932908020142643968979230256852432105136795156381723800556756408179666819084130868005357497827478655347460877118177877996576584905178008588979231158149846054467867946441669761096819794249696637061083896740324790353050204358111154218422301136268411262156168279478927711524410267388023283914440423347601981858748407861106072549610740047222378588481163842953028439778366578895667071067341001411209004387901551854656716833443603834336583231626439290263733003795736982580631316335494180117116024169895828741187428910302688262535059010612206586902619013781038499102246605601167945235584669139199961033996221601109099514376242153291018657884488807640009289900001479396496590710374672647204510772127565658537578452369620742176084017981705530008489555543866507801747871131993231310176324250319641416504857469545169135289158333793319419842765993007927930208370322860641926326453901531055833964422907531393474057569766698430543428602383667051850093825847282602659600540431745168864707989554162073940431664458640569113852125325153613611012348097473580971110269720658732280968194330781727827435423285620532249787391858478816249824549062278975414181477957144722236336851846777334114351333139718982228800186212413467299706696459116370158889410572709608652869700847126644679287551077347823158997953773920221317264930026789082532979308704878659218297221641411377727011228907761927905692714716489419993522341184207757314874338091927459901888838640341294193706393869537542742105132882579604873434904944095950553675060243870067959785458092668184067462731519895049073060783382867169734279120914361875409271861508020554063570322810419855217542488813209564842092689752092998728306010907324057624961302823519294420051638179522506200259314514806189012588076199502783250565665923830729963478772634750058393657314817369328293879751512405331579515608637409961788188538582283808771731481897034138089721319627751677121177763988046592783090456510503518138948124259849732262927342025162676049093716736460668719743514525799136168834288535982848436563903270736829589595428873782390878312728826233905462833798734848954717319101714855374243573326488301094915244711787253344228743769333193080997156472624542094355544105998181765438269457065280749730354615357499879733430017136730922412020542659488017021668718808672247351857627083310285163209047576427393927348694733425539902035231917517246273399311034757480121268363685786653255393647275617194196116386886896651117979000312906262054901483022665841629253991714872286119594960484423657840116670404025009423231933885940401095265017914382010178580501861156731592157984634162138608531263320954096113169619870736644443128332581598610162268046901550202851987666372392226701371726382352522721081658316614913138769707776695897483056777505991234345822656710578032017731657427273957439789071700817551136464973688795130330297689731929200065148924333441614697727634487203524807689960159740553789192501825907351454571445610816133002796667742771653274072211856084668543953207719061329315034072525858667452851818153914648669406627993066802699877460767926699047811968791347013018230207236424652623712317733312968430268261785020849892999130124820615610231160086529

theorem hPbo6len : Pbo6.length = 1024 := by unfold Pbo6; rw [decodePoly_length]

theorem boLev6 : bwdCols V3.ops q 0 1024 W_rev 32 16 32 0 0 Pbo5 = Pbo6 := by
  rw [bwdCols_eq_bf,
    @bfCols_eq_bfBlocks _ _ 0 1024 W_rev 32 16 (by norm_num) Pbo5 hPbo5len ⟨16, rfl⟩,
    wl_bwd 32 (1024 - 16) 0]
  decide!

def Pbo7 : List Int := decodePoly 1024 13803514048054793796476644435211310620783294090721863019591564575864684441946302798852196872487170741605934184698442126193737780844638894903808612081566500202866083255913274996418131975264686939459552979186058835845472293220152980438755275431142887363969373726983948286058088794613244476190892605500678221826412997126449628943146718634960163629867628924438940711880844808062176122534317882135695302648609514836272101465743208385489477223848705527652794189210399766507036207699582643434270899648654968426413900848119030886491898743984945178763063862492283101210406923155694723366330002972616761785962723381850199656360531884536074157996044153442244497439638958444900373374761598550283172383684622661121427783130700361800005496528183700155374336218153940864197126937691529579726825144579563278208268732794513188478546239896967665363797273480058441427631884589494273610885810024183173346446090150365895501301050322490392363378769430178092699836219410524646113850612465368210759251874177879998634456424313845771277922270713093189904467119889607240121652019684797082068005895560819053639260052527391821903633664305628597136356104664387764980688928312576396688374325112407852144483272844506164609287928922490658408786849062702294983206226031943454283837644254611798643228784521288297610394171607487512417460634502203271919641471280042728461961291087693076356779718091769124331392455570999378175912170578695330616954805572183721846181643462061719306390257235874131283307079744289525956241707309698946565408348773011986511269188046687004740621277890949100025399644614098082337799479744578689124047371247830405274850532125415283193215875476609865733021904367622681701705718012547587281945448311313364264982134963709605644248602105301782544223437441456768391485992901732578484040914682166435366742457047056976512598741067875914152696832469839387946191663738712764986530773257853622287419202602708119973263733484122794438919291023007452440980955075878894093446111225650798318693451767533995880711120292827239617339670163320465033248884018541750004843803437877037579356407154623367802321704425785655475036683166513174698151373143376567951942547247996971114320663910621046306197915959688097792728875955515455660455289245604116990628952132897235681949732318621471571317116321418485928231270829459420334571832914482347041817286218569116132982514546343957498180980083007544239198329481545092875256155839749638090218502271947747947048831691081896567494229859909983902544055209920728971173043652033485061785833638953045543444978562308656871703019258911527921629953389218675119189627730148253330032447274559504501860639602491575223829923527238154816636156589770427735368343366785952838808297595849515195053274202094700787065806332437317785770212262153309051957557312455013689680686524375400065581540916839839394049566381516767356265709591022238780433822815214633654567809597550983511347384251984756471556320607714825688347634824172783762454391276449835388517406125658480715960793724888021312056588586570315264522856696420929345673234122124213936873208218995593474073448333954644624604951973232164766679713318461231354979384331110928457961132660841066557846984750149363595289456112240163735091103303671309675752006098724559174014530461225966786487125976651211827304074531523172412361305408180981438746447451466297055822422655359968569495684390588794806189679143306456431273659258516049148174510069255114696235365140013127472033629804936873871822097472696455195641366653721059523628194129212470243100932059470443119993777733191386061958991794230491660361321265856802101669338432034522345323516205864409952034273241719181553869959912770471309831471576327108440294822751175862419508457795858816440950379718157044542964834084080403856428952431468287890299737299441736064510694797935980467196993854990179482648662925801909110577220654086843866266877800852051099724191863580627873147430170468265478335058527921185531257326768154243091976065609602388607873624617775840371688690111981848413486290560989995931866713890403307261209214348936156976866186973139697845047067146628652563143977901614507345584914074655310002131935904242278198921496985128304244402723607368883259105523761935787761011534316910535005853947273207802199223705310671345101193876226334032338924464207592517685765633951851060525992141535009021709478681824913767848211929071231407754657197271312018805729256929113799528646837248173288258367807898898724756133621288386449841984852507383189639892758581500455034857312155765688138328280363872806170316725347036445118562875659888510561164427452121921470743842485038622980023678153655304258865824310799438665887687384899854637148993013718957347677543639203005630491554140090779470927339870821583763288489050819486641769560425915042590027626535500758768198717796363122298200284140247160817839066709955701736177358753871170851423326142646738316110534834424107948260629351993485347092141269013845246241807224026777991769152702520344343369555007798210758453388949853375989193014187983709617827213169570034166271101308024185104113682722493583086258173614858553228212989995367256338851809820163100474999633367268082516422545830289260535339380638830760848427865880610358573232451044085920248257943504580427531823687286956753896958992250736402782852638514354102273

theorem hPbo7len : Pbo7.length = 1024 := by unfold Pbo7; rw [decodePoly_length]

theorem boLev7 : bwdCols V3.ops q 0 1024 W_rev 64 8 64 0 0 Pbo6 = Pbo7 := by
  rw [bwdCols_eq_bf,
    @bfCols_eq_bfBlocks _ _ 0 1024 W_rev 64 8 (by norm_num) Pbo6 hPbo6len ⟨8, rfl⟩,
    wl_bwd 64 (1024 - 8) 0]
  decide!

def Pbo8 : List Int := decodePoly 1024 65100953480805642592846120765344533662805309700474722527197511379778617612056109804742052242220380481505683144763475175316142415595895511378528014666527199942105018227848244539866767319586292697754805185264193176432545135323794258784185488494535858291599447825762885281832444512599094342064309713812695492074374833368681179961004528194993748152059814356850641118666555862134132621832467676357407536059285015092544112343536359647107301614825038703017479227207731655212241529288381744219458224882897323734192572075900236848103229740757246520833208786672001823958292351443717082517346882040806618356813631504986742372610637464573014267443735386412700301072599021220053523429080489066627461475840760204761109147000608243713605329430734226024406582796412033517722113465475402737407647097552318242761530649528528679309092390387029611454139352298694423345340729052285839039319073378990054994249101199757782986605459747098838439975531359255648979645968368959491795760079537904679258764206060002217847319616210131486211100642311046017084785373463412279757417406370531004842613970694951534095424570931117711711240258388058654019837065662701490065451853763956261408248784091116207519854357339063566755873492567366184290986233281551495745595985180632218938630188974832318233378323043573639418664349881137620120499103120191654087642024382101417084090778560124602175590307566348919953427778509061333299816445079667694837108889863394910937340940514065839986032108332123302410564420433791895987817359684512515822055384315406363246815296757795776310993624871383555010115555837002686645273700549987338367030712016220032496204150401816090126160519367085535150079482353558536324273303586660107746608266158668520124136430570376022288013150193422483235484429892898533461940512996604196162265271798213488791216808731616269424079466767756023960261589892797496169342736275630398382051272193264516485186702147454281463713749024113594534223953378212589213729791463352702237960516155542954857630645150964187623032638639302679355877031986992108583164821342305970058576725852405292504078995068347811313888432549695332799544832916532087259735172054658616777032751723319556574343545257675175790408969513695710536643789797025116733155695958703125232206242905261787610255708993862334381693649933197391234597356748349219705807231684886767243918395405140032591649212941032297460380204227272186186289974301096831018566629593428726007466097223887078557056739704519193131979034904513122409894058944271679119119672624485445359852997342782990889750549608917821924836243526563322685133964394291734787686029328424899414474743908852126738699004523597047897501595615246801231539686925183262904408847337494115944511338358322643884634260025264421640076815470551522124182958118478048543450207222147611783913361601318360262003162819549947132563115928470119670716543095731366780445414881318631685130604416004992061689589138419141919060474778524209357842685966793149888447335110574526224809227449906345860294184128531567916038236352278839603657984951454710326050662477194317336932921883861502728934409767688866131226434633303298692832290424833348146143621152420208766922578447581722659688461544623732747989345719392232317040016921943778096751633639417477827996264093212808144313493252373513471345198466585401524650645121723089807046584985849397181938858870779584721560970982881135376470109969457174700663744925787587798862135754278614045227163248356333413764151022854341766205709934084209682304118055594572957622120896511682516421852803737897786680307388723472312136636564900115345740254326465283670118773246249990980824514147247095834941818095621468244620377461983716490235628207520676730953197078960521676348892014549595382437776818329606860964409522890441693230235969840651801556207545152155113215601836047126536696893251607406652657824661547909487053599255534957856852466961989357865128564932721240819568769478842095925690787435167612329167450780221405751733134176943875771975125486978996018786667356736890500345580234008903251679933211270536565782861569927139604440341973649369557695871694649031609122921910614052801617059872103012977024941987669859952229832495004578516767982088665382040267189573914625045352864943350654962495652266382845078593604340940319944767687691666476751933752879429078248622009090108308542079101509699520690804891555496774240803114269289344994735905405553950083395476851163003665533282406067226915527326101562831613720392885516307216822233212345930545033123262687980539306335418411748651773548695699569554746434346041279455256329105366685044086238791046840418350357769328247181302297775451970954389744104844420271971400142233542905576202431634937892988385628265359782071219898033014531573736950955729811773569414177722680696079480201912580071016702607065675237261942924434304359265625856577119868204900378682039545209726003587170256549653427418540712839292635889205802489516707022627579940002975948405244206193579033719995275730484460139156790579116133266907406399017706909629592445508606411650897031056899174113985469866768914131198928658156318747883445240096154914139772592515209060614594515027599176017426326221594820933570577150646668580728463223533496721197659331720993279974566728841378439282594397708360747798725231386224794341188853955370054890710147073

theorem hPbo8len : Pbo8.length = 1024 := by unfold Pbo8; rw [decodePoly_length]

theorem boLev8 : bwdCols V3.ops q 0 1024 W_rev 128 4 128 0 0 Pbo7 = Pbo8 := by
  rw [bwdCols_eq_bf,
    @bfCols_eq_bfBlocks _ _ 0 1024 W_rev 128 4 (by norm_num) Pbo7 hPbo7len ⟨4, rfl⟩,
    wl_bwd 128 (1024 - 4) 0]
  decide!

def Pbo9 : List Int := decodePoly 1024 105860527852259065888164427414747222984496935807003780865191157698259441495287904816414937134961929924095407799765159119973497856486578227101889981437986218113067454914640202208271149976414736272473055498381229374501121876476284769874408702195185969512355868200711078399575669817450501640419995376509577328291039652393122209165506258206466168059851304541728648690350941633446633104280942998023179244039318900076566464603767174264005422094367703655909558919274214982504724385387109723259525603995821582829883849877826422420657905283612289270052913926970098982265431040760204952090885150114829634163590277636823155604927695124767112852554370769008050961202916927567969095378804293277919690902628569440719824662594413598883120781514458231738281189735557960852898362163148135571169594801485715270451163533413405015714478870433591924123808705672191207635320615722699696159828282512433572496773864425154492816725119566496120865577431460931917298479290221018648377769426196887013169721711399327208148869427922785632678994230593285895663526192177730214060149195113045756445188635004325185876896928102007082867916010616001571301342421752863537744928279494248096148926774289777276455392434809148242858067076627851776468618403308298683734306695075579591737366242139600666329712408867932191247281035895407615368468301473991484465837582293324536130739060558899284445509455114796604176183055765963648242276036855382389200022984448503193657543492674375205164607499654287793974452853439147077739816469066141360389799865473655788884427404820601017715662945869887718390982432227106205295015751582094059233658836722999170890856528368461967329223598760206124674801859899376499358111688774634768072249600965888806035874971399079502612385060477147600316256577889338548053254369993274285924197006513982146295502031302165674065346995864613859358622084218092902526503926467238202736653690791586430065829287762746246823875583646660708241575721122321948440127289302428324859600731665409947265369594369880521162858226798620352371085291004363072721764433482068089008672838348691805503268083342417704896511199795661076208256934511557716808765390526327103085152682080225603754122580834482307115607875450062271563875372565664364527170567780461918448676967791175986458284672924371420269280790263541533149352859594888239667112451066520924064249780354829057355094935989946614180672938453077229658941553321745262643301587144906053502271247169812500555225380815962830947211467179880790593642250954560098538303053983255734914138967975860241621658522911373126913465297452858251483243989884051008274287287176001851807285469974143655933443091006836318037074599977228148976400654257164016215253991807657511771234640444775244266017627613501983657206426850598380111985763436127599321339167666628928290269724167654448047269754957238346841391752604659823861888066338293477761771521304253744159810966004887812202551936907628024880155934254265067416841731861344184465032401504685852095937103092668113046004448081663494087996655061086540268173830563356975451976890476262163188819786476731906955999925199107421001208043243803584137117099407686416087696179482688533784601673363697382401448378171217216148502292633924583595374828576840437931600338214265212169618707730989633233925692594012230528512624624998161529359038996510012835821184665626980527928604011324543300462147415817204123035394668428164918185940283202312104485509160984003161560768617459657270426359924395738547479577117610307197610470800934822289354122736136384219170939044527465026835194709598404932098057584574510395182928419730752704248007357331265807441093740882036128497024134924143677870812149478199741843746084614676265764567958039273134899723319489384387241992261924974267977489642066472213790013004403721169234160546807036928432532594712494910265610863778544878503074366605821928373943935013262946413883152827054972416104540138237617642547368075897445242155257286154459035385902731932242289251733945317520043007867464416499545320027303001894767700972925905555759087754377189948248793911121034110902875095956590155593097620035226622296217449971454882152212922620893087843766095208449801090967060332060077726901223539538414491365936367014673846017800765303181383128272904824117181475510790808241718475644394763369326322792407446446352496406322499359237824631463875875411002349998474205048562962588504753615455490773097051453571956076059657667210183586530817573734541572897155063053690837789764008569211615426706624410399699988391942945856035196165851400992630820993898448675637393891581121031490473110732688700001542264946980430547512824760183431344429885276900593845820138547351853164361091417982715775104445859169651165007389871471590164922231396876396172772788756775480055545473258565029097598665392388789402576003330151461440555121842944172152950375975979751020862450305604753594874647739866243566174519797156735889050815843652989545448613742006393800006662146625008166614733061612834458220957777418609732856368025559884781316254668463494023886352046873800932965778566111544999469396522854959145996681068977931312105434285106232160801976375303607969321879651420895798467936718032323207024225839600598624869056674401315402640004307552848711913429000596806974195864728548005582681004134729932761147744885092681124454401

theorem hPbo9len : Pbo9.length = 1024 := by unfold Pbo9; rw [decodePoly_length]

theorem boLev9 : bwdCols V3.ops q 0 1024 W_rev 256 2 256 0 0 Pbo8 = Pbo9 := by
  rw [bwdCols_eq_bf,
    @bfCols_eq_bfBlocks _ _ 0 1024 W_rev 256 2 (by norm_num) Pbo8 hPbo8len ⟨2, rfl⟩,
    wl_bwd 256 (1024 - 2) 0]
  decide!

def Pbo10 : List Int := decodePoly 1024 44726877432930204982556233843942994570252865080126454758595046691797533600265884429258101947050083805029466229300754627791033943350612337813929245359122642132678604230299504728474884068953368684317216661905385577635758140165582296627782319600299518981268147504318696380166498245610253410110570452661276431109821939666218143845071854333904688783784856737384985604525588117788743515932283237831829537710246845162473421773173492046338718496148330562401310899094827421880186717941391934917322744304508585116165421806536348379214706799815376350459481463132060746769798437927505746931048768758902223114181417594924438254734978364114558365500769147327549874814663726416254732499193971628805809817027692388561945352815121542016523818044788557867313144369799948082224820658499681000273992852735693903079976810495541912198523929764265675490682273627310590566956963740288071681816731979562172610702861883620229710904872991033954014610261197873828706235344925289647740425489678228492264783626635845944108084770974356733646279900439356927447757601297195222641647572259160523691929383288008050337717076979007743826485652242568935194381277395816335863283302262021508337966109453452383450370293900289141529776826363228896091654532317143409516164000959887126316441880530572236072486667588458731185933093495273854210009273921977375402485655509938762134658613997388583654506491032981976799187397580631066213447700106685016630599939275695404120435523469453943211366401186035399520166616632028245241808040454645622441263910419169635475391934315972250000204017297268851039290881124909516207718892881579051776577762971851068852397914299156488104383634477716048494584816741337081755025295923720561741485567703759135734413347451794182627121542881621181491222002377219645212068167414957446410088814289126905057745252030811839536390859318910459252371870315235645388461106598502529774556025418215761455798280134512405810774893857718658178802440563601471815873500688247205930988592520108284686413479823263297446761150967043443417805361616634196224157419434423170675073089889346277071462099932289558343169651165600608300527597939398860771475167026954032548101871044277680823538530452719761871311577833196228075775133797051260966762011141844967636875227486610995425628380334933449206518186366187735844950302475162429661721819620518720318376067206939061007927572236062700073877720814904087017823031060206034485072954709617635837017056951566588624958916192904124560863697410006733356032782633312514529411025639786573054179110123190759668536298732842069255872379208219390052403593549602841369492646769986059739051425784544429221753905509792342681803096907074377168499966570614493337454223742154949948191738355460106288806077381767374327700395538582930337037295874450188497308265758430477014659868393526050849441196643537348589797990542307774186282854181456368987199016489474634455765390382066544315342600464021237872335694423439449890272573471873107547206240799632371888237562349067988794173271211281682656818902633347469784535837642151899019525526247831288075976125798129980284607626592008135437067423348397817251820704680902374767124007588455120149329829795972131480738491457586752478387963800915917883206467998993461122981820476702505448073839234887682563139932113468415089821703143881482928403454708557899835847177523252743064397742872563924107836034840685706923979730045197050462477653629846895826671667210389319878654578589596199035159997048737030086897482785177855198071016530749537828666481441885176018859577032327334722385850425164922300794054190038528105721340061990470055248438091334027394358861573734547003214445399374226430176451733502071730132376581453233120078504757937314545199457110957117758998442221785501746776291891561117943445537188912004309519274048555118905578160791896727206225126974436530470264726298609392439381852151975915222404045006821821814593749993478356117569466950343496202514258316469393814635697103534899233196602323420873684179830514213743536309907193717217742996061622349432169573900380193248684673308155004382521429413102227712558777114899525054243353509375352289102324847007376234956608138848794527191277377465391537783835373382311888068955716446591471750244566608309042032051196844417980586853151214910392866755770075173497040850034125481104715133921122037156241230479923243363880214454994755646785937148041761792379478949202586386523429505872940563217555298980873368333057138718541981688527801551661413817127936451002596223458169301970574866921992773158796584867984057114942326578127760775515636090792499208791226273627434343091279678577087762933719692476267485966593223931509281286548912559737813330691651707097298251972795923575868939881596689328938773005673891652818836012425531372289702275098147936196352115478909831797619154043274968620448999377058219335312314143047632957301282727545153268367088273252523149667861504303221687559631436690708866312090319501312722021463180595297008138386643318124151158056903264264608269965312256146614698605341465099833960339057130999596220141057664580241238463324108706305338323188074349964002039939719030573830086454110160737707029984633131426085084246398031383920428056477721415032139746608127624676941788737714712150398581538085663567842845352432107062549656252886348889553578188590053367809

theorem hPbo10len : Pbo10.length = 1024 := by unfold Pbo10; rw [decodePoly_length]

theorem boLev10 : bwdCols V3.ops q 0 1024 W_rev 512 1 512 0 0 Pbo9 = Pbo10 := by
  rw [bwdCols_eq_bf,
    @bfCols_eq_bfBlocks _ _ 0 1024 W_rev 512 1 (by norm_num) Pbo9 hPbo9len ⟨1, rfl⟩,
    wl_bwd 512 (1024 - 1) 0]
  decide!

def Pbd1 : List Int := decodePoly 1024 66838771115914498023575800246053273996636591583413530378974011996709104466376624191213053978719247866527946644482414021308027419553045452939362554728217752072478666702631094941922882176983766786402212244804898330064399924101464220271293680104693315320815785694063661233279787821298091533032840104515212778053570446233648245425749495703304578605909287581226364137764710446243233135051687872470856237089356527753602480691904767854427672887800866257543762386348584030301037646021441767542241514235370443238061176247034821948428199040134438614351334079920130804959705618950966173913768051039708344841232244935859376836273224119354290250817549053891654974620981711063190670026269032680159906164472640112654423564180958118532334345601283590233103171387430611323107606605502930037980956026725851025810903539588074527807884033772022432228292204478437582804434451206925623032901253365274930425069953387240583521226936292182784718411341843585229346873831070243068658103155343465371522813749465835837164046994954842111790970759369291926854818261733366363409884774162003906799254380752869692833731248143287963707910170438637529584675833711117433545023335049248860265954537808484539981648201355084637647761108167815055307893873530534110722571786418479334611688115586200204055351302869137167809103006526738476769341973920040221249943756734228411626730656261257746583406924059967945351276456545919654614631478409439505125521630382880418740262960255285210138095917137828711682115293012441539536029280823070060894929994133396577656391129435662757830334880708343231591108777937062969306880407941149485490307839011786059015496612602569040427205635915851415840659825207671975768884511406525206937517396187266459344309009154743639498622157358226531707173082125262877878429582972440745879880287732473511795857600333088643182209698786750654435086562338828835684192010807922135096620668916362471050672871508612123824153856448702826753991151442843381794542054302877121303405419842243616561920774421334874899421101742206254219939660083452370108063486870890069716987823771538434740735224965238001104114394388418567358431166435335444916746926537531896369505937850320314824207073529274976305610641948732221651915729603408303707190125142891781938067489686698039205325524717848452828091125128278394288350794854348933604172876015647432182081021154279383016797805505011051034215677272289779434941411886012383571007422023427426228896441480160119280434575797501513454244693842442962152328985445817038947162681557261129787126939087394232825720423875475906794308645290920410407276897851371782579393362297309981032323118278149388555610804277915998974139696179749143330644065484798996501666326688024409822247550160306141572142892028939200376520112147395821303229282711867416800466424840465163038829376959251051938274845805400912878911174651215855791632862767604898352926088933847043423808902755751546095696277987614731387550858751100868574934994370550063258497645806288947381021528968186284855957111287885576882785996916137931416177160738986578880793037304464762503246433907359886564209608388399056374991869716809015386545073889298378091325828844838017347883039472698984494201610218557037181693871659901260925101279567617379803364527538927745469040513514382277377812292416004399579236859174330458965463270556325100462146949789786246536772425388166821130362114720914587683228996652974625647658998258549340118115742646967947398668164572579465840271371232729165941275263225485808575616618791965312554516557081491875129141501336350332340316637670206587261287398652826840650377288888771428654108201352007353285629402596548075799157236985545990641995006637090208935959696162556073723989227023893569449507984864475618651343239723310622046123987077284562229683067187481280711650525512316551150941203225789368974921297772334087887503010487381096856750623315542915438475406934733194512151999799998018895370271916733481392051337053718446240413388577734357601122330953704079936585233265664094238153725056606968340814888163686154938002369440716540152304781397535308223373145843253978073446575161391232111905507501579352224128247947758393146285045662081229931893413858115742920927227733817883998002663302331084987525905375738776632853440178130656857559628438773390017979129067107503295843666977956153417092050460755787703738659804308782097712439353026170762516100689319543842209350920462697164851762229963163070378587666139316518320405761681886820956985493696813591414305148352195453851821489135851431958487236761812968463022905601710877243695559209304573158988912748956305586702771276247294618381123272199095569796570510241820126062666961832392501254018895667772774629952741332550495828169008416614479087227310188903867851170259353242023891293020415127125496803106921336056472215923480655927805134495070606901491555028379473931424520097141619428572812128316294312130134472413453264926008060469359077020615906098788586643653089292556104131140985032588492377682922569918000896696468069010648372867729416168183597405938526285040337159025604569414849562749023497351100214355678617080017544731371450066318855656386522184197614386244691992364670958775846403989173879820635752851068385735090338766828558062709156057458959070718968841324606944636673772847718153724284840187473203943991171602471755778

theorem hPbd1len : Pbd1.length = 1024 := by unfold Pbd1; rw [decodePoly_length]

theorem bdLev1 : bwdCols V3.ops q 0 1024 W_rev 1 512 1 0 0 D0 = Pbd1 := by
  rw [bwdCols_eq_bf,
    @bfCols_eq_bfBlocks _ _ 0 1024 W_rev 1 512 (by norm_num) D0 hD0len ⟨512, rfl⟩,
    wl_bwd 1 (1024 - 512) 0]
  decide!

def Pbd2 : List Int := decodePoly 1024 66838771115914498023575800246053273996636591583413530378974011996709104466376624191213053978719247866527946644482414021308027419553045452939362554728217752072478666702631094941922882176983766786402212244804898330064399924101464220271293680104693315320815785694063661233279787821298091533032840104515212778053570446233648245425749495703304578605909287581226364137764710446243233135051687872470856237089356527753602480691904767854427672887800866257543762386348584030301037646021441767542241514235370443238061176247034821948428199040134438614351334079920130804959705618950966173913768051039708344841232244935859376836273224119354290250817549053891654974620981711063190670026269032680159906164472640112654423564180958118532334345601283590233103171387430611323107606605502930037980956026725851025810903539588074527807884033772022432228292204478437582804434451206925623032901253365274930425069953387240583521226936292182784718411341843585229346873831070243068658103155343465371522813749465835837164046994954842111790970759369291926854818261733366363409884774162003906799254380752869692833731248143287963707910170438637529584675833711117433545023335049248860265954537808484539981648201355084637647761108167815055307893873530534110722571786418479334611688115586200204055351302869137167809103006526738476769341973920040221249943756734228411626730656261257746583406924059967945351276456545919654614631478409439505125521630382880418740262960255285210138095917137828711682115293012441539536029280823070060894929994133396577656391129435662757830334880708343231591108777937062969306880407941149485490307839011786059015496612602569040427205635915851415840659825207671975768884511406525206937517396187266459344309009154743639498622157358226531707173082125262877878429582972440745879880287732473511795857600333088643182209698786750654435086562338828835684192010807922135096620668916362471050672871508612123824153856448702826753991151442843381794542054302877121303405419842243616561920774421334874899421101742206254219939660083452370108063486870890069716987823771538434740735224965238001104114394388418567358431166435335444916746926537531896369505937850320314824207073529274976305610641948732221651915729603408303707190125142891781938067489686698039205325524717848452828091125128278394288350794854348933604172876015647432182081021154279383016797805505011051034215677272289779434941411886012383571007422023427426228896441480160119280434575797501513454244693842442962152328985445817038947162681557261129787126939087394232825720423875475906794308645290920410407276897851371782579393362297309981032323118278149388555610804277915998974139696179749143330644065484798996501666326688024409822247550160306141572142892028939200376520112147395821303229282711867416800466424840465163038829376959251051938274845805400912878911174651215855791632862767604898352926088933847043423808902755751546095696277987614731387550858751100868574934994370550063258497645806288947381021528968186284855957111287885576882785996916137931416177160738986578880793037304464762503246433907359886564209608388399056374991869716809015386545073889298378091325828844838017347883039472698984494201610218557037181693871659901260925101279567617379803364527538927745469040513514382277377812292416004399579236859174330458965463270556325100462146949789786246536772425388166821130362114720914587683228996652974625647658998258549340118115742646967947398668164572579465840271371232729165941275263225485808575616618791965312554516557081491875129141501336350332340316637670206587261287398652826840650377288888771428654108201352007353285629402596548075799157236985545990641995006637090208935959696162556073723989227023893569449507984864475618651343239723310622046123987077284562229683067187481280711650525512316551150941203225789368974921297772334087887503010487381096856750623315542915438475406934733194512151999799998018895370271916733481392051337053718446240413388577734357601122330953704079936585233265664094238153725056606968340814888163686154938002369440716540152304781397535308223373145843253978073446575161391232111905507501579352224128247947758393146285045662081229931893413858115742920927227733817883998002663302331084987525905375738776632853440178130656857559628438773390017979129067107503295843666977956153417092050460755787703738659804308782097712439353026170762516100689319543842209350920462697164851762229963163070378587666139316518320405761681886820956985493696813591414305148352195453851821489135851431958487236761812968463022905601710877243695559209304573158988912748956305586702771276247294618381123272199095569796570510241820126062666961832392501254018895667772774629952741332550495828169008416614479087227310188903867851170259353242023891293020415127125496803106921336056472215923480655927805134495070606901491555028379473931424520097141619428572812128316294312130134472413453264926008060469359077020615906098788586643653089292556104131140985032588492377682922569918000896696468069010648372867729416168183597405938526285040337159025604569414849562749023497351100214355678617080017544731371450066318855656386522184197614386244691992364670958775846403989173879820635752851068385735090338766828558062709156057458959070718968841324606944636673772847718153724284840187473203943993423419465310210

theorem hPbd2len : Pbd2.length = 1024 := by unfold Pbd2; rw [decodePoly_length]

theorem bdLev2 : bwdCols V3.ops q 0 1024 W_rev 2 256 2 0 0 Pbd1 = Pbd2 := by
  rw [bwdCols_eq_bf,
    @bfCols_eq_bfBlocks _ _ 0 1024 W_rev 2 256 (by norm_num) Pbd1 hPbd1len ⟨256, rfl⟩,
    wl_bwd 2 (1024 - 256) 0]
  decide!

def Pbd3 : List Int := decodePoly 1024 66838771115914498023575800246053273996636591583413530378974011996709104466376624191213053978719247866527946644482414021308027419553045452939362554728217752072478666702631094941922882176983766786402212244804898330064399924101464220271293680104693315320815785694063661233279787821298091533032840104515212778053570446233648245425749495703304578605909287581226364137764710446243233135051687872470856237089356527753602480691904767854427672887800866257543762386348584030301037646021441767542241514235370443238061176247034821948428199040134438614351334079920130804959705618950966173913768051039708344841232244935859376836273224119354290250817549053891654974620981711063190670026269032680159906164472640112654423564180958118532334345601283590233103171387430611323107606605502930037980956026725851025810903539588074527807884033772022432228292204478437582804434451206925623032901253365274930425069953387240583521226936292182784718411341843585229346873831070243068658103155343465371522813749465835837164046994954842111790970759369291926854818261733366363409884774162003906799254380752869692833731248143287963707910170438637529584675833711117433545023335049248860265954537808484539981648201355084637647761108167815055307893873530534110722571786418479334611688115586200204055351302869137167809103006526738476769341973920040221249943756734228411626730656261257746583406924059967945351276456545919654614631478409439505125521630382880418740262960255285210138095917137828711682115293012441539536029280823070060894929994133396577656391129435662757830334880708343231591108777937062969306880407941149485490307839011786059015496612602569040427205635915851415840659825207671975768884511406525206937517396187266459344309009154743639498622157358226531707173082125262877878429582972440745879880287732473511795857600333088643182209698786750654435086562338828835684192010807922135096620668916362471050672871508612123824153856448702826753991151442843381794542054302877121303405419842243616561920774421334874899421101742206254219939660083452370108063486870890069716987823771538434740735224965238001104114394388418567358431166435335444916746926537531896369505937850320314824207073529274976305610641948732221651915729603408303707190125142891781938067489686698039205325524717848452828091125128278394288350794854348933604172876015647432182081021154279383016797805505011051034215677272289779434941411886012383571007422023427426228896441480160119280434575797501513454244693842442962152328985445817038947162681557261129787126939087394232825720423875475906794308645290920410407276897851371782579393362297309981032323118278149388555610804277915998974139696179749143330644065484798996501666326688024409822247550160306141572142892028939200376520112147395821303229282711867416800466424840465163038829376959251051938274845805400912878911174651215855791632862767604898352926088933847043423808902755751546095696277987614731387550858751100868574934994370550063258497645806288947381021528968186284855957111287885576882785996916137931416177160738986578880793037304464762503246433907359886564209608388399056374991869716809015386545073889298378091325828844838017347883039472698984494201610218557037181693871659901260925101279567617379803364527538927745469040513514382277377812292416004399579236859174330458965463270556325100462146949789786246536772425388166821130362114720914587683228996652974625647658998258549340118115742646967947398668164572579465840271371232729165941275263225485808575616618791965312554516557081491875129141501336350332340316637670206587261287398652826840650377288888771428654108201352007353285629402596548075799157236985545990641995006637090208935959696162556073723989227023893569449507984864475618651343239723310622046123987077284562229683067187481280711650525512316551150941203225789368974921297772334087887503010487381096856750623315542915438475406934733194512151999799998018895370271916733481392051337053718446240413388577734357601122330953704079936585233265664094238153725056606968340814888163686154938002369440716540152304781397535308223373145843253978073446575161391232111905507501579352224128247947758393146285045662081229931893413858115742920927227733817883998002663302331084987525905375738776632853440178130656857559628438773390017979129067107503295843666977956153417092050460755787703738659804308782097712439353026170762516100689319543842209350920462697164851762229963163070378587666139316518320405761681886820956985493696813591414305148352195453851821489135851431958487236761812968463022905601710877243695559209304573158988912748956305586702771276247294618381123272199095569796570510241820126062666961832392501254018895667772774629952741332550495828169008416614479087227310188903867851170259353242023891293020415127125496803106921336056472215923480655927805134495070606901491555028379473931424520097141619428572812128316294312130134472413453264926008060469359077020615906098788586643653089292556104131140985032588492377682922569918000896696468069010648372867729416168183597405938526285040337159025604569414849562749023497351100214355678617080017544731371450066318855656386522184197614386244691992364670958775846403989173879820635752851068385735090338766828558062709156057458959070718968841324606944636673772847718153724949459256006748714738506249361727490

theorem hPbd3len : Pbd3.length = 1024 := by unfold Pbd3; rw [decodePoly_length]

theorem bdLev3 : bwdCols V3.ops q 0 1024 W_rev 4 128 4 0 0 Pbd2 = Pbd3 := by
  rw [bwdCols_eq_bf,
    @bfCols_eq_bfBlocks _ _ 0 1024 W_rev 4 128 (by norm_num) Pbd2 hPbd2len ⟨128, rfl⟩,
    wl_bwd 4 (1024 - 128) 0]
  decide!

def Pbd4 : List Int := decodePoly 1024 66838771115914498023575800246053273996636591583413530378974011996709104466376624191213053978719247866527946644482414021308027419553045452939362554728217752072478666702631094941922882176983766786402212244804898330064399924101464220271293680104693315320815785694063661233279787821298091533032840104515212778053570446233648245425749495703304578605909287581226364137764710446243233135051687872470856237089356527753602480691904767854427672887800866257543762386348584030301037646021441767542241514235370443238061176247034821948428199040134438614351334079920130804959705618950966173913768051039708344841232244935859376836273224119354290250817549053891654974620981711063190670026269032680159906164472640112654423564180958118532334345601283590233103171387430611323107606605502930037980956026725851025810903539588074527807884033772022432228292204478437582804434451206925623032901253365274930425069953387240583521226936292182784718411341843585229346873831070243068658103155343465371522813749465835837164046994954842111790970759369291926854818261733366363409884774162003906799254380752869692833731248143287963707910170438637529584675833711117433545023335049248860265954537808484539981648201355084637647761108167815055307893873530534110722571786418479334611688115586200204055351302869137167809103006526738476769341973920040221249943756734228411626730656261257746583406924059967945351276456545919654614631478409439505125521630382880418740262960255285210138095917137828711682115293012441539536029280823070060894929994133396577656391129435662757830334880708343231591108777937062969306880407941149485490307839011786059015496612602569040427205635915851415840659825207671975768884511406525206937517396187266459344309009154743639498622157358226531707173082125262877878429582972440745879880287732473511795857600333088643182209698786750654435086562338828835684192010807922135096620668916362471050672871508612123824153856448702826753991151442843381794542054302877121303405419842243616561920774421334874899421101742206254219939660083452370108063486870890069716987823771538434740735224965238001104114394388418567358431166435335444916746926537531896369505937850320314824207073529274976305610641948732221651915729603408303707190125142891781938067489686698039205325524717848452828091125128278394288350794854348933604172876015647432182081021154279383016797805505011051034215677272289779434941411886012383571007422023427426228896441480160119280434575797501513454244693842442962152328985445817038947162681557261129787126939087394232825720423875475906794308645290920410407276897851371782579393362297309981032323118278149388555610804277915998974139696179749143330644065484798996501666326688024409822247550160306141572142892028939200376520112147395821303229282711867416800466424840465163038829376959251051938274845805400912878911174651215855791632862767604898352926088933847043423808902755751546095696277987614731387550858751100868574934994370550063258497645806288947381021528968186284855957111287885576882785996916137931416177160738986578880793037304464762503246433907359886564209608388399056374991869716809015386545073889298378091325828844838017347883039472698984494201610218557037181693871659901260925101279567617379803364527538927745469040513514382277377812292416004399579236859174330458965463270556325100462146949789786246536772425388166821130362114720914587683228996652974625647658998258549340118115742646967947398668164572579465840271371232729165941275263225485808575616618791965312554516557081491875129141501336350332340316637670206587261287398652826840650377288888771428654108201352007353285629402596548075799157236985545990641995006637090208935959696162556073723989227023893569449507984864475618651343239723310622046123987077284562229683067187481280711650525512316551150941203225789368974921297772334087887503010487381096856750623315542915438475406934733194512151999799998018895370271916733481392051337053718446240413388577734357601122330953704079936585233265664094238153725056606968340814888163686154938002369440716540152304781397535308223373145843253978073446575161391232111905507501579352224128247947758393146285045662081229931893413858115742920927227733817883998002663302331084987525905375738776632853440178130656857559628438773390017979129067107503295843666977956153417092050460755787703738659804308782097712439353026170762516100689319543842209350920462697164851762229963163070378587666139316518320405761681886820956985493696813591414305148352195453851821489135851431958487236761812968463022905601710877243695559209304573158988912748956305586702771276247294618381123272199095569796570510241820126062666961832392501254018895667772774629952741332550495828169008416614479087227310188903867851170259353242023891293020415127125496803106921336056472215923480655927805134495070606901491555028379473931424520097141619428572812128316294312130134472413453264926008060469359077020615906098788586643653089292556104131140985032588492377682922569918000896696468069010648372867729416168183597405938526285040337159025604569414849562749023497351100214355678617080017544731371450066318855656386522184197614386244691992364670958775846403989173879820635752851068385735090338766828558062709156057458959128615455175118918297103261145564571836628220226714012292605039195517714997250

theorem hPbd4len : Pbd4.length = 1024 := by unfold Pbd4; rw [decodePoly_length]

theorem bdLev4 : bwdCols V3.ops q 0 1024 W_rev 8 64 8 0 0 Pbd3 = Pbd4 := by
  rw [bwdCols_eq_bf,
    @bfCols_eq_bfBlocks _ _ 0 1024 W_rev 8 64 (by norm_num) Pbd3 hPbd3len ⟨64, rfl⟩,
    wl_bwd 8 (1024 - 64) 0]
  decide!

def Pbd5 : List Int := decodePoly 1024 66838771115914498023575800246053273996636591583413530378974011996709104466376624191213053978719247866527946644482414021308027419553045452939362554728217752072478666702631094941922882176983766786402212244804898330064399924101464220271293680104693315320815785694063661233279787821298091533032840104515212778053570446233648245425749495703304578605909287581226364137764710446243233135051687872470856237089356527753602480691904767854427672887800866257543762386348584030301037646021441767542241514235370443238061176247034821948428199040134438614351334079920130804959705618950966173913768051039708344841232244935859376836273224119354290250817549053891654974620981711063190670026269032680159906164472640112654423564180958118532334345601283590233103171387430611323107606605502930037980956026725851025810903539588074527807884033772022432228292204478437582804434451206925623032901253365274930425069953387240583521226936292182784718411341843585229346873831070243068658103155343465371522813749465835837164046994954842111790970759369291926854818261733366363409884774162003906799254380752869692833731248143287963707910170438637529584675833711117433545023335049248860265954537808484539981648201355084637647761108167815055307893873530534110722571786418479334611688115586200204055351302869137167809103006526738476769341973920040221249943756734228411626730656261257746583406924059967945351276456545919654614631478409439505125521630382880418740262960255285210138095917137828711682115293012441539536029280823070060894929994133396577656391129435662757830334880708343231591108777937062969306880407941149485490307839011786059015496612602569040427205635915851415840659825207671975768884511406525206937517396187266459344309009154743639498622157358226531707173082125262877878429582972440745879880287732473511795857600333088643182209698786750654435086562338828835684192010807922135096620668916362471050672871508612123824153856448702826753991151442843381794542054302877121303405419842243616561920774421334874899421101742206254219939660083452370108063486870890069716987823771538434740735224965238001104114394388418567358431166435335444916746926537531896369505937850320314824207073529274976305610641948732221651915729603408303707190125142891781938067489686698039205325524717848452828091125128278394288350794854348933604172876015647432182081021154279383016797805505011051034215677272289779434941411886012383571007422023427426228896441480160119280434575797501513454244693842442962152328985445817038947162681557261129787126939087394232825720423875475906794308645290920410407276897851371782579393362297309981032323118278149388555610804277915998974139696179749143330644065484798996501666326688024409822247550160306141572142892028939200376520112147395821303229282711867416800466424840465163038829376959251051938274845805400912878911174651215855791632862767604898352926088933847043423808902755751546095696277987614731387550858751100868574934994370550063258497645806288947381021528968186284855957111287885576882785996916137931416177160738986578880793037304464762503246433907359886564209608388399056374991869716809015386545073889298378091325828844838017347883039472698984494201610218557037181693871659901260925101279567617379803364527538927745469040513514382277377812292416004399579236859174330458965463270556325100462146949789786246536772425388166821130362114720914587683228996652974625647658998258549340118115742646967947398668164572579465840271371232729165941275263225485808575616618791965312554516557081491875129141501336350332340316637670206587261287398652826840650377288888771428654108201352007353285629402596548075799157236985545990641995006637090208935959696162556073723989227023893569449507984864475618651343239723310622046123987077284562229683067187481280711650525512316551150941203225789368974921297772334087887503010487381096856750623315542915438475406934733194512151999799998018895370271916733481392051337053718446240413388577734357601122330953704079936585233265664094238153725056606968340814888163686154938002369440716540152304781397535308223373145843253978073446575161391232111905507501579352224128247947758393146285045662081229931893413858115742920927227733817883998002663302331084987525905375738776632853440178130656857559628438773390017979129067107503295843666977956153417092050460755787703738659804308782097712439353026170762516100689319543842209350920462697164851762229963163070378587666139316518320405761681886820956985493696813591414305148352195453851821489135851431958487236761812968463022905601710877243695559209304573158988912748956305586702771276247294618381123272199095569796570510241820126062666961832392501254018895667772774629952741332550495828169008416614479087227310188903867851170259353242023891293020415127125496803106921336056472215923480655927805134495070606901491555028379473931424520097141619428572812128316294312130134472413453264926008060469359077020615906098788586643653089292556104131140985032588492377682922569918000896696468069010648372867729416168183597405938526285040337159025604569414849562749023497351100214355678617080017544731371450066318855656386522184197614386244691992804021361001761470632252004641386092693841562976925168009679160632549326900704564430285316714842036212125192637501741221962612201009676712113677786605592813570

theorem hPbd5len : Pbd5.length = 1024 := by unfold Pbd5; rw [decodePoly_length]

theorem bdLev5 : bwdCols V3.ops q 0 1024 W_rev 16 32 16 0 0 Pbd4 = Pbd5 := by
  rw [bwdCols_eq_bf,
    @bfCols_eq_bfBlocks _ _ 0 1024 W_rev 16 32 (by norm_num) Pbd4 hPbd4len ⟨32, rfl⟩,
    wl_bwd 16 (1024 - 32) 0]
  decide!

def Pbd6 : List Int := decodePoly 1024 66838771115914498023575800246053273996636591583413530378974011996709104466376624191213053978719247866527946644482414021308027419553045452939362554728217752072478666702631094941922882176983766786402212244804898330064399924101464220271293680104693315320815785694063661233279787821298091533032840104515212778053570446233648245425749495703304578605909287581226364137764710446243233135051687872470856237089356527753602480691904767854427672887800866257543762386348584030301037646021441767542241514235370443238061176247034821948428199040134438614351334079920130804959705618950966173913768051039708344841232244935859376836273224119354290250817549053891654974620981711063190670026269032680159906164472640112654423564180958118532334345601283590233103171387430611323107606605502930037980956026725851025810903539588074527807884033772022432228292204478437582804434451206925623032901253365274930425069953387240583521226936292182784718411341843585229346873831070243068658103155343465371522813749465835837164046994954842111790970759369291926854818261733366363409884774162003906799254380752869692833731248143287963707910170438637529584675833711117433545023335049248860265954537808484539981648201355084637647761108167815055307893873530534110722571786418479334611688115586200204055351302869137167809103006526738476769341973920040221249943756734228411626730656261257746583406924059967945351276456545919654614631478409439505125521630382880418740262960255285210138095917137828711682115293012441539536029280823070060894929994133396577656391129435662757830334880708343231591108777937062969306880407941149485490307839011786059015496612602569040427205635915851415840659825207671975768884511406525206937517396187266459344309009154743639498622157358226531707173082125262877878429582972440745879880287732473511795857600333088643182209698786750654435086562338828835684192010807922135096620668916362471050672871508612123824153856448702826753991151442843381794542054302877121303405419842243616561920774421334874899421101742206254219939660083452370108063486870890069716987823771538434740735224965238001104114394388418567358431166435335444916746926537531896369505937850320314824207073529274976305610641948732221651915729603408303707190125142891781938067489686698039205325524717848452828091125128278394288350794854348933604172876015647432182081021154279383016797805505011051034215677272289779434941411886012383571007422023427426228896441480160119280434575797501513454244693842442962152328985445817038947162681557261129787126939087394232825720423875475906794308645290920410407276897851371782579393362297309981032323118278149388555610804277915998974139696179749143330644065484798996501666326688024409822247550160306141572142892028939200376520112147395821303229282711867416800466424840465163038829376959251051938274845805400912878911174651215855791632862767604898352926088933847043423808902755751546095696277987614731387550858751100868574934994370550063258497645806288947381021528968186284855957111287885576882785996916137931416177160738986578880793037304464762503246433907359886564209608388399056374991869716809015386545073889298378091325828844838017347883039472698984494201610218557037181693871659901260925101279567617379803364527538927745469040513514382277377812292416004399579236859174330458965463270556325100462146949789786246536772425388166821130362114720914587683228996652974625647658998258549340118115742646967947398668164572579465840271371232729165941275263225485808575616618791965312554516557081491875129141501336350332340316637670206587261287398652826840650377288888771428654108201352007353285629402596548075799157236985545990641995006637090208935959696162556073723989227023893569449507984864475618651343239723310622046123987077284562229683067187481280711650525512316551150941203225789368974921297772334087887503010487381096856750623315542915438475406934733194512151999799998018895370271916733481392051337053718446240413388577734357601122330953704079936585233265664094238153725056606968340814888163686154938002369440716540152304781397535308223373145843253978073446575161391232111905507501579352224128247947758393146285045662081229931893413858115742920927227733817883998002663302331084987525905375738776632853440178130656857559628438773390017979129067107503295843666977956153417092050460755787703738659804308782097712439353026170762516100689319543842209350920462697164851762229963163070378587666139316518320405761681886820956985493696813591414305148352195453851821489135851431958487236761812968463022905601710877243695559209304573158988912748956305586702771276247294618381123272199095569796570510241820126062666961832392501254018895667772774629952741332550495828169008416614479087227310188903867851170259353242023891293020415127125496803106921336056472215923480655927805134495070606901491555028379473931424520097141619428572812128316294312130134472413453264926008060469359077020615906098788586643653089292556104131140985032588492377682922569918026197171158786081328288972440929326385640086239551717570488541481841408101378510902908635379835372000994095589596068175582683873593758879258012807940693021080423324843611863053645656428282876139690863086315675030230529431494503734704937011132585045733181229769789220505061369379795703704733152856955058561855027708170641410

theorem hPbd6len : Pbd6.length = 1024 := by unfold Pbd6; rw [decodePoly_length]

theorem bdLev6 : bwdCols V3.ops q 0 1024 W_rev 32 16 32 0 0 Pbd5 = Pbd6 := by
  rw [bwdCols_eq_bf,
    @bfCols_eq_bfBlocks _ _ 0 1024 W_rev 32 16 (by norm_num) Pbd5 hPbd5len ⟨16, rfl⟩,
    wl_bwd 32 (1024 - 16) 0]
  decide!

def Pbd7 : List Int := decodePoly 1024 66838771115914498023575800246053273996636591583413530378974011996709104466376624191213053978719247866527946644482414021308027419553045452939362554728217752072478666702631094941922882176983766786402212244804898330064399924101464220271293680104693315320815785694063661233279787821298091533032840104515212778053570446233648245425749495703304578605909287581226364137764710446243233135051687872470856237089356527753602480691904767854427672887800866257543762386348584030301037646021441767542241514235370443238061176247034821948428199040134438614351334079920130804959705618950966173913768051039708344841232244935859376836273224119354290250817549053891654974620981711063190670026269032680159906164472640112654423564180958118532334345601283590233103171387430611323107606605502930037980956026725851025810903539588074527807884033772022432228292204478437582804434451206925623032901253365274930425069953387240583521226936292182784718411341843585229346873831070243068658103155343465371522813749465835837164046994954842111790970759369291926854818261733366363409884774162003906799254380752869692833731248143287963707910170438637529584675833711117433545023335049248860265954537808484539981648201355084637647761108167815055307893873530534110722571786418479334611688115586200204055351302869137167809103006526738476769341973920040221249943756734228411626730656261257746583406924059967945351276456545919654614631478409439505125521630382880418740262960255285210138095917137828711682115293012441539536029280823070060894929994133396577656391129435662757830334880708343231591108777937062969306880407941149485490307839011786059015496612602569040427205635915851415840659825207671975768884511406525206937517396187266459344309009154743639498622157358226531707173082125262877878429582972440745879880287732473511795857600333088643182209698786750654435086562338828835684192010807922135096620668916362471050672871508612123824153856448702826753991151442843381794542054302877121303405419842243616561920774421334874899421101742206254219939660083452370108063486870890069716987823771538434740735224965238001104114394388418567358431166435335444916746926537531896369505937850320314824207073529274976305610641948732221651915729603408303707190125142891781938067489686698039205325524717848452828091125128278394288350794854348933604172876015647432182081021154279383016797805505011051034215677272289779434941411886012383571007422023427426228896441480160119280434575797501513454244693842442962152328985445817038947162681557261129787126939087394232825720423875475906794308645290920410407276897851371782579393362297309981032323118278149388555610804277915998974139696179749143330644065484798996501666326688024409822247550160306141572142892028939200376520112147395821303229282711867416800466424840465163038829376959251051938274845805400912878911174651215855791632862767604898352926088933847043423808902755751546095696277987614731387550858751100868574934994370550063258497645806288947381021528968186284855957111287885576882785996916137931416177160738986578880793037304464762503246433907359886564209608388399056374991869716809015386545073889298378091325828844838017347883039472698984494201610218557037181693871659901260925101279567617379803364527538927745469040513514382277377812292416004399579236859174330458965463270556325100462146949789786246536772425388166821130362114720914587683228996652974625647658998258549340118115742646967947398668164572579465840271371232729165941275263225485808575616618791965312554516557081491875129141501336350332340316637670206587261287398652826840650377288888771428654108201352007353285629402596548075799157236985545990641995006637090208935959696162556073723989227023893569449507984864475618651343239723310622046123987077284562229683067187481280711650525512316551150941203225789368974921297772334087887503010487381096856750623315542915438475406934733194512151999799998018895370271916733481392051337053718446240413388577734357601122330953704079936585233265664094238153725056606968340814888163686154938002369440716540152304781397535308223373145843253978073446575161391232111905507501579352224128247947758393146285045662081229931893413858115742920927227733817883998002663302331084987525905375738776632853440178130656857559628438773390017979129067107503295843666977956153417092050460755787703738659804308782097712439353026170762516100689319543842209350920462697164851762229963163070378587666139316518320405761681886820956985493696813591414305148352195453851821489135851431958487236761812968463022905601710877243695559209304573158988912748956305586702771276247294618381123272199095569796570510241820126062666961832476401638678691108420822170531395664011078461703155948591871393624789329156408242980474996218834260258488864951782930540132620252257844844682579162504931550014527605301766944371869612085180150762798064563656043400400328489362612114766589043846238875336596601537987690776697405523755389384880342222524104450649364606559898242598276639443833326444005431793010103641706882211878389164894715436383752245660474344788788337706867777414613886865137909912001477167990229991651597413385056318465228867141755918042738233770627546805710687220623006080601532161085435681124446687646018541019171085604085474967460002347373425869583375910309480444311351335042981890

theorem hPbd7len : Pbd7.length = 1024 := by unfold Pbd7; rw [decodePoly_length]

theorem bdLev7 : bwdCols V3.ops q 0 1024 W_rev 64 8 64 0 0 Pbd6 = Pbd7 := by
  rw [bwdCols_eq_bf,
    @bfCols_eq_bfBlocks _ _ 0 1024 W_rev 64 8 (by norm_num) Pbd6 hPbd6len ⟨8, rfl⟩,
    wl_bwd 64 (1024 - 8) 0]
  decide!

def Pbd8 : List Int := decodePoly 1024 66838771115914498023575800246053273996636591583413530378974011996709104466376624191213053978719247866527946644482414021308027419553045452939362554728217752072478666702631094941922882176983766786402212244804898330064399924101464220271293680104693315320815785694063661233279787821298091533032840104515212778053570446233648245425749495703304578605909287581226364137764710446243233135051687872470856237089356527753602480691904767854427672887800866257543762386348584030301037646021441767542241514235370443238061176247034821948428199040134438614351334079920130804959705618950966173913768051039708344841232244935859376836273224119354290250817549053891654974620981711063190670026269032680159906164472640112654423564180958118532334345601283590233103171387430611323107606605502930037980956026725851025810903539588074527807884033772022432228292204478437582804434451206925623032901253365274930425069953387240583521226936292182784718411341843585229346873831070243068658103155343465371522813749465835837164046994954842111790970759369291926854818261733366363409884774162003906799254380752869692833731248143287963707910170438637529584675833711117433545023335049248860265954537808484539981648201355084637647761108167815055307893873530534110722571786418479334611688115586200204055351302869137167809103006526738476769341973920040221249943756734228411626730656261257746583406924059967945351276456545919654614631478409439505125521630382880418740262960255285210138095917137828711682115293012441539536029280823070060894929994133396577656391129435662757830334880708343231591108777937062969306880407941149485490307839011786059015496612602569040427205635915851415840659825207671975768884511406525206937517396187266459344309009154743639498622157358226531707173082125262877878429582972440745879880287732473511795857600333088643182209698786750654435086562338828835684192010807922135096620668916362471050672871508612123824153856448702826753991151442843381794542054302877121303405419842243616561920774421334874899421101742206254219939660083452370108063486870890069716987823771538434740735224965238001104114394388418567358431166435335444916746926537531896369505937850320314824207073529274976305610641948732221651915729603408303707190125142891781938067489686698039205325524717848452828091125128278394288350794854348933604172876015647432182081021154279383016797805505011051034215677272289779434941411886012383571007422023427426228896441480160119280434575797501513454244693842442962152328985445817038947162681557261129787126939087394232825720423875475906794308645290920410407276897851371782579393362297309981032323118278149388555610804277915998974139696179749143330644065484798996501666326688024409822247550160306141572142892028939200376520112147395821303229282711867416800466424840465163038829376959251051938274845805400912878911174651215855791632862767604898352926088933847043423808902755751546095696277987614731387550858751100868574934994370550063258497645806288947381021528968186284855957111287885576882785996916137931416177160738986578880793037304464762503246433907359886564209608388399056374991869716809015386545073889298378091325828844838017347883039472698984494201610218557037181693871659901260925101279567617379803364527538927745469040513514382277377812292416004399579236859174330458965463270556325100462146949789786246536772425388166821130362114720914587683228996652974625647658998258549340118115742646967947398668164572579465840271371232729165941275263225485808575616618791965312554516557081491875129141501336350332340316637670206587261287398652826840650377288888771428654108201352007353285629402596548075799157236985545990641995006637090208935959696162556073723989227023893569449507984864475618651343239723310622046123987077284562229683067187481280711650525512316551150941203225789368974921297772334087887503010487381096856750623315542915438475406934733194512151999799998018895370271916733481392051337053718446240413388577734357601122330953704079936585233266586738992180570023877172493681503731239742391356626587089895718257608435830548879654618152124857590769984713829289886749092376667500344858485875597215286246712174765821971082486206369809956474360884356508290818398065583388917166764156581085280832717023414293189266972626926803344183637478931142389001681002072727775642147688929159036661775357792064832056151439311781447953482861325208339816072808136440499141596233419747117704734893483193499169819659798235709787830629558811714816506538991388861946083737305289351233993137993868638579164367457069026793378780944549921739277673052265138262230106768705739702790830256294246263134079853145394566850767820663256047656700705026264481201106310071074661693546654439123345977762257828233917665635176430648989898972107867606340832732310712861949706073539857102272677403583253499744099716288090035553225803502617624107034388023497532815735679651465348612943031496890337294324889476170441750655891530938669618038510664407195576971442114880479003058402185540841004575176788446947255978750739219038405941250626661710321215258767497086329215291039596544715135465173391986786908359351765523009942222201100982935882068578766536134576978673387466621375882551829978639699827525001368771863347882184239479870289861516504915377249640942851279993310607947697610323537317634050

theorem hPbd8len : Pbd8.length = 1024 := by unfold Pbd8; rw [decodePoly_length]

theorem bdLev8 : bwdCols V3.ops q 0 1024 W_rev 128 4 128 0 0 Pbd7 = Pbd8 := by
  rw [bwdCols_eq_bf,
    @bfCols_eq_bfBlocks _ _ 0 1024 W_rev 128 4 (by norm_num) Pbd7 hPbd7len ⟨4, rfl⟩,
    wl_bwd 128 (1024 - 4) 0]
  decide!

def Pbd9 : List Int := decodePoly 1024 66838771115914498023575800246053273996636591583413530378974011996709104466376624191213053978719247866527946644482414021308027419553045452939362554728217752072478666702631094941922882176983766786402212244804898330064399924101464220271293680104693315320815785694063661233279787821298091533032840104515212778053570446233648245425749495703304578605909287581226364137764710446243233135051687872470856237089356527753602480691904767854427672887800866257543762386348584030301037646021441767542241514235370443238061176247034821948428199040134438614351334079920130804959705618950966173913768051039708344841232244935859376836273224119354290250817549053891654974620981711063190670026269032680159906164472640112654423564180958118532334345601283590233103171387430611323107606605502930037980956026725851025810903539588074527807884033772022432228292204478437582804434451206925623032901253365274930425069953387240583521226936292182784718411341843585229346873831070243068658103155343465371522813749465835837164046994954842111790970759369291926854818261733366363409884774162003906799254380752869692833731248143287963707910170438637529584675833711117433545023335049248860265954537808484539981648201355084637647761108167815055307893873530534110722571786418479334611688115586200204055351302869137167809103006526738476769341973920040221249943756734228411626730656261257746583406924059967945351276456545919654614631478409439505125521630382880418740262960255285210138095917137828711682115293012441539536029280823070060894929994133396577656391129435662757830334880708343231591108777937062969306880407941149485490307839011786059015496612602569040427205635915851415840659825207671975768884511406525206937517396187266459344309009154743639498622157358226531707173082125262877878429582972440745879880287732473511795857600333088643182209698786750654435086562338828835684192010807922135096620668916362471050672871508612123824153856448702826753991151442843381794542054302877121303405419842243616561920774421334874899421101742206254219939660083452370108063486870890069716987823771538434740735224965238001104114394388418567358431166435335444916746926537531896369505937850320314824207073529274976305610641948732221651915729603408303707190125142891781938067489686698039205325524717848452828091125128278394288350794854348933604172876015647432182081021154279383016797805505011051034215677272289779434941411886012383571007422023427426228896441480160119280434575797501513454244693842442962152328985445817038947162681557261129787126939087394232825720423875475906794308645290920410407276897851371782579393362297309981032323118278149388555610804277915998974139696179749254907892292232960331986568313564245478637430918483621065872545372904868044877004518571391182973920691107985316380881606925549739171916182115996345395349346667775520585199977086059671436748441325719047924586970473782941628408057662895945046534115432026598809986428255879421248476679823769642016317180062471640586976095288655253053823492511530525683548533219303171029482245680285005974648527298336065381777336863452799541382592249541099267874653176126625698681459858713322942312458001183483776842792991812995697908833814962363258028976307465096824489723823822202351405009619303668833948107466880314586150615773255916117890580660145764396381118406426298286283198456859430166039371301019445029484221886834172099002937678398178761723573916026537268646961198181074482038198916421728803303735460334510621472607512422278392118206534865433352133783781660857514529692877044879867359449588156531753187561842313579757727684391653820240381174018486863853100834039574736909153018418300393628608136317007403222516969198062251779565566439255865166218308184705909231498497805792443047384658972942335462456967480439642218677530263966744907357917580505606349533435592787371548767947915168734412125162542053021476943771034169086590679064672998365848638521122041956937510867311626646367702691467831118528332260572875449844706194301407012965589457605101342517582639002469227155458594240884648927509147550410236285313798690265375928923084274033865317246203016077368186284889056806594831883477143739557657156149549568826292104987961739438872813493230738872752820117992596237708769718998967402985585581986122489276553392612126386518976311106837642718828240504697508189528288963252103476924459488288394643422042342989237439195081540275007171364358254587721987871149534337574129839433877109803744197042500809025865446148974915703759378545887089272321996849527958391852340216655958584911124261517510447233082585863024999675272194843237394598943539566574171945965514849980153553818888757429077567800415875763422647554672763776105237585629046058232453211467696751630728466414452153303241072566999309805632920030307135920814281584365880308178819791717557631671010852704641487652921723308562714780975914398057856930845144075007529921150638176329790664136369266820590177154586979225296862960148774936390568960406996716599955640514706792462383858869704572825842762578041911239062998678205364992217003411031194653314288022382557574549534038210966321087687973407759884196102071117544346787425431348142416710194299383932386817328922135416701238985812353965934227210339629909133268841346984248688369055081621955855123302990534198832124312942152006279170

theorem hPbd9len : Pbd9.length = 1024 := by unfold Pbd9; rw [decodePoly_length]

theorem bdLev9 : bwdCols V3.ops q 0 1024 W_rev 256 2 256 0 0 Pbd8 = Pbd9 := by
  rw [bwdCols_eq_bf,
    @bfCols_eq_bfBlocks _ _ 0 1024 W_rev 256 2 (by norm_num) Pbd8 hPbd8len ⟨2, rfl⟩,
    wl_bwd 256 (1024 - 2) 0]
  decide!

theorem bdLev10 : bwdCols V3.ops q 0 1024 W_rev 512 1 512 0 0 Pbd9 = onesP := by
  rw [bwdCols_eq_bf,
    @bfCols_eq_bfBlocks _ _ 0 1024 W_rev 512 1 (by norm_num) Pbd9 hPbd9len ⟨1, rfl⟩,
    wl_bwd 512 (1024 - 1) 0]
  decide!

theorem fwd_unroll (ops : ModOps) (d : Int) (x : List Int) :
    fftForwardG ops d x =
      fwdCols ops q d 1024 W 1 512 1 0 0 (fwdCols ops q d 1024 W 2 256 2 0 0 (fwdCols ops q d 1024 W 4 128 4 0 0 (fwdCols ops q d 1024 W 8 64 8 0 0 (fwdCols ops q d 1024 W 16 32 16 0 0 (fwdCols ops q d 1024 W 32 16 32 0 0 (fwdCols ops q d 1024 W 64 8 64 0 0 (fwdCols ops q d 1024 W 128 4 128 0 0 (fwdCols ops q d 1024 W 256 2 256 0 0 (fwdCols ops q d 1024 W 512 1 512 0 0 (x)))))))))) := by
  have h0 : fftForwardG ops d x = fwdLevels ops q d 1024 W 1024 512 1 x := rfl
  rw [h0]
  rw [fwdLevels_succ, if_pos (by norm_num),
    show (512 >>> 1 : Nat) = 256 from rfl, show (1 <<< 1 : Nat) = 2 from rfl]
  rw [fwdLevels_succ, if_pos (by norm_num),
    show (256 >>> 1 : Nat) = 128 from rfl, show (2 <<< 1 : Nat) = 4 from rfl]
  rw [fwdLevels_succ, if_pos (by norm_num),
    show (128 >>> 1 : Nat) = 64 from rfl, show (4 <<< 1 : Nat) = 8 from rfl]
  rw [fwdLevels_succ, if_pos (by norm_num),
    show (64 >>> 1 : Nat) = 32 from rfl, show (8 <<< 1 : Nat) = 16 from rfl]
  rw [fwdLevels_succ, if_pos (by norm_num),
    show (32 >>> 1 : Nat) = 16 from rfl, show (16 <<< 1 : Nat) = 32 from rfl]
  rw [fwdLevels_succ, if_pos (by norm_num),
    show (16 >>> 1 : Nat) = 8 from rfl, show (32 <<< 1 : Nat) = 64 from rfl]
  rw [fwdLevels_succ, if_pos (by norm_num),
    show (8 >>> 1 : Nat) = 4 from rfl, show (64 <<< 1 : Nat) = 128 from rfl]
  rw [fwdLevels_succ, if_pos (by norm_num),
    show (4 >>> 1 : Nat) = 2 from rfl, show (128 <<< 1 : Nat) = 256 from rfl]
  rw [fwdLevels_succ, if_pos (by norm_num),
    show (2 >>> 1 : Nat) = 1 from rfl, show (256 <<< 1 : Nat) = 512 from rfl]
  rw [fwdLevels_succ, if_pos (by norm_num),
    show (1 >>> 1 : Nat) = 0 from rfl, show (512 <<< 1 : Nat) = 1024 from rfl]
  rw [fwdLevels_succ, if_neg (by norm_num)]

theorem bwd_unroll (ops : ModOps) (d : Int) (x : List Int) :
    fftBackwardG ops d x =
      bwdCols ops q d 1024 W_rev 512 1 512 0 0 (bwdCols ops q d 1024 W_rev 256 2 256 0 0 (bwdCols ops q d 1024 W_rev 128 4 128 0 0 (bwdCols ops q d 1024 W_rev 64 8 64 0 0 (bwdCols ops q d 1024 W_rev 32 16 32 0 0 (bwdCols ops q d 1024 W_rev 16 32 16 0 0 (bwdCols ops q d 1024 W_rev 8 64 8 0 0 (bwdCols ops q d 1024 W_rev 4 128 4 0 0 (bwdCols ops q d 1024 W_rev 2 256 2 0 0 (bwdCols ops q d 1024 W_rev 1 512 1 0 0 (x)))))))))) := by
  have h0 : fftBackwardG ops d x = bwdLevels ops q d 1024 W_rev 1024 1 512 x := rfl
  rw [h0]
  rw [bwdLevels_succ, if_pos (by norm_num),
    show (1 <<< 1 : Nat) = 2 from rfl, show (512 >>> 1 : Nat) = 256 from rfl]
  rw [bwdLevels_succ, if_pos (by norm_num),
    show (2 <<< 1 : Nat) = 4 from rfl, show (256 >>> 1 : Nat) = 128 from rfl]
  rw [bwdLevels_succ, if_pos (by norm_num),
    show (4 <<< 1 : Nat) = 8 from rfl, show (128 >>> 1 : Nat) = 64 from rfl]
  rw [bwdLevels_succ, if_pos (by norm_num),
    show (8 <<< 1 : Nat) = 16 from rfl, show (64 >>> 1 : Nat) = 32 from rfl]
  rw [bwdLevels_succ, if_pos (by norm_num),
    show (16 <<< 1 : Nat) = 32 from rfl, show (32 >>> 1 : Nat) = 16 from rfl]
  rw [bwdLevels_succ, if_pos (by norm_num),
    show (32 <<< 1 : Nat) = 64 from rfl, show (16 >>> 1 : Nat) = 8 from rfl]
  rw [bwdLevels_succ, if_pos (by norm_num),
    show (64 <<< 1 : Nat) = 128 from rfl, show (8 >>> 1 : Nat) = 4 from rfl]
  rw [bwdLevels_succ, if_pos (by norm_num),
    show (128 <<< 1 : Nat) = 256 from rfl, show (4 >>> 1 : Nat) = 2 from rfl]
  rw [bwdLevels_succ, if_pos (by norm_num),
    show (256 <<< 1 : Nat) = 512 from rfl, show (2 >>> 1 : Nat) = 1 from rfl]
  rw [bwdLevels_succ, if_pos (by norm_num),
    show (512 <<< 1 : Nat) = 1024 from rfl, show (1 >>> 1 : Nat) = 0 from rfl]
  rw [bwdLevels_succ, if_neg (by norm_num)]

/-- Concrete evaluation: the forward transform of `D0` is the all-ones
polynomial. -/
theorem fftForward_D0 : V3.fftForward D0 = onesP := by
  show fftForwardG V3.ops 0 D0 = onesP
  rw [fwd_unroll, fdLev1, fdLev2, fdLev3, fdLev4, fdLev5, fdLev6, fdLev7, fdLev8, fdLev9, fdLev10]

/-- Concrete evaluation: the backward transform of the all-ones
polynomial (its result holds negative coefficients). -/
theorem fftBackward_ones : V3.fftBackward onesP = Pbo10 := by
  show fftBackwardG V3.ops 0 onesP = Pbo10
  rw [bwd_unroll, boLev1, boLev2, boLev3, boLev4, boLev5, boLev6, boLev7, boLev8, boLev9, boLev10]

/-- Concrete evaluation: the backward transform of `D0` is the all-ones
polynomial. -/
theorem fftBackward_D0 : V3.fftBackward D0 = onesP := by
  show fftBackwardG V3.ops 0 D0 = onesP
  rw [bwd_unroll, bdLev1, bdLev2, bdLev3, bdLev4, bdLev5, bdLev6, bdLev7, bdLev8, bdLev9, bdLev10]

end RLWE
namespace RLWE

set_option maxRecDepth 100000

/-- The Polynomial invariant of the spec: length exactly `n`, every
coefficient in `[0, q)`. -/
abbrev Poly (x : List Int) : Prop := x.length = n ∧ ∀ v ∈ x, 0 ≤ v ∧ v < q

theorem W_length : W.length = n := by
  unfold W
  rw [List.length_map, List.length_range]

theorem W_rev_length : W_rev.length = n := by
  unfold W_rev
  rw [List.length_map, List.length_range]

/-- The shared-secret `map` over `range a.length` is a `zipWith` once the
second operand is long enough. -/
theorem rangeMap_mulMod_eq_zipWith (mm : Int → Int → Int → Int) (a b : List Int)
    (h : a.length ≤ b.length) :
    (List.range a.length).map (fun i => mm (a.getD i 0) (b.getD i 0) q) =
      List.zipWith (fun u v => mm u v q) a b := by
  apply List.ext_getElem
  · rw [List.length_map, List.length_range, List.length_zipWith]
    omega
  · intro p h1 h2
    rw [List.getElem_map, List.getElem_range, List.getElem_zipWith]
    have hpa : p < a.length := by
      rw [List.length_map, List.length_range] at h1
      exact h1
    have hpb : p < b.length := by omega
    rw [getD_eq_getElem_of_lt 0 hpa, getD_eq_getElem_of_lt 0 hpb]

/-- Sender secret of `encapsulate(onesP)` at randomness `D0`. -/
theorem encSecret_onesP_D0 :
    (List.range D0.length).map
      (fun i => V3.mulMod (D0.getD i 0) (onesP.getD i 0) q) = D0 := by
  rw [rangeMap_mulMod_eq_zipWith V3.mulMod D0 onesP (by rw [hD0len, honesPlen])]
  decide!

/-- Receiver product of `decapsulate(onesP, D0)` before the backward
transform. -/
theorem decSecret_onesP_D0 :
    (List.range onesP.length).map
      (fun i => V3.mulMod (onesP.getD i 0) (D0.getD i 0) q) = D0 := by
  rw [rangeMap_mulMod_eq_zipWith V3.mulMod onesP D0 (by rw [hD0len, honesPlen])]
  decide!

/-- Claim C1: the agreement law
`decapsulate(encapsulate(publicKey).ciphertext, privateKey) ==
encapsulate(publicKey).sharedSecret` FAILS on the valid private key `D0`
with encapsulation randomness `D0`: the key pair is `(D0, onesP)`, the
encapsulation returns ciphertext `onesP` and sender secret `D0`, but the
receiver computes `fftBackward(D0) = onesP ≠ D0` (they differ at index 1).
This refutes the claim; the code has no agreement mechanism because
`fftBackward` does not invert `fftForward`. -/
theorem agreement_law_fails :
    V3.generateKeyPair D0 = (D0, onesP) ∧
    V3.encapsulate onesP D0 = (onesP, D0) ∧
    V3.decapsulate onesP D0 ≠ D0 := by
  refine ⟨?_, ?_, ?_⟩
  · unfold V3.generateKeyPair
    rw [fftForward_D0]
  · unfold V3.encapsulate
    rw [fftForward_D0, encSecret_onesP_D0]
  · unfold V3.decapsulate
    rw [decSecret_onesP_D0, fftBackward_D0]
    decide!

/-- Claim C2: the round-trip law `backward(forward(x)) == x` FAILS on the
valid polynomial `D0` (length `n`, coefficients in `[0, q)`):
`fftForward(D0) = onesP` but `fftBackward(onesP)` is `Pbo10`, which is not
`D0` (e.g. its coefficient 1 is `-6151`). -/
theorem roundtrip_law_fails :
    D0.length = n ∧ (∀ v ∈ D0, 0 ≤ v ∧ v < q) ∧
      V3.fftBackward (V3.fftForward D0) ≠ D0 := by
  refine ⟨by decide!, by decide!, ?_⟩
  rw [fftForward_D0, fftBackward_ones]
  decide!

/-- Claim C3 (amended): the `V2` helpers (`rlweBTCETH2.js`, native `%` with
`((x % m) + m) % m` normalization) are closed on `[0, q)` and `V2.mod`
maps every integer, negative included, into `[0, q)`; of the `V3` helpers
(`rlweBTCETH3.js`, big-integer truncated `mod`) only `addMod` and `mulMod`
are closed on `[0, q)` arguments.  The original claim fails for
`V3.subMod` and `V3.mod` (see the counterexample). -/
theorem modular_helpers_amended (a b x : Int)
    (ha : 0 ≤ a ∧ a < q) (hb : 0 ≤ b ∧ b < q) :
    (0 ≤ V2.addMod a b q ∧ V2.addMod a b q < q) ∧
    (0 ≤ V2.subMod a b q ∧ V2.subMod a b q < q) ∧
    (0 ≤ V2.mulMod a b q ∧ V2.mulMod a b q < q) ∧
    (0 ≤ V2.mod x q ∧ V2.mod x q < q) ∧
    (0 ≤ V3.addMod a b q ∧ V3.addMod a b q < q) ∧
    (0 ≤ V3.mulMod a b q ∧ V3.mulMod a b q < q) := by
  have hq : (0 : Int) < q := by decide
  exact ⟨V2.mod_range _ _ hq, V2.mod_range _ _ hq, V2.mod_range _ _ hq,
    V2.mod_range _ _ hq,
    tmod_range_of_nonneg (by omega) hq,
    tmod_range_of_nonneg (mul_nonneg ha.1 hb.1) hq⟩

/-- Witness for C3 at `a = 5`, `b = 7`, `x = -3`. -/
theorem modular_helpers_amended_witness :
    ((0 : Int) ≤ 5 ∧ (5 : Int) < q) ∧ ((0 : Int) ≤ 7 ∧ (7 : Int) < q) ∧
    ((0 ≤ V2.addMod 5 7 q ∧ V2.addMod 5 7 q < q) ∧
     (0 ≤ V2.subMod 5 7 q ∧ V2.subMod 5 7 q < q) ∧
     (0 ≤ V2.mulMod 5 7 q ∧ V2.mulMod 5 7 q < q) ∧
     (0 ≤ V2.mod (-3) q ∧ V2.mod (-3) q < q) ∧
     (0 ≤ V3.addMod 5 7 q ∧ V3.addMod 5 7 q < q) ∧
     (0 ≤ V3.mulMod 5 7 q ∧ V3.mulMod 5 7 q < q)) :=
  ⟨by decide, by decide,
    modular_helpers_amended 5 7 (-3) (by decide) (by decide)⟩

/-- Counterexample to C3 as stated: in the `V3` suite (cited lines 14-28
of `rlweBTCETH3.js`), `subMod 0 1 q = -1` although `0` and `1` lie in
`[0, q)`, and the normalize `mod` leaves `-1` negative, because
big-integer `mod` truncates toward zero. -/
theorem modular_helpers_counterexample :
    ((0 : Int) ≤ 0 ∧ (0 : Int) < q) ∧ ((0 : Int) ≤ 1 ∧ (1 : Int) < q) ∧
    V3.subMod 0 1 q = -1 ∧ V3.mod (-1) q = -1 := by decide

theorem V2_poly_fftForward (x : List Int) (hx : Poly x) :
    Poly (V2.fftForward x) := by
  have hq : (0 : Int) < q := by decide
  have heq : V2.fftForward x = fwdLevels V2.ops q 0 n W n (n >>> 1) 1 x := rfl
  rw [heq]
  constructor
  · rw [fwdLevels_length]
    exact hx.1
  · exact fwdLevels_mem V2.ops q 0 n W
      (fun a b => V2.mod_range _ _ hq) (fun a b => V2.mod_range _ _ hq)
      n (n >>> 1) 1 x hx.2

theorem V2_poly_fftBackward (x : List Int) (hx : Poly x) :
    Poly (V2.fftBackward x) := by
  have hq : (0 : Int) < q := by decide
  have heq : V2.fftBackward x = bwdLevels V2.ops q 0 n W_rev n 1 (n >>> 1) x := rfl
  rw [heq]
  constructor
  · rw [bwdLevels_length]
    exact hx.1
  · exact bwdLevels_mem V2.ops q 0 n W_rev
      (fun a b => V2.mod_range _ _ hq) (fun a b => V2.mod_range _ _ hq)
      n 1 (n >>> 1) x hx.2

theorem V2_poly_secret (a b : List Int) (ha : a.length = n) :
    Poly ((List.range a.length).map fun i =>
      V2.mulMod (a.getD i 0) (b.getD i 0) q) := by
  have hq : (0 : Int) < q := by decide
  constructor
  · rw [List.length_map, List.length_range, ha]
  · intro v hv
    rw [List.mem_map] at hv
    obtain ⟨i, _, hi⟩ := hv
    rw [← hi]
    exact V2.mod_range _ _ hq

/-- Claim C4 (amended): in the `rlweBTCETH2.js` suite (`V2`, whose `mod`
normalizes negatives) every core operation preserves the Polynomial
invariant.  The original claim also covers the `rlweBTCETH3.js` suite
(`V3`), where it fails: `fftBackward` can output negative coefficients
(see the counterexample). -/
theorem invariant_preservation_amended (x y : List Int)
    (hx : Poly x) (hy : Poly y) :
    Poly (V2.fftForward x) ∧ Poly (V2.fftBackward x) ∧
    Poly (V2.generateKeyPair x).1 ∧ Poly (V2.generateKeyPair x).2 ∧
    Poly (V2.encapsulate x y).1 ∧ Poly (V2.encapsulate x y).2 ∧
    Poly (V2.decapsulate y x) := by
  unfold V2.generateKeyPair V2.encapsulate V2.decapsulate
  dsimp only
  exact ⟨V2_poly_fftForward x hx, V2_poly_fftBackward x hx, hx,
    V2_poly_fftForward x hx, V2_poly_fftForward y hy,
    V2_poly_secret y x hy.1,
    V2_poly_fftBackward _ (V2_poly_secret y x hy.1)⟩

/-- Witness for C4 at `x = y = onesP`. -/
theorem invariant_preservation_amended_witness :
    Poly (V2.fftForward onesP) ∧ Poly (V2.fftBackward onesP) ∧
    Poly (V2.generateKeyPair onesP).1 ∧ Poly (V2.generateKeyPair onesP).2 ∧
    Poly (V2.encapsulate onesP onesP).1 ∧ Poly (V2.encapsulate onesP onesP).2 ∧
    Poly (V2.decapsulate onesP onesP) :=
  invariant_preservation_amended onesP onesP (by decide!) (by decide!)

/-- Counterexample to C4 as stated: the all-ones polynomial satisfies the
invariant, but `fftBackward` of `rlweBTCETH3.js` maps it to a polynomial
with negative coefficients. -/
theorem invariant_preservation_counterexample :
    Poly onesP ∧ ¬ Poly (V3.fftBackward onesP) := by
  refine ⟨by decide!, ?_⟩
  intro hP
  rw [fftBackward_ones] at hP
  exact absurd hP (by decide!)

/-- Claim C5: `generateKeyPair` returns the sampled polynomial itself as
the private key, untransformed, and the public key is `fftForward` of a
copy of it; the function is total (no error conditions). -/
theorem generateKeyPair_structure (privateKey : List Int) :
    (V3.generateKeyPair privateKey).2 = V3.fftForward privateKey ∧
    (V3.generateKeyPair privateKey).1 = privateKey := by
  unfold V3.generateKeyPair
  dsimp only
  exact ⟨rfl, rfl⟩

/-- Raise condition of `validateParameters`: an error exactly when `n` is
not a positive power of two, `q` is not prime, or `q < n` (strictly
less: `q = n` passes, because the code checks `if (q < n) throw`). -/
theorem validateParameters_error_cond (nv qv : Nat) :
    (∃ msg, validateParameters nv qv = Except.error msg) ↔
      (¬ (∃ e, nv = 2 ^ e) ∨ ¬ Nat.Prime qv ∨ qv < nv) := by
  have h := validateParameters_ok_iff nv qv
  constructor
  · rintro ⟨msg, hmsg⟩
    by_contra hcon
    push_neg at hcon
    have hok := h.mpr hcon
    rw [hok] at hmsg
    exact Except.noConfusion hmsg
  · intro hbad
    rcases hv : validateParameters nv qv with msg | u
    · exact ⟨msg, rfl⟩
    · obtain ⟨h1, h2, h3⟩ := h.mp (by cases u; exact hv)
      rcases hbad with hb | hb | hb
      · exact absurd h1 hb
      · exact absurd h2 hb
      · omega

/-- Counterexample to C6 as stated: with `n = 2`, `q = 2` we have
`q ≤ n` (and `n` a power of two, `q` prime), yet validation succeeds
instead of raising, because the code only rejects `q < n`. -/
theorem validateParameters_counterexample :
    validateParameters 2 2 = Except.ok () ∧ (2 : Nat) ≤ 2 ∧
      Nat.Prime 2 ∧ (2 : Nat) = 2 ^ 1 :=
  ⟨rfl, by omega, by norm_num, by norm_num⟩

/-- Main execution block of the second copy in `rlweBTCETH2.js`:
`try { validateParameters(); const { privateKey, publicKey } =
generateKeyPair(); ... }`.  `validateParameters()` is the first
statement; the `Math.random` draws (the private key and the
encapsulation randomness) are modeled by `sampler`, which the block
invokes only after validation returns, matching the statement order.
The thrown `Error` propagates as `Except.error`; on success the block
returns the sender and receiver shared secrets it derives. -/
def V2.mainRun (nv qv : Nat) (sampler : Unit → List Int × List Int) :
    Except String (List Int × List Int) :=
  match validateParameters nv qv with
  | Except.error msg => Except.error msg
  | Except.ok _ =>
    let s := sampler ()
    let kp := V2.generateKeyPair s.1
    let enc := V2.encapsulate kp.2 s.2
    Except.ok (enc.2, V2.decapsulate enc.1 kp.1)

/-- Main execution block of `rlweBTCETH3.js`:
`try { const { privateKey, publicKey } = generateKeyPair(); ... }`.
It contains no call to any validation function (none exists in that
file), so it goes straight to key generation. -/
def V3.mainRun (sampler : Unit → List Int × List Int) :
    Except String (List Int × List Int) :=
  let s := sampler ()
  let kp := V3.generateKeyPair s.1
  let enc := V3.encapsulate kp.2 s.2
  Except.ok (enc.2, V3.decapsulate enc.1 kp.1)

/-- Claim C6 (amended): in `rlweBTCETH2.js`, parameter validation is the
first statement of the run, and it raises exactly when `n` is not a
positive power of two, `q` is not prime, or `q < n` -- strictly less,
not the claimed `q ≤ n`: `q = n` passes, because the code checks
`if (q < n) throw` (see the counterexample with `n = q = 2`).  A failed
validation aborts the run with that error before any randomness is
drawn and before any key material exists: the outcome is the same for
every sampler.  When validation passes, the run derives its key
material from the drawn randomness.  The also-cited `rlweBTCETH3.js`
performs no validation at all: its run never raises and always
proceeds to key generation. -/
theorem validateParameters_main_amended (nv qv : Nat)
    (s1 s2 : Unit → List Int × List Int) :
    ((∃ msg, validateParameters nv qv = Except.error msg) ↔
      (¬ (∃ e, nv = 2 ^ e) ∨ ¬ Nat.Prime qv ∨ qv < nv)) ∧
    (∀ msg, validateParameters nv qv = Except.error msg →
      V2.mainRun nv qv s1 = Except.error msg ∧
      V2.mainRun nv qv s1 = V2.mainRun nv qv s2) ∧
    (validateParameters nv qv = Except.ok () →
      V2.mainRun nv qv s1 = Except.ok
        ((V2.encapsulate (V2.generateKeyPair (s1 ()).1).2 (s1 ()).2).2,
         V2.decapsulate
           (V2.encapsulate (V2.generateKeyPair (s1 ()).1).2 (s1 ()).2).1
           (V2.generateKeyPair (s1 ()).1).1)) ∧
    (∃ r, V3.mainRun s1 = Except.ok r) := by
  refine ⟨validateParameters_error_cond nv qv, ?_, ?_, ⟨_, rfl⟩⟩
  · intro msg hmsg
    unfold V2.mainRun
    rw [hmsg]
    exact ⟨rfl, rfl⟩
  · intro hok
    unfold V2.mainRun
    rw [hok]

/-- Claim C7: the twiddle tables have length `n`, with
`W[i] = (i + 1) mod q` and `W_rev[i] = (q - i - 1) mod q` for every
`i < n`.  (They are top-level constants computed once from `n` and `q`;
the transforms only read them.) -/
theorem twiddle_tables_spec (i : Nat) (hi : i < n) :
    W.length = n ∧ W_rev.length = n ∧
    W.getD i 0 = (((i : Nat) : Int) + 1) % q ∧
    W_rev.getD i 0 = (q - ((i : Nat) : Int) - 1) % q := by
  have h1 : i < 1024 := hi
  refine ⟨W_length, W_rev_length, ?_, ?_⟩
  · rw [W_getD i hi 0,
      Int.emod_eq_of_lt (by omega) (by show ((i : Nat) : Int) + 1 < 40961; omega)]
  · rw [W_rev_getD i hi 0,
      Int.emod_eq_of_lt (by show (0 : Int) ≤ 40961 - ((i : Nat) : Int) - 1; omega)
        (by show (40961 : Int) - ((i : Nat) : Int) - 1 < 40961; omega)]

/-- Witness for C7 at `i = 0`. -/
theorem twiddle_tables_spec_witness :
    0 < n ∧ (W.length = n ∧ W_rev.length = n ∧
      W.getD 0 0 = (((0 : Nat) : Int) + 1) % q ∧
      W_rev.getD 0 0 = (q - ((0 : Nat) : Int) - 1) % q) :=
  ⟨by decide, twiddle_tables_spec 0 (by decide)⟩

theorem sha256_output_length (msg : List Nat) :
    (Sha256.sha256 msg).length = 32 := by
  unfold Sha256.sha256 Sha256.digestBytes Sha256.wordBytes
  simp only [List.length_append, List.length_cons, List.length_nil]

/-- Claim C8: `sharedSecretToEntropy` is SHA-256 of the concatenation, in
sequence order, of the decimal-string byte encodings of the coefficients
(a pure function of exactly that byte sequence), and its output always
has exactly 32 bytes. -/
theorem sharedSecretToEntropy_spec (s : List Int) :
    sharedSecretToEntropy s =
      Sha256.sha256 ((s.map fun v => (toString v).toList.map Char.toNat).flatten) ∧
    (sharedSecretToEntropy s).length = 32 := by
  have hfold : ∀ (l : List Int) (acc : List Nat),
      l.foldl (fun a v => a ++ (toString v).toList.map Char.toNat) acc =
        acc ++ (l.map fun v => (toString v).toList.map Char.toNat).flatten := by
    intro l
    induction l with
    | nil => intro acc; simp
    | cons vhd tl ih =>
      intro acc
      simp only [List.foldl_cons, List.map_cons, List.flatten_cons, ih,
        List.append_assoc]
  constructor
  · unfold sharedSecretToEntropy
    rw [hfold s [], List.nil_append]
  · exact sha256_output_length _

/-- Claim C9: `decapsulate` mutates only its freshly derived working
buffer (the array built by `.map`); the caller's `ciphertext` and
`privateKey` arrays come back unchanged, and the returned secret is the
value `decapsulate` computes. -/
theorem decapsulate_frame (ciphertext privateKey : List Int) :
    (V3.decapsulateBuffers ciphertext privateKey).2.1 = ciphertext ∧
    (V3.decapsulateBuffers ciphertext privateKey).2.2 = privateKey ∧
    (V3.decapsulateBuffers ciphertext privateKey).1 =
      V3.decapsulate ciphertext privateKey := by
  unfold V3.decapsulateBuffers V3.decapsulate
  dsimp only
  exact ⟨rfl, rfl, rfl⟩

/-- Claim C10: on any length-`n` input, neither transform ever reads out
of range -- the result does not depend on the default value `d` supplied
for out-of-range reads -- and both transforms are total, returning
length-`n` outputs. -/
theorem fft_in_bounds (d dAlt : Int) (x : List Int) (hx : x.length = n) :
    fftForwardG V3.ops d x = fftForwardG V3.ops dAlt x ∧
    (fftForwardG V3.ops d x).length = n ∧
    fftBackwardG V3.ops d x = fftBackwardG V3.ops dAlt x ∧
    (fftBackwardG V3.ops d x).length = n := by
  refine ⟨?_, ?_, ?_, ?_⟩
  · unfold fftForwardG
    exact fwdLevels_d_indep V3.ops q n W W_length (by decide)
      n (n >>> 1) 1 x d dAlt hx (Or.inr ⟨9, rfl, ⟨1, rfl⟩⟩)
  · unfold fftForwardG
    rw [fwdLevels_length]
    exact hx
  · unfold fftBackwardG
    exact bwdLevels_d_indep V3.ops q n W_rev W_rev_length 10 rfl
      n 1 (n >>> 1) x d dAlt hx ⟨0, rfl⟩
  · unfold fftBackwardG
    rw [bwdLevels_length]
    exact hx

/-- Witness for C10 at `d = 5`, `dAlt = 7`, `x = onesP`. -/
theorem fft_in_bounds_witness :
    onesP.length = n ∧
    (fftForwardG V3.ops 5 onesP = fftForwardG V3.ops 7 onesP ∧
     (fftForwardG V3.ops 5 onesP).length = n ∧
     fftBackwardG V3.ops 5 onesP = fftBackwardG V3.ops 7 onesP ∧
     (fftBackwardG V3.ops 5 onesP).length = n) :=
  ⟨by decide!, fft_in_bounds 5 7 onesP (by decide!)⟩

end RLWE
